import Mathlib

/-!
# MarlinKimbra: command ingestion, dispatch interlock and move segmentation

A shallow embedding of parts of `Marlin_main.cpp`:

* `get_command` (serial and SD ingestion, line numbers, checksums, comments),
* `process_commands` (the dispatch skeleton, G0-G3, G60, G61, G90, G91, M112, M999),
* `Stop`, `FlushSerialRequestResend`, `ClearToSend`, `enquecommand`,
* `prepare_move` with `clamp_to_software_endstops`, `calculate_delta`, `adjust_delta`.

Conventions.  A `char` is a natural number (its byte value); C strings are lists of
bytes.  `long`/`int` variables are integers.  `float` variables are rationals and the
arithmetic on them is exact; the C library functions on floats (`sqrt`, `atan2`) are
parameters of the model.  The C library functions on strings (`strchr`, `strstr`,
`strtol`, `strtod`) are modelled after the C standard.  Compile-time configuration
(`BUFSIZE`, `MAX_CMD_SIZE`, `DELTA`, `SCARA`, `SDSUPPORT`, ...) and the code outside
the modelled part (the other switch cases, the arc tracer) form a `Config` value.
The serial port is the list `rx` of received bytes that have not been read yet, the
responses are collected in `out`, and the planner is the list of the
`plan_buffer_line` calls.

The statements about `get_command` are made at the moment a line ends: the state in
which the character that ends the line is the pending input, and the line collected
so far is `receivedLine`.  `get_command_collects_line` relates this state to the
bytes that were received.
-/

namespace MarlinKimbra

/-! ## C strings -/

/-- The C string stored in a character array of `size` bytes: the bytes before the
first NUL. -/
def cstr (size : Nat) (buf : Nat → Nat) : List Nat :=
  ((List.range size).map buf).takeWhile (fun c => c != 0)

/-- C `strchr`: the suffix of the string starting at the first occurrence of `c`
(the returned pointer), or `none` (NULL). -/
def strchr : List Nat → Nat → Option (List Nat)
  | [], _ => none
  | x :: xs, c => if x = c then some (x :: xs) else strchr xs c

/-- C `strstr`: the suffix starting at the first occurrence of `pat`, or `none`. -/
def strstr : List Nat → List Nat → Option (List Nat)
  | [], pat => if pat = [] then some [] else none
  | x :: xs, pat => if pat.isPrefixOf (x :: xs) then some (x :: xs) else strstr xs pat

/-- The bytes of a string literal. -/
def bytes (s : String) : List Nat := s.toList.map Char.toNat

/-- C `isspace` in the "C" locale. -/
def isspace (c : Nat) : Bool := c == 32 || (9 ≤ c && c ≤ 13)

/-- C `isdigit`. -/
def isdigit (c : Nat) : Bool := 48 ≤ c && c ≤ 57

/-- Value of the leading run of decimal digits, continuing the accumulator `acc`. -/
def digitsVal (acc : Nat) : List Nat → Nat
  | [] => acc
  | c :: cs => if isdigit c then digitsVal (acc * 10 + (c - 48)) cs else acc

/-- Largest value of a `long` (32 bits on the AVR target). -/
def LONG_MAX : Int := 2147483647

/-- Smallest value of a `long`. -/
def LONG_MIN : Int := -2147483648

/-- C `strtol(s, NULL, 10)`: skip white space, read an optional sign and the leading
decimal digits; the result saturates at `LONG_MIN`/`LONG_MAX`; no digits give 0. -/
def strtol (s : List Nat) : Int :=
  match s.dropWhile isspace with
  | 45 :: r => max (-(digitsVal 0 r : Int)) LONG_MIN
  | 43 :: r => min (digitsVal 0 r : Int) LONG_MAX
  | r => min (digitsVal 0 r : Int) LONG_MAX

/-- A decimal number `(-1)^neg * mant * 10^exp`, the exact value of a decimal
literal read by `strtod`. -/
structure Dec where
  neg : Bool
  mant : Nat
  exp : Int
deriving DecidableEq, Repr

/-- The rational value of a decimal number. -/
def Dec.toRat (d : Dec) : ℚ :=
  (if d.neg then -1 else 1) * (d.mant : ℚ) * (10 : ℚ) ^ d.exp

/-- The C conversion `(int) x` of the value: truncation toward zero.  (Values
outside the range of `int` are undefined behaviour in C and are not cut here.) -/
def Dec.toInt (d : Dec) : Int :=
  let m : Nat := if 0 ≤ d.exp then d.mant * 10 ^ d.exp.toNat else d.mant / 10 ^ (-d.exp).toNat
  if d.neg then -(m : Int) else (m : Int)

/-- The leading run of decimal digits of a string. -/
def takeDigits (s : List Nat) : List Nat := s.takeWhile isdigit

/-- The string after its leading run of decimal digits. -/
def dropDigits (s : List Nat) : List Nat := s.dropWhile isdigit

/-- The exponent part `e[+|-]digits` of a decimal literal, 0 when there is none
(an `e` that is not followed by digits is not an exponent). -/
def strtodExp (s : List Nat) : Int :=
  match s with
  | c :: r =>
    if c = 101 ∨ c = 69 then
      match r with
      | 45 :: r2 => if takeDigits r2 = [] then 0 else -(digitsVal 0 r2 : Int)
      | 43 :: r2 => if takeDigits r2 = [] then 0 else (digitsVal 0 r2 : Int)
      | r2 => if takeDigits r2 = [] then 0 else (digitsVal 0 r2 : Int)
    else 0
  | [] => 0

/-- The unsigned part of a decimal literal: integer digits, an optional `.` with
fraction digits, an optional exponent.  Without any mantissa digit the value is 0. -/
def strtodUnsigned (neg : Bool) (s : List Nat) : Dec :=
  let ip := takeDigits s
  let r := dropDigits s
  match r with
  | 46 :: r2 =>
    let fp := takeDigits r2
    if ip = [] ∧ fp = [] then ⟨neg, 0, 0⟩
    else ⟨neg, digitsVal 0 (ip ++ fp), strtodExp (dropDigits r2) - (fp.length : Int)⟩
  | _ => if ip = [] then ⟨neg, 0, 0⟩ else ⟨neg, digitsVal 0 ip, strtodExp r⟩

/-- C `strtod(s, NULL)` on decimal input: skip white space, read an optional sign
and a decimal literal.  (The special spellings of infinity and NaN are not
numbers and are read as 0 here, like any text without digits.) -/
def strtod (s : List Nat) : Dec :=
  match s.dropWhile isspace with
  | 45 :: r => strtodUnsigned true r
  | 43 :: r => strtodUnsigned false r
  | r => strtodUnsigned false r

/-- XOR of a sequence of bytes, kept in 8 bits (`byte checksum`). -/
def xorBytes (l : List Nat) : Nat := l.foldl (fun a c => (a ^^^ c) % 256) 0

/-- The `byte checksum` loop of `get_command`: XOR of the bytes that precede the
first `*`. -/
def checksumOf (line : List Nat) : Nat := xorBytes (line.takeWhile (fun c => c != 42))

/-! ## Machine state -/

/-- Logical position: the four entries of a `float[NUM_AXIS]` array. -/
structure Pos where
  x : ℚ
  y : ℚ
  z : ℚ
  e : ℚ
deriving DecidableEq

/-- One call of `plan_buffer_line`. -/
structure PlanReq where
  x : ℚ
  y : ℚ
  z : ℚ
  e : ℚ
  feed_rate : ℚ
  extruder : Nat
  driver : Nat
deriving DecidableEq

/-- Lines written to the serial port. -/
inductive Out where
  | ok
  | resend (n : Int)
  | errLineNo (last : Int)
  | errChecksumMismatch (last : Int)
  | errNoChecksum (last : Int)
  | errNoLineNumberWithChecksum (last : Int)
  | errStopped
  | errKilled
  | unknownCommand (line : List Nat)
  | enqueing (line : List Nat)
  | filePrinted
  | fileSaved
deriving DecidableEq

/-- Machine topology selected at compile time (`DELTA`, `SCARA`, or neither). -/
inductive Topology where
  | cartesian
  | delta
  | scara
deriving DecidableEq

/-- Three floats (`float[3]`). -/
structure Vec3 where
  x : ℚ
  y : ℚ
  z : ℚ
deriving DecidableEq

/-- The global variables of `Marlin_main.cpp` that the modelled functions use,
together with the collaborators they talk to: the serial receive queue `rx`, the
serial output `out`, the SD file being printed `card`, and the planner queue
`planner` (the list of `plan_buffer_line` calls, oldest first).  `killed` records
that `kill` was called (the firmware then halts). -/
structure Machine where
  cmdbuffer : Nat → Nat → Nat
  fromsd : Nat → Bool
  bufindr : Nat
  bufindw : Nat
  buflen : Int
  serial_char : Nat
  serial_count : Nat
  comment_mode : Bool
  gcode_N : Int
  gcode_LastN : Int
  Stopped_gcode_LastN : Int
  Stopped : Bool
  killed : Bool
  rx : List Nat
  out : List Out
  sdprinting : Bool
  card : List Nat
  stop_buffering : Bool
  current_position : Pos
  destination : Pos
  lastpos : Pos
  offset : Vec3
  feedrate : ℚ
  next_feedrate : ℚ
  feedmultiply : Int
  relative_mode : Bool
  axis_relative_modes : Nat → Bool
  min_pos : Vec3
  max_pos : Vec3
  min_software_endstops : Bool
  max_software_endstops : Bool
  add_homing : Vec3
  delta : Vec3
  bed_level : Int → Int → ℚ
  delta_tower1_x : ℚ
  delta_tower1_y : ℚ
  delta_tower2_x : ℚ
  delta_tower2_y : ℚ
  delta_tower3_x : ℚ
  delta_tower3_y : ℚ
  DELTA_DIAGONAL_ROD_2 : ℚ
  axis_scaling : Vec3
  active_extruder : Nat
  active_driver : Nat
  planner : List PlanReq

/-- Compile-time configuration and the code outside `Marlin_main.cpp`'s modelled
part.  `otherG n` / `otherM n` is the body of `case n` of the G / M switch for the
cases that are not modelled in detail (the identity when the build has no such
case), with a flag that is true when the body executes `return`; `toolChange`
is the `T` branch; `mc_arc` gives the `plan_buffer_line` calls of the arc tracer
of `motion_control`; `fwretract` is the `FWRETRACT` block of G0/G1, which
returns `some` state when it takes the command over (and `process_commands`
returns).  `DUAL_X_CARRIAGE` and `LASERBEAM` are taken as undefined. -/
structure Config where
  BUFSIZE : Nat
  MAX_CMD_SIZE : Nat
  SDSUPPORT : Bool
  topology : Topology
  ENABLE_AUTO_BED_LEVELING : Bool
  Z_PROBE_OFFSET_FROM_EXTRUDER : ℚ
  segments_per_second : ℚ
  AUTOLEVEL_GRID : ℚ
  Linkage_1 : ℚ
  Linkage_2 : ℚ
  L1_2 : ℚ
  L2_2 : ℚ
  SCARA_offset_x : ℚ
  SCARA_offset_y : ℚ
  SCARA_RAD2DEG : ℚ
  CUSTOM_M_CODE_SET_Z_PROBE_OFFSET : Option Int
  sqrt : ℚ → ℚ
  atan2 : ℚ → ℚ → ℚ
  SF_ARC_FIX : Bool
  otherG : Int → Machine → Machine × Bool
  otherM : Int → Machine → Machine × Bool
  toolChange : Machine → Machine
  mc_arc : Machine → Bool → List PlanReq
  fwretract : Machine → Option Machine

/-- Write one byte into `cmdbuffer[slot][idx]`. -/
def setChar (buf : Nat → Nat → Nat) (slot idx c : Nat) : Nat → Nat → Nat :=
  Function.update buf slot (Function.update (buf slot) idx c)

/-- The command string held in `cmdbuffer[slot]`. -/
def Machine.cmd (cfg : Config) (s : Machine) (slot : Nat) : List Nat :=
  cstr cfg.MAX_CMD_SIZE (s.cmdbuffer slot)

/-! ## Responses -/

/-- `ClearToSend`: acknowledge with `ok`, except for a command that came from
the SD card. -/
def ClearToSend (cfg : Config) (s : Machine) : Machine :=
  { s with out := s.out ++ (if cfg.SDSUPPORT && s.fromsd s.bufindr then [] else [Out.ok]) }

/-- `FlushSerialRequestResend`: drop the pending serial input
(`MYSERIAL.flush()`), ask for line `gcode_LastN + 1` again, then `ClearToSend`. -/
def FlushSerialRequestResend (cfg : Config) (s : Machine) : Machine :=
  ClearToSend cfg { s with rx := [], out := s.out ++ [Out.resend (s.gcode_LastN + 1)] }

/-- `kill`: report and halt for ever (`while(1)`); nothing runs afterwards. -/
def kill (s : Machine) : Machine :=
  { s with killed := true, out := s.out ++ [Out.errKilled] }

/-- `enquecommand`: when there is room, copy the command (`strcpy`) into
`cmdbuffer[bufindw]`, echo it, and advance the queue. -/
def enquecommand (cfg : Config) (cmd : List Nat) (s : Machine) : Machine :=
  if s.buflen < cfg.BUFSIZE then
    let s := { s with
      cmdbuffer := Function.update s.cmdbuffer s.bufindw
        (fun i => (cmd ++ [0]).getD i (s.cmdbuffer s.bufindw i)) }
    { s with
      out := s.out ++ [Out.enqueing (s.cmd cfg s.bufindw)]
      bufindw := (s.bufindw + 1) % cfg.BUFSIZE
      buflen := s.buflen + 1 }
  else s

/-! ## get_command -/

/-- The test that ends a line in the serial loop of `get_command`, for the
character `c` just read. -/
def endsLine (cfg : Config) (comment_mode : Bool) (serial_count : Nat) (c : Nat) : Bool :=
  c == 10 || c == 13 || (c == 58 && comment_mode == false) ||
    decide (serial_count ≥ cfg.MAX_CMD_SIZE - 1)

/-- The `Stopped` notice that `get_command` prints for a line whose `G` code is
0, 1, 2 or 3 while the machine is stopped (the line is enqueued all the same). -/
def stoppedNotice (line : List Nat) (stopped : Bool) : List Out :=
  match strchr line 71 with
  | some p =>
    if (strtod (p.drop 1)).toInt ∈ [0, 1, 2, 3] ∧ stopped = true then [Out.errStopped] else []
  | none => []

/-- The tail of the serial branch of `get_command` once the line number and the
checksum are accepted: the `Stopped` notice for G0-G3, the immediate `M112`,
and the enqueue (`bufindw`, `buflen`), then `serial_count = 0`.  The flag is
true when the function returns (here: never returns from `kill`). -/
def acceptLine (cfg : Config) (line : List Nat) (s : Machine) : Machine × Bool :=
  let s1 : Machine := { s with out := s.out ++ stoppedNotice line s.Stopped }
  if line = bytes "M112" then (kill s1, true)
  else
    ({ s1 with
        bufindw := (s1.bufindw + 1) % cfg.BUFSIZE
        buflen := s1.buflen + 1
        serial_count := 0 }, false)

/-- A rejected numbered line: the error line `err`, the resend request, and
`serial_count = 0; return`. -/
def rejectLine (cfg : Config) (err : Out) (s : Machine) : Machine × Bool :=
  ({ FlushSerialRequestResend cfg { s with out := s.out ++ [err] } with serial_count := 0 }, true)

/-- The serial branch of `get_command` for a terminated, non-empty line that is
not in comment mode (`if(!comment_mode) ...`): the line-number and checksum
protocol.  `s` already has the terminating NUL written. -/
def serialLine (cfg : Config) (s : Machine) : Machine × Bool :=
  let line := s.cmd cfg s.bufindw
  let s := { s with comment_mode := false, fromsd := Function.update s.fromsd s.bufindw false }
  match strchr line 78 with
  | some p =>
    let s := { s with gcode_N := strtol (p.drop 1) }
    if s.gcode_N ≠ s.gcode_LastN + 1 ∧ strstr line (bytes "M110") = none then
      rejectLine cfg (Out.errLineNo s.gcode_LastN) s
    else
      match strchr line 42 with
      | some q =>
        if (strtod (q.drop 1)).toInt ≠ (checksumOf line : Int) then
          rejectLine cfg (Out.errChecksumMismatch s.gcode_LastN) s
        else acceptLine cfg line { s with gcode_LastN := s.gcode_N }
      | none => rejectLine cfg (Out.errNoChecksum s.gcode_LastN) s
  | none =>
    match strchr line 42 with
    | some _ =>
      ({ s with out := s.out ++ [Out.errNoLineNumberWithChecksum s.gcode_LastN]
                serial_count := 0 }, true)
    | none => acceptLine cfg line s

/-- One pass of the body of the serial `while` loop of `get_command`, for the
character `c` returned by `MYSERIAL.read()`.  The flag is true when the body
executes `return`. -/
def serialChar (cfg : Config) (c : Nat) (s : Machine) : Machine × Bool :=
  let s := { s with serial_char := c }
  if endsLine cfg s.comment_mode s.serial_count c then
    if s.serial_count = 0 then ({ s with comment_mode := false }, true)
    else
      let s := { s with cmdbuffer := setChar s.cmdbuffer s.bufindw s.serial_count 0 }
      if s.comment_mode = false then serialLine cfg s
      else ({ s with serial_count := 0 }, false)
  else
    let s := if c = 59 then { s with comment_mode := true } else s
    if s.comment_mode = false then
      ({ s with
          cmdbuffer := setChar s.cmdbuffer s.bufindw s.serial_count c
          serial_count := s.serial_count + 1 }, false)
    else (s, false)

/-- The serial `while` loop of `get_command`
(`while(MYSERIAL.available() > 0 && buflen < BUFSIZE)`); every pass reads one
character, so the length of the pending input bounds the number of passes. -/
def serialLoop (cfg : Config) : Nat → Machine → Machine × Bool
  | 0, s => (s, false)
  | fuel + 1, s =>
    match s.rx with
    | [] => (s, false)
    | c :: rest =>
      if s.buflen < cfg.BUFSIZE then
        let r := serialChar cfg c { s with rx := rest }
        if r.2 then r else serialLoop cfg fuel r.1
      else (s, false)

/-- One pass of the body of the SD `while` loop of `get_command`, for the byte
`c` returned by `card.get()` (which is taken not to fail: `n != -1`); `card`,
the rest of the file, is already advanced.  At the end of the file the print
is reported finished (`card.printingHasFinished()`). -/
def sdChar (cfg : Config) (c : Nat) (s : Machine) : Machine × Bool :=
  let s := { s with serial_char := c }
  if c == 10 || c == 13 || (c == 35 && s.comment_mode == false) ||
      (c == 58 && s.comment_mode == false) ||
      decide (s.serial_count ≥ cfg.MAX_CMD_SIZE - 1) then
    let s := if s.card = [] then
        { s with out := s.out ++ [Out.filePrinted], sdprinting := false } else s
    let s := if c = 35 then { s with stop_buffering := true } else s
    if s.serial_count = 0 then ({ s with comment_mode := false }, true)
    else
      ({ s with
          cmdbuffer := setChar s.cmdbuffer s.bufindw s.serial_count 0
          fromsd := Function.update s.fromsd s.bufindw true
          buflen := s.buflen + 1
          bufindw := (s.bufindw + 1) % cfg.BUFSIZE
          comment_mode := false
          serial_count := 0 }, false)
  else
    let s := if c = 59 then { s with comment_mode := true } else s
    if s.comment_mode = false then
      ({ s with
          cmdbuffer := setChar s.cmdbuffer s.bufindw s.serial_count c
          serial_count := s.serial_count + 1 }, false)
    else (s, false)

/-- The SD `while` loop of `get_command`
(`while(!card.eof() && buflen < BUFSIZE && !stop_buffering)`). -/
def sdLoop (cfg : Config) : Nat → Machine → Machine
  | 0, s => s
  | fuel + 1, s =>
    match s.card with
    | [] => s
    | c :: rest =>
      if s.buflen < cfg.BUFSIZE ∧ s.stop_buffering = false then
        let r := sdChar cfg c { s with card := rest }
        if r.2 then r.1 else sdLoop cfg fuel r.1
      else s

/-- `get_command`: read the pending serial input, then (with `SDSUPPORT`, while
printing from SD and not in the middle of a serial line) the SD file. -/
def get_command (cfg : Config) (s : Machine) : Machine :=
  let r := serialLoop cfg s.rx.length s
  if r.2 then r.1
  else
    let s := r.1
    if cfg.SDSUPPORT = false then s
    else if s.sdprinting = false ∨ s.serial_count ≠ 0 then s
    else
      let s := if s.buflen = 0 then { s with stop_buffering := false } else s
      sdLoop cfg s.card.length s

/-! ## Command parameters -/

/-- `code_seen(code)` on the command string `cmd` (`cmdbuffer[bufindr]`). -/
def code_seen (cmd : List Nat) (code : Nat) : Bool := (strchr cmd code).isSome

/-- The decimal number read by `code_value()` after `code_seen(code)` found
`code`: `strtod` of the text that follows the first occurrence. -/
def code_dec (cmd : List Nat) (code : Nat) : Dec :=
  match strchr cmd code with
  | some p => strtod (p.drop 1)
  | none => ⟨false, 0, 0⟩

/-- `code_value()` after a successful `code_seen(code)`, as a float. -/
def code_value (cmd : List Nat) (code : Nat) : ℚ := (code_dec cmd code).toRat

/-- `(int)code_value()` after a successful `code_seen(code)`. -/
def code_value_int (cmd : List Nat) (code : Nat) : Int := (code_dec cmd code).toInt

/-! ## Kinematics -/

/-- C `sq(x)`. -/
def sq (x : ℚ) : ℚ := x * x

/-- The C conversion `int(x)` of a float: truncation toward zero. -/
def truncToInt (x : ℚ) : Int := if 0 ≤ x then ⌊x⌋ else ⌈x⌉

/-- `calculate_delta` of the `DELTA` build: the three tower carriage heights. -/
def calculate_delta_delta (cfg : Config) (s : Machine) (cartesian : Pos) : Machine :=
  { s with delta :=
      ⟨cfg.sqrt (s.DELTA_DIAGONAL_ROD_2 - sq (s.delta_tower1_x - cartesian.x)
          - sq (s.delta_tower1_y - cartesian.y)) + cartesian.z,
       cfg.sqrt (s.DELTA_DIAGONAL_ROD_2 - sq (s.delta_tower2_x - cartesian.x)
          - sq (s.delta_tower2_y - cartesian.y)) + cartesian.z,
       cfg.sqrt (s.DELTA_DIAGONAL_ROD_2 - sq (s.delta_tower3_x - cartesian.x)
          - sq (s.delta_tower3_y - cartesian.y)) + cartesian.z⟩ }

/-- `calculate_delta` of the `SCARA` build: the two joint angles in degrees. -/
def calculate_delta_scara (cfg : Config) (s : Machine) (cartesian : Pos) : Machine :=
  let px : ℚ := cartesian.x * s.axis_scaling.x - cfg.SCARA_offset_x
  let py : ℚ := cartesian.y * s.axis_scaling.y - cfg.SCARA_offset_y
  let SCARA_C2 : ℚ :=
    if cfg.Linkage_1 = cfg.Linkage_2 then ((sq px + sq py) / (2 * cfg.L1_2)) - 1
    else (sq px + sq py - cfg.L1_2 - cfg.L2_2) / 45000
  let SCARA_S2 : ℚ := cfg.sqrt (1 - sq SCARA_C2)
  let SCARA_K1 : ℚ := cfg.Linkage_1 + cfg.Linkage_2 * SCARA_C2
  let SCARA_K2 : ℚ := cfg.Linkage_2 * SCARA_S2
  let SCARA_theta : ℚ := (cfg.atan2 px py - cfg.atan2 SCARA_K1 SCARA_K2) * -1
  let SCARA_psi : ℚ := cfg.atan2 SCARA_S2 SCARA_C2
  { s with delta :=
      ⟨SCARA_theta * cfg.SCARA_RAD2DEG, (SCARA_theta + SCARA_psi) * cfg.SCARA_RAD2DEG,
       cartesian.z⟩ }

/-- `adjust_delta`: add the bed-level offset, interpolated bilinearly in the
7 x 7 `bed_level` grid, to the three tower coordinates. -/
def adjust_delta (cfg : Config) (s : Machine) (cartesian : Pos) : Machine :=
  let grid_x : ℚ := max (-2999 / 1000) (min (2999 / 1000) (cartesian.x / cfg.AUTOLEVEL_GRID))
  let grid_y : ℚ := max (-2999 / 1000) (min (2999 / 1000) (cartesian.y / cfg.AUTOLEVEL_GRID))
  let floor_x : Int := ⌊grid_x⌋
  let floor_y : Int := ⌊grid_y⌋
  let ratio_x : ℚ := grid_x - floor_x
  let ratio_y : ℚ := grid_y - floor_y
  let z1 : ℚ := s.bed_level (floor_x + 3) (floor_y + 3)
  let z2 : ℚ := s.bed_level (floor_x + 3) (floor_y + 4)
  let z3 : ℚ := s.bed_level (floor_x + 4) (floor_y + 3)
  let z4 : ℚ := s.bed_level (floor_x + 4) (floor_y + 4)
  let left : ℚ := (1 - ratio_y) * z1 + ratio_y * z2
  let right : ℚ := (1 - ratio_y) * z3 + ratio_y * z4
  let offset : ℚ := (1 - ratio_x) * left + ratio_x * right
  { s with delta := ⟨s.delta.x + offset, s.delta.y + offset, s.delta.z + offset⟩ }

/-! ## Moves -/

/-- `clamp_to_software_endstops(destination)`. -/
def clamp_to_software_endstops (cfg : Config) (s : Machine) : Machine :=
  let t := s.destination
  let t : Pos :=
    if s.min_software_endstops then
      let x := if t.x < s.min_pos.x then s.min_pos.x else t.x
      let y := if t.y < s.min_pos.y then s.min_pos.y else t.y
      let n0 : ℚ := 0
      let n1 : ℚ :=
        if cfg.ENABLE_AUTO_BED_LEVELING ∧ cfg.Z_PROBE_OFFSET_FROM_EXTRUDER < 0
        then n0 + cfg.Z_PROBE_OFFSET_FROM_EXTRUDER else n0
      let negative_z_offset : ℚ :=
        if cfg.ENABLE_AUTO_BED_LEVELING ∧ s.add_homing.z < 0 then n1 + s.add_homing.z else n1
      let z := if t.z < s.min_pos.z + negative_z_offset
        then s.min_pos.z + negative_z_offset else t.z
      ⟨x, y, z, t.e⟩
    else t
  let t : Pos :=
    if s.max_software_endstops then
      ⟨if t.x > s.max_pos.x then s.max_pos.x else t.x,
       if t.y > s.max_pos.y then s.max_pos.y else t.y,
       if t.z > s.max_pos.z then s.max_pos.z else t.z, t.e⟩
    else t
  { s with destination := t }

/-- The travel length that `prepare_move` uses on `DELTA` and `SCARA`:
`cartesian_mm`, the Euclidean XYZ length of `difference`, replaced by
`abs(difference[E_AXIS])` when it is below 0.000001. -/
def cartesian_mm (cfg : Config) (difference : Pos) : ℚ :=
  let d := cfg.sqrt (sq difference.x + sq difference.y + sq difference.z)
  if d < 1 / 1000000 then |difference.e| else d

/-- The number of segments of `prepare_move` on `DELTA` and `SCARA`:
`max(1, int(segments_per_second * seconds))` with
`seconds = 6000 * cartesian_mm / feedrate / feedmultiply`. -/
def segmentSteps (cfg : Config) (s : Machine) (mm : ℚ) : Int :=
  let seconds : ℚ := 6000 * mm / s.feedrate / (s.feedmultiply : ℚ)
  max 1 (truncToInt (cfg.segments_per_second * seconds))

/-- One pass of the segment loop of `prepare_move` (`DELTA` / `SCARA`) for the
loop counter `k`: interpolate `destination`, transform it, and submit the
segment to the planner. -/
def segmentStep (cfg : Config) (difference : Pos) (steps : Int) (s : Machine) (k : Nat) :
    Machine :=
  let fraction : ℚ := (k : ℚ) / (steps : ℚ)
  let s := { s with destination :=
      ⟨s.current_position.x + difference.x * fraction,
       s.current_position.y + difference.y * fraction,
       s.current_position.z + difference.z * fraction,
       s.current_position.e + difference.e * fraction⟩ }
  let s := if cfg.topology = Topology.scara then calculate_delta_scara cfg s s.destination
    else adjust_delta cfg (calculate_delta_delta cfg s s.destination) s.destination
  { s with planner := s.planner ++
      [⟨s.delta.x, s.delta.y, s.delta.z, s.destination.e,
        s.feedrate * (s.feedmultiply : ℚ) / 60 / 100, s.active_extruder, s.active_driver⟩] }

/-- `prepare_move`: clamp the destination, then on `DELTA` / `SCARA` split the
move into segments (returning at once when the move is shorter than 0.000001
in XYZ and in E), on a Cartesian machine submit it as one request; finally
`current_position = destination`. -/
def prepare_move (cfg : Config) (s : Machine) : Machine :=
  let s := clamp_to_software_endstops cfg s
  if cfg.topology = Topology.cartesian then
    let rate : ℚ :=
      if s.current_position.x = s.destination.x ∧ s.current_position.y = s.destination.y
      then s.feedrate / 60 else s.feedrate * (s.feedmultiply : ℚ) / 60 / 100
    { s with
      planner := s.planner ++ [⟨s.destination.x, s.destination.y, s.destination.z,
        s.destination.e, rate, s.active_extruder, s.active_driver⟩]
      current_position := s.destination }
  else
    let difference : Pos :=
      ⟨s.destination.x - s.current_position.x, s.destination.y - s.current_position.y,
       s.destination.z - s.current_position.z, s.destination.e - s.current_position.e⟩
    let mm := cartesian_mm cfg difference
    if mm < 1 / 1000000 then s
    else
      let steps := segmentSteps cfg s mm
      let s := (List.range' 1 steps.toNat).foldl (segmentStep cfg difference steps) s
      { s with current_position := s.destination }

/-- `prepare_arc_move`: trace the arc with `mc_arc`, then
`current_position = destination`. -/
def prepare_arc_move (cfg : Config) (isclockwise : Bool) (s : Machine) : Machine :=
  { s with planner := s.planner ++ cfg.mc_arc s isclockwise
           current_position := s.destination }

/-- The value that `get_coordinates` gives one axis of `destination`. -/
def axisTarget (cmd : List Nat) (code : Nat) (relative : Bool) (current : ℚ) : ℚ :=
  if code_seen cmd code then code_value cmd code + (if relative then current else 0)
  else current

/-- The feedrate update shared by `get_coordinates` and G61:
`if(code_seen('F')) { next_feedrate = code_value(); if(next_feedrate > 0.0) feedrate = next_feedrate; }`. -/
def readFeedrate (cmd : List Nat) (s : Machine) : Machine :=
  if code_seen cmd 70 then
    let s := { s with next_feedrate := code_value cmd 70 }
    if s.next_feedrate > 0 then { s with feedrate := s.next_feedrate } else s
  else s

/-- `get_coordinates`: read X Y Z E (absolute or relative) and F. -/
def get_coordinates (cfg : Config) (s : Machine) : Machine :=
  let cmd := s.cmd cfg s.bufindr
  let c := s.current_position
  readFeedrate cmd { s with destination :=
    ⟨axisTarget cmd 88 (s.axis_relative_modes 0 || s.relative_mode) c.x,
     axisTarget cmd 89 (s.axis_relative_modes 1 || s.relative_mode) c.y,
     axisTarget cmd 90 (s.axis_relative_modes 2 || s.relative_mode) c.z,
     axisTarget cmd 69 (s.axis_relative_modes 3 || s.relative_mode) c.e⟩ }

/-- `get_arc_coordinates`: `get_coordinates` (in relative mode with
`SF_ARC_FIX`), then the arc centre offsets I and J. -/
def get_arc_coordinates (cfg : Config) (s : Machine) : Machine :=
  let cmd := s.cmd cfg s.bufindr
  let relative_mode_backup := s.relative_mode
  let s := if cfg.SF_ARC_FIX then { s with relative_mode := true } else s
  let s := get_coordinates cfg s
  let s := if cfg.SF_ARC_FIX then { s with relative_mode := relative_mode_backup } else s
  { s with offset :=
      ⟨if code_seen cmd 73 then code_value cmd 73 else 0,
       if code_seen cmd 74 then code_value cmd 74 else 0, s.offset.z⟩ }

/-! ## Stop and the dispatcher -/

/-- `Stop`: on the first call set `Stopped`, remember `gcode_LastN` and report;
later calls change nothing (apart from `disable_heater`, outside the model). -/
def Stop (s : Machine) : Machine :=
  if s.Stopped = false then
    { s with Stopped := true
             Stopped_gcode_LastN := s.gcode_LastN
             out := s.out ++ [Out.errStopped] }
  else s

/-- The labels of the G switch of `process_commands` whose bodies are not
modelled (some exist only in some builds). -/
def otherGLabels : List Int := [4, 10, 11, 28, 29, 30, 31, 32, 92]

/-- The labels of the M switch of `process_commands` whose bodies are not
modelled (some exist only in some builds), and the configurable
`CUSTOM_M_CODE_SET_Z_PROBE_OFFSET`. -/
def otherMLabels (cfg : Config) : List Int :=
  [0, 1, 3, 4, 5, 17, 20, 21, 22, 23, 24, 25, 26, 27, 28, 29, 30, 32, 928, 31, 42, 49, 104,
    111, 140, 105, 109, 190, 106, 107, 126, 127, 128, 129, 80, 81, 82, 83, 18, 84, 85, 92,
    115, 117, 114, 120, 121, 119, 150, 200, 201, 203, 204, 205, 206, 666, 207, 208, 209,
    218, 220, 221, 226, 280, 299, 300, 301, 304, 240, 250, 302, 303, 360, 361, 362, 363,
    364, 365, 400, 401, 402, 404, 405, 406, 407, 500, 501, 502, 503, 540, 600, 605, 907,
    908, 350, 351, 997] ++ cfg.CUSTOM_M_CODE_SET_Z_PROBE_OFFSET.toList

/-- The body of `case 61` (G61): destination from the memorised position plus
the given offsets, feedrate, then `prepare_move`. -/
def gcode_G61 (cfg : Config) (s : Machine) : Machine :=
  let cmd := s.cmd cfg s.bufindr
  let c := s.current_position
  let axis (code : Nat) (last current : ℚ) : ℚ :=
    if code_seen cmd code then code_value cmd code + last else current
  let s := { s with destination :=
    ⟨axis 88 s.lastpos.x c.x, axis 89 s.lastpos.y c.y, axis 90 s.lastpos.z c.z,
     axis 69 s.lastpos.e c.e⟩ }
  prepare_move cfg (readFeedrate cmd s)

/-- The G switch of `process_commands` for the code `code`; the flag is true
when the case executes `return`. -/
def dispatchG (cfg : Config) (code : Int) (s : Machine) : Machine × Bool :=
  if code = 0 ∨ code = 1 then
    if s.Stopped = false then
      let s := get_coordinates cfg s
      match cfg.fwretract s with
      | some s2 => (s2, true)
      | none => (prepare_move cfg s, false)
    else (s, false)
  else if (code = 2 ∨ code = 3) ∧ cfg.topology ≠ Topology.scara then
    if s.Stopped = false then
      (prepare_arc_move cfg (decide (code = 2)) (get_arc_coordinates cfg s), false)
    else (s, false)
  else if code = 60 then ({ s with lastpos := s.current_position }, false)
  else if code = 61 then (gcode_G61 cfg s, false)
  else if code = 90 then ({ s with relative_mode := false }, false)
  else if code = 91 then ({ s with relative_mode := true }, false)
  else if code ∈ otherGLabels then cfg.otherG code s
  else (s, false)

/-- The M switch of `process_commands` for the code `code`; the flag is true
when the case executes `return` (or never returns, for `kill`). -/
def dispatchM (cfg : Config) (code : Int) (s : Machine) : Machine × Bool :=
  if code = 112 then (kill s, true)
  else if code = 999 then
    (FlushSerialRequestResend cfg
      { s with Stopped := false, gcode_LastN := s.Stopped_gcode_LastN }, false)
  else if code ∈ otherMLabels cfg then cfg.otherM code s
  else (s, false)

/-- `process_commands`: dispatch the command in `cmdbuffer[bufindr]` on its G, M
or T code; a line with none of these letters is echoed as unknown; then
`ClearToSend`. -/
def process_commands (cfg : Config) (s : Machine) : Machine :=
  let cmd := s.cmd cfg s.bufindr
  if code_seen cmd 71 then
    let r := dispatchG cfg (code_value_int cmd 71) s
    if r.2 then r.1 else ClearToSend cfg r.1
  else if code_seen cmd 77 then
    let r := dispatchM cfg (code_value_int cmd 77) s
    if r.2 then r.1 else ClearToSend cfg r.1
  else if code_seen cmd 84 then ClearToSend cfg (cfg.toolChange s)
  else ClearToSend cfg { s with out := s.out ++ [Out.unknownCommand cmd] }

/-- The line that the serial loop has collected in `cmdbuffer[bufindw]` when a
terminator arrives: the string after `cmdbuffer[bufindw][serial_count] = 0`. -/
def receivedLine (cfg : Config) (s : Machine) : List Nat :=
  cstr cfg.MAX_CMD_SIZE (setChar s.cmdbuffer s.bufindw s.serial_count 0 s.bufindw)

/-- The state in which the line protocol runs when the terminator `c` has been
read from a state `s` whose pending input was just `c`: the NUL is written. -/
def termState (s : Machine) (c : Nat) : Machine :=
  { s with rx := []
           serial_char := c
           cmdbuffer := setChar s.cmdbuffer s.bufindw s.serial_count 0 }

/-! ## Example configuration and states -/

/-- A square root on the rationals for the examples: exact on squares of
rationals. -/
def sqrtQ (q : ℚ) : ℚ := (Nat.sqrt q.num.toNat : ℚ) / (Nat.sqrt q.den : ℚ)

/-- An example build: Cartesian, no SD support, `BUFSIZE` 4, `MAX_CMD_SIZE` 96,
no extra switch cases. -/
def cfg0 : Config where
  BUFSIZE := 4
  MAX_CMD_SIZE := 96
  SDSUPPORT := false
  topology := Topology.cartesian
  ENABLE_AUTO_BED_LEVELING := false
  Z_PROBE_OFFSET_FROM_EXTRUDER := 0
  segments_per_second := 200
  AUTOLEVEL_GRID := 20
  Linkage_1 := 150
  Linkage_2 := 150
  L1_2 := 22500
  L2_2 := 22500
  SCARA_offset_x := 100
  SCARA_offset_y := -56
  SCARA_RAD2DEG := 573 / 10
  CUSTOM_M_CODE_SET_Z_PROBE_OFFSET := none
  sqrt := sqrtQ
  atan2 := fun _ _ => 0
  SF_ARC_FIX := false
  otherG := fun _ s => (s, false)
  otherM := fun _ s => (s, false)
  toolChange := fun s => s
  mc_arc := fun _ _ => []
  fwretract := fun _ => none

/-- The same build with `SDSUPPORT`. -/
def cfgSD : Config := { cfg0 with SDSUPPORT := true }

/-- The same build for a delta machine. -/
def cfgDelta : Config := { cfg0 with topology := Topology.delta }

/-- The state after `setup`: empty queue, nothing received, position 0,
feedrate 1500, feedmultiply 100. -/
def init : Machine where
  cmdbuffer := fun _ _ => 0
  fromsd := fun _ => false
  bufindr := 0
  bufindw := 0
  buflen := 0
  serial_char := 0
  serial_count := 0
  comment_mode := false
  gcode_N := 0
  gcode_LastN := 0
  Stopped_gcode_LastN := 0
  Stopped := false
  killed := false
  rx := []
  out := []
  sdprinting := false
  card := []
  stop_buffering := false
  current_position := ⟨0, 0, 0, 0⟩
  destination := ⟨0, 0, 0, 0⟩
  lastpos := ⟨0, 0, 0, 0⟩
  offset := ⟨0, 0, 0⟩
  feedrate := 1500
  next_feedrate := 0
  feedmultiply := 100
  relative_mode := false
  axis_relative_modes := fun _ => false
  min_pos := ⟨0, 0, 0⟩
  max_pos := ⟨200, 200, 200⟩
  min_software_endstops := true
  max_software_endstops := true
  add_homing := ⟨0, 0, 0⟩
  delta := ⟨0, 0, 0⟩
  bed_level := fun _ _ => 0
  delta_tower1_x := -60
  delta_tower1_y := -35
  delta_tower2_x := 60
  delta_tower2_y := -35
  delta_tower3_x := 0
  delta_tower3_y := 70
  DELTA_DIAGONAL_ROD_2 := 40000
  axis_scaling := ⟨1, 1, 1⟩
  active_extruder := 0
  active_driver := 0
  planner := []

/-- The state reached on the example build when, after `setup` and with `last`
as the last accepted line number, `get_command` has read the bytes of `line`
from the serial port and the line feed that ends the line is the only pending
input. -/
def atLineEnd (line : List Nat) (last : Int) : Machine :=
  { get_command cfg0 { init with gcode_LastN := last, rx := line } with rx := [10] }

/-- Two lines of input, the first with a comment: `G28;home` and `G1 X5`, each
ended by a line feed. -/
def commentInput : List Nat := bytes "G28;home" ++ [10] ++ bytes "G1 X5" ++ [10]

/-- The state with the single queued command `line` in slot 0. -/
def withCommand (line : List Nat) : Machine :=
  { init with cmdbuffer := fun _ i => line.getD i 0, buflen := 1, bufindw := 1 }

/-- The state with the single queued command `line`, while the machine is
stopped. -/
def stoppedWith (line : List Nat) : Machine :=
  { withCommand line with Stopped := true }

/-- The difference between the clamped destination and the current position,
as `prepare_move` computes it (`difference[i]`). -/
def moveDifference (cfg : Config) (s : Machine) : Pos :=
  let c := clamp_to_software_endstops cfg s
  ⟨c.destination.x - c.current_position.x, c.destination.y - c.current_position.y,
   c.destination.z - c.current_position.z, c.destination.e - c.current_position.e⟩

/-- A delta machine at position 0 with feedrate 1600 mm/min that is asked to
extrude 1 mm without moving. -/
def extrudeOnly : Machine :=
  { init with destination := ⟨0, 0, 0, 1⟩, feedrate := 1600 }

/-- The effect of one pass of the serial loop that stores the character `c`:
the character is taken from the input and appended to the line being
collected. -/
def storeChar (s : Machine) (c : Nat) : Machine :=
  { s with rx := s.rx.tail
           serial_char := c
           cmdbuffer := setChar s.cmdbuffer s.bufindw s.serial_count c
           serial_count := s.serial_count + 1 }

/-- The effect of storing the characters of `line` one after the other. -/
def collect (s : Machine) (line : List Nat) : Machine := line.foldl storeChar s

/-- The machine transform that the segment loop of `prepare_move` applies to a
logical position: on `SCARA` `calculate_delta`, on `DELTA` `calculate_delta`
followed by `adjust_delta`; the value is the resulting `delta`. -/
def machineTransform (cfg : Config) (s : Machine) (p : Pos) : Vec3 :=
  if cfg.topology = Topology.scara then (calculate_delta_scara cfg s p).delta
  else (adjust_delta cfg (calculate_delta_delta cfg s p) p).delta

/-- The point `p + (q - p) * k / n` of the straight line from `p` to `q`, with E
interpolated like X, Y and Z. -/
def linePoint (p q : Pos) (k n : ℚ) : Pos :=
  ⟨p.x + (q.x - p.x) * (k / n), p.y + (q.y - p.y) * (k / n),
   p.z + (q.z - p.z) * (k / n), p.e + (q.e - p.e) * (k / n)⟩

/-- The planner request of the segment loop for the logical position `p`: the
machine transform of `p`, the E of `p`, and the feed rate and tool of the move
(`plan_buffer_line(delta[X], delta[Y], delta[Z], destination[E],
feedrate*feedmultiply/60/100.0, active_extruder, active_driver)`). -/
def requestAt (cfg : Config) (s : Machine) (p : Pos) : PlanReq :=
  ⟨(machineTransform cfg s p).x, (machineTransform cfg s p).y, (machineTransform cfg s p).z,
   p.e, s.feedrate * (s.feedmultiply : ℚ) / 60 / 100, s.active_extruder, s.active_driver⟩

/-- The point of the `k`-th pass of the segment loop: `current_position +
difference * (k / steps)`. -/
def segmentPoint (s : Machine) (d : Pos) (steps : Int) (k : Nat) : Pos :=
  ⟨s.current_position.x + d.x * ((k : ℚ) / (steps : ℚ)),
   s.current_position.y + d.y * ((k : ℚ) / (steps : ℚ)),
   s.current_position.z + d.z * ((k : ℚ) / (steps : ℚ)),
   s.current_position.e + d.e * ((k : ℚ) / (steps : ℚ))⟩

/-- A machine whose bed-level grid is tilted: `bed_level[a][b] = a / 10 + b`. -/
def tiltedBed : Machine :=
  { init with bed_level := fun a b => (a : ℚ) / 10 + (b : ℚ) }

/-- The `libm` functions that the SCARA kinematics call, over the number type
`K`: `sqrt(x)`, `atan2(y, x)`, `sin(x)` and `cos(x)`. -/
structure Libm (K : Type) where
  sqrt : K → K
  atan2 : K → K → K
  sin : K → K
  cos : K → K

/-- The constants of a `SCARA` build (`Linkage_1`, `Linkage_2`, `L1_2`, `L2_2`,
`SCARA_offset_x`, `SCARA_offset_y`, `SCARA_RAD2DEG`) and the X and Y entries of
`axis_scaling`, over the number type `K`. -/
structure Scara (K : Type) where
  Linkage_1 : K
  Linkage_2 : K
  L1_2 : K
  L2_2 : K
  SCARA_offset_x : K
  SCARA_offset_y : K
  SCARA_RAD2DEG : K
  axis_scaling_x : K
  axis_scaling_y : K

/-- `SCARA_pos` of `calculate_delta`: the target scaled and moved into arm
space. -/
def SCARA_pos {K : Type} [Field K] (g : Scara K) (x y : K) : K × K :=
  (x * g.axis_scaling_x - g.SCARA_offset_x, y * g.axis_scaling_y - g.SCARA_offset_y)

/-- `SCARA_C2` of `calculate_delta`, with its two preprocessor branches. -/
def SCARA_C2 {K : Type} [Field K] [DecidableEq K] (g : Scara K) (x y : K) : K :=
  if g.Linkage_1 = g.Linkage_2 then
    (((SCARA_pos g x y).1 * (SCARA_pos g x y).1 + (SCARA_pos g x y).2 * (SCARA_pos g x y).2) /
      (2 * g.L1_2)) - 1
  else
    ((SCARA_pos g x y).1 * (SCARA_pos g x y).1 + (SCARA_pos g x y).2 * (SCARA_pos g x y).2 -
      g.L1_2 - g.L2_2) / 45000

/-- `calculate_delta` of the `SCARA` build over the number type `K`: the new
`delta[X]`, `delta[Y]`, `delta[Z]` for the Cartesian target `(x, y, z)`. -/
def scara_calculate_delta {K : Type} [Field K] [DecidableEq K] (m : Libm K) (g : Scara K)
    (x y z : K) : K × K × K :=
  let SCARA_S2 := m.sqrt (1 - SCARA_C2 g x y * SCARA_C2 g x y)
  let SCARA_K1 := g.Linkage_1 + g.Linkage_2 * SCARA_C2 g x y
  let SCARA_K2 := g.Linkage_2 * SCARA_S2
  let SCARA_theta :=
    (m.atan2 (SCARA_pos g x y).1 (SCARA_pos g x y).2 - m.atan2 SCARA_K1 SCARA_K2) * -1
  let SCARA_psi := m.atan2 SCARA_S2 (SCARA_C2 g x y)
  (SCARA_theta * g.SCARA_RAD2DEG, (SCARA_theta + SCARA_psi) * g.SCARA_RAD2DEG, z)

/-- `calculate_SCARA_forward_Transform` over the number type `K`: the new
`delta[X]` and `delta[Y]` for the joint angles `f_scara[X]`, `f_scara[Y]`. -/
def calculate_SCARA_forward_Transform {K : Type} [Field K] (m : Libm K) (g : Scara K)
    (f_x f_y : K) : K × K :=
  let x_sin := m.sin (f_x / g.SCARA_RAD2DEG) * g.Linkage_1
  let x_cos := m.cos (f_x / g.SCARA_RAD2DEG) * g.Linkage_1
  let y_sin := m.sin (f_y / g.SCARA_RAD2DEG) * g.Linkage_2
  let y_cos := m.cos (f_y / g.SCARA_RAD2DEG) * g.Linkage_2
  (x_cos + y_cos + g.SCARA_offset_x, x_sin + y_sin + g.SCARA_offset_y)

/-- The SCARA geometry of a build and machine state. -/
def scaraOf (cfg : Config) (s : Machine) : Scara ℚ :=
  ⟨cfg.Linkage_1, cfg.Linkage_2, cfg.L1_2, cfg.L2_2, cfg.SCARA_offset_x, cfg.SCARA_offset_y,
   cfg.SCARA_RAD2DEG, s.axis_scaling.x, s.axis_scaling.y⟩

/-- The `libm` functions of a build, with the given `sin` and `cos`. -/
def libmOf (cfg : Config) (sin cos : ℚ → ℚ) : Libm ℚ :=
  ⟨cfg.sqrt, cfg.atan2, sin, cos⟩

/-- An example SCARA build with unequal links: `Linkage_1 = 150`,
`Linkage_2 = 100`, `L1_2 = 150^2`, `L2_2 = 100^2`, arm origin at (0, 0). -/
def cfgScaraUnequal : Config :=
  { cfg0 with topology := Topology.scara, Linkage_1 := 150, Linkage_2 := 100,
              L1_2 := 22500, L2_2 := 10000, SCARA_offset_x := 0, SCARA_offset_y := 0 }

/-- An example SCARA build with the equal links of `cfg0`, a square root that
answers `mark` for a negative argument, and a stand-in for `atan2`. -/
def cfgScaraMark (mark : ℚ) : Config :=
  { cfg0 with topology := Topology.scara,
              sqrt := fun q => if q < 0 then mark else sqrtQ q,
              atan2 := fun y x => y - x }

/-- Modelled from the spec: the difference of two `vector_3` values
(`operator-`), component by component. -/
def vector_3_sub (a b : Vec3) : Vec3 := ⟨a.x - b.x, a.y - b.y, a.z - b.z⟩

/-- Modelled from the spec: `vector_3::get_normal`, the vector divided by its
length `sqrt(x^2 + y^2 + z^2)`. -/
def vector_3_get_normal (sqrt : ℚ → ℚ) (a : Vec3) : Vec3 :=
  ⟨a.x / sqrt (a.x * a.x + a.y * a.y + a.z * a.z),
   a.y / sqrt (a.x * a.x + a.y * a.y + a.z * a.z),
   a.z / sqrt (a.x * a.x + a.y * a.y + a.z * a.z)⟩

/-- Modelled from the spec: `vector_3::cross`, the cross product. -/
def vector_3_cross (a b : Vec3) : Vec3 :=
  ⟨a.y * b.z - a.z * b.y, a.z * b.x - a.x * b.z, a.x * b.y - a.y * b.x⟩

/-- The scalar product of two vectors. -/
def dot (a b : Vec3) : ℚ := a.x * b.x + a.y * b.y + a.z * b.z

/-- The three probe points of `set_bed_level_equation_3pts`: the build
constants `ABL_PROBE_PT_i_X`, `ABL_PROBE_PT_i_Y` with the probed heights. -/
structure ProbePoints where
  pt1 : Vec3
  pt2 : Vec3
  pt3 : Vec3

/-- The `planeNormal` that `set_bed_level_equation_3pts` passes to
`matrix_3x3::create_look_at`. -/
def set_bed_level_equation_3pts_planeNormal (sqrt : ℚ → ℚ) (p : ProbePoints) : Vec3 :=
  let from_2_to_1 := vector_3_get_normal sqrt (vector_3_sub p.pt1 p.pt2)
  let from_2_to_3 := vector_3_get_normal sqrt (vector_3_sub p.pt3 p.pt2)
  let planeNormal := vector_3_get_normal sqrt (vector_3_cross from_2_to_1 from_2_to_3)
  ⟨planeNormal.x, planeNormal.y, |planeNormal.z|⟩

/-- Probe points (15, 200), (15, 20), (170, 20) with the probed heights 19, 0
and 0: a bed that rises along Y. -/
def tiltedProbes : ProbePoints :=
  ⟨⟨15, 200, 19⟩, ⟨15, 20, 0⟩, ⟨170, 20, 0⟩⟩

/-! ## Delta auto-calibration (G30)

The calibration code decides from the probe readings, the build constants and
the parameters of the command; it never reads a motion variable. The model
below keeps the variables that the calibration reads or writes. The moves
(`prepare_move`, `prepare_move_raw`, `plan_buffer_line`, `deploy_z_probe`,
`retract_z_probe`) and the variables only they write (`current_position`,
`destination`, `delta`, `feedrate`, `feedmultiply`, `saved_feedrate`,
`saved_feedmultiply`, `saved_position`) are left out, and the value that
`z_probe` measures is taken from a sequence of readings. -/

/-- The variables of the `DELTA` build that the auto-calibration reads or
writes. `z_probe_readings n` is the value returned by the `n`-th call of
`z_probe`, `z_probe_calls` counts the calls, `probed` lists the points given to
`probe_bed`, and `out` holds the text lines echoed with `SERIAL_ECHOLN`. -/
structure DeltaCal where
  delta_radius : ℚ
  delta_diagonal_rod : ℚ
  tower_adj : Nat → ℚ
  endstop_adj : Nat → ℚ
  min_pos : Vec3
  max_pos : Vec3
  add_homing : Vec3
  base_max_pos : Vec3
  base_home_pos : Vec3
  max_length : Vec3
  bed_level : Int → Int → ℚ
  bed_level_c : ℚ
  bed_level_x : ℚ
  bed_level_y : ℚ
  bed_level_z : ℚ
  bed_level_ox : ℚ
  bed_level_oy : ℚ
  bed_level_oz : ℚ
  probing_feedrate : ℚ
  z_probe_offset : Vec3
  ac_prec : ℚ
  bed_radius : ℚ
  z_probe_readings : Nat → ℚ
  z_probe_calls : Nat
  probed : List (ℚ × ℚ)
  out : List String

/-- Build constants of the `DELTA` build: `HOMEAXIS_DO` for the axes 0, 1, 2
(the home direction has an endstop pin) and `base_min_pos` (`X_MIN_POS`,
`Y_MIN_POS`, `Z_MIN_POS`). -/
structure DeltaCfg where
  HOMEAXIS_DO : Nat → Bool
  base_min_pos : Vec3

/-- Entry `axis` (0, 1, 2) of a `float[3]`. -/
def Vec3.get (v : Vec3) (axis : Nat) : ℚ :=
  if axis = 0 then v.x else if axis = 1 then v.y else v.z

/-- Assignment to entry `axis` (0, 1, 2) of a `float[3]`. -/
def Vec3.set (v : Vec3) (axis : Nat) (q : ℚ) : Vec3 :=
  if axis = 0 then { v with x := q } else if axis = 1 then { v with y := q }
  else { v with z := q }

/-- `axis_is_at_home` of the `DELTA` build (without `current_position`). -/
def axis_is_at_home (cfg : DeltaCfg) (axis : Nat) (s : DeltaCal) : DeltaCal :=
  { s with
    min_pos := s.min_pos.set axis (cfg.base_min_pos.get axis + s.add_homing.get axis)
    max_pos := s.max_pos.set axis (s.base_max_pos.get axis + s.add_homing.get axis) }

/-- `homeaxis` of the `DELTA` build: for an axis with an endstop, the homing
moves and then `axis_is_at_home`. -/
def homeaxis (cfg : DeltaCfg) (axis : Nat) (s : DeltaCal) : DeltaCal :=
  if cfg.HOMEAXIS_DO axis then axis_is_at_home cfg axis s else s

/-- `home_delta_axis`: all carriages up, then `HOMEAXIS(X)`, `HOMEAXIS(Y)`,
`HOMEAXIS(Z)`. -/
def home_delta_axis (cfg : DeltaCfg) (s : DeltaCal) : DeltaCal :=
  homeaxis cfg 2 (homeaxis cfg 1 (homeaxis cfg 0 s))

/-- `z_probe`: the next reading. -/
def z_probe (s : DeltaCal) : DeltaCal × ℚ :=
  ({ s with z_probe_calls := s.z_probe_calls + 1 }, s.z_probe_readings s.z_probe_calls)

/-- The `do ... while ((probe_z != probe_bed_z) and (probe_count < 21))` loop of
`probe_bed`; the result is the state and `probe_bed_z`. -/
def probe_bed_loop : Nat → DeltaCal → ℚ → Int → DeltaCal × ℚ
  | 0, s, probe_z, _ => (s, probe_z)
  | fuel + 1, s, probe_z, probe_count =>
    let probe_bed_z := probe_z
    let r := z_probe s
    let probe_z := r.2 + r.1.z_probe_offset.z
    let probe_count := probe_count + 1
    if probe_z ≠ probe_bed_z ∧ probe_count < 21 then probe_bed_loop fuel r.1 probe_z probe_count
    else (r.1, probe_bed_z)

/-- `probe_bed(x, y)`: move above the point, then probe until two readings in
a row agree or 21 readings were taken; the result is `probe_bed_z`. -/
def probe_bed (s : DeltaCal) (x y : ℚ) : DeltaCal × ℚ :=
  probe_bed_loop 21 { s with probed := s.probed ++ [(x, y)] } (-100) 0

/-- The constant `SIN_60`. -/
def SIN_60 : ℚ := 8660254037844386 / 10000000000000000

/-- The constant `COS_60`. -/
def COS_60 : ℚ := 1 / 2

/-- The assignment `v = f(...)` of the value returned by a call to the variable
that `store` writes. -/
def withReading (r : DeltaCal × ℚ) (store : DeltaCal → ℚ → DeltaCal) : DeltaCal :=
  store r.1 r.2

/-- `bed_probe_all`: probe the centre, the three tower points and the three
points opposite the towers. -/
def bed_probe_all (s : DeltaCal) : DeltaCal :=
  let s := withReading (probe_bed s 0 0) fun s v => { s with bed_level_c := v }
  let s := withReading (probe_bed s 0 s.bed_radius) fun s v => { s with bed_level_z := v }
  let s := withReading (probe_bed s (-SIN_60 * s.bed_radius) (COS_60 * s.bed_radius))
    fun s v => { s with bed_level_oy := v }
  let s := withReading (probe_bed s (-SIN_60 * s.bed_radius) (-COS_60 * s.bed_radius))
    fun s v => { s with bed_level_x := v }
  let s := withReading (probe_bed s 0 (-s.bed_radius)) fun s v => { s with bed_level_oz := v }
  let s := withReading (probe_bed s (SIN_60 * s.bed_radius) (-COS_60 * s.bed_radius))
    fun s v => { s with bed_level_y := v }
  withReading (probe_bed s (SIN_60 * s.bed_radius) (COS_60 * s.bed_radius))
    fun s v => { s with bed_level_ox := v }

/-- `calibration_report`: its text lines. -/
def calibration_report (s : DeltaCal) : DeltaCal :=
  { s with out := s.out ++ ["\tZ-Tower\t\t\tEndstop Offsets", "", "\t\tTower Position Adjust",
      "", "", "", ""] }

/-- The highest of the three tower readings plus endstop offsets, as the
calibration computes it, starting from -100. -/
def h_endstop (s : DeltaCal) : ℚ :=
  let h : ℚ := -100
  let h := if s.bed_level_x + s.endstop_adj 0 > h then s.bed_level_x + s.endstop_adj 0 else h
  let h := if s.bed_level_y + s.endstop_adj 1 > h then s.bed_level_y + s.endstop_adj 1 else h
  if s.bed_level_z + s.endstop_adj 2 > h then s.bed_level_z + s.endstop_adj 2 else h

/-- The lowest of the three tower readings plus endstop offsets, as the
calibration computes it, starting from 100. -/
def l_endstop (s : DeltaCal) : ℚ :=
  let l : ℚ := 100
  let l := if s.bed_level_x + s.endstop_adj 0 < l then s.bed_level_x + s.endstop_adj 0 else l
  let l := if s.bed_level_y + s.endstop_adj 1 < l then s.bed_level_y + s.endstop_adj 1 else l
  if s.bed_level_z + s.endstop_adj 2 < l then s.bed_level_z + s.endstop_adj 2 else l

/-- The block `if (code_seen('A')) ...` of `case 30` that follows the first
probe pass and report: the optional rod length `D`, the endstop check with the
abort, and the iteration loop with the closing messages. `loop adj_dr_allowed`
stands for the `do ... while (loopcount < iterations)` statement; its result is
`none` when the statement does not finish. -/
def G30_autocalibrate (loop : Bool → DeltaCal → Option DeltaCal) (cmd : List Nat)
    (s : DeltaCal) : Option DeltaCal :=
  let adj_dr_allowed := true
  let adj_dr_allowed := if code_seen cmd 68 then false else adj_dr_allowed
  let s :=
    if code_seen cmd 68 then
      { s with delta_diagonal_rod := code_value cmd 68
               out := s.out ++ ["mm (will not be adjusted)"] }
    else s
  if h_endstop s - l_endstop s > 3 then
    some { s with out := s.out ++
        ["The position of the endstop switches on this printer are not within limits",
         "Adjust endstop switches so that they are within 3mm Z-height of each other",
         "", "", "", "Autocalibration aborted"] }
  else
    let adj_dr_allowed := if code_seen cmd 68 then false else adj_dr_allowed
    let s := if code_seen cmd 68 then { s with delta_diagonal_rod := code_value cmd 68 } else s
    (loop adj_dr_allowed s).map fun s => { s with out := s.out ++
      ["Auto Calibration Complete",
       "Issue M500 Command to save calibration settings to EPROM (if enabled)"] }

/-- `case 30` of the `DELTA` build (G30): zero the bed-level array; `C` shows
the carriage positions; `F` sets the probing feedrate; `X` and `Y` probe one
point; otherwise home, probe all points, report, and with `A` run the
auto-calibration. The result is `none` when the iteration loop does not
finish. -/
def gcode_G30 (cfg : DeltaCfg) (loop : Bool → DeltaCal → Option DeltaCal) (cmd : List Nat)
    (s : DeltaCal) : Option DeltaCal :=
  let s := { s with bed_level := fun x y =>
    if 0 ≤ x ∧ x < 7 ∧ 0 ≤ y ∧ y < 7 then 0 else s.bed_level x y }
  if code_seen cmd 67 then
    some { s with out := s.out ++ ["Carriage Positions for last scan:",
        "]", "]", "]", "]", "]", "]", "]"] }
  else
    let s := if code_seen cmd 70 then { s with probing_feedrate := code_value cmd 70 } else s
    if code_seen cmd 88 ∧ code_seen cmd 89 then
      let x := if code_seen cmd 88 then code_value cmd 88 else 0
      let y := if code_seen cmd 89 then code_value cmd 89 else 0
      some (withReading (probe_bed s x y) fun s _ => { s with out := s.out ++ ["", "]"] })
    else
      let s :=
        if code_seen cmd 65 then { s with out := s.out ++ ["Starting Auto Calibration.."] }
        else s
      let s := home_delta_axis cfg s
      let s := bed_probe_all s
      let s := calibration_report s
      if code_seen cmd 65 then G30_autocalibrate loop cmd s else some s

/-- An example delta build: all three axes home to an endstop. -/
def deltaCfg0 : DeltaCfg := ⟨fun _ => true, ⟨-100, -100, 0⟩⟩

/-- An example calibration state: radius 100, rod 200, no tower or endstop
adjustment, build height 200 (`base_max_pos[Z] = 200`), a home offset
`add_homing[Z] = 5` that was set after the last homing (`max_pos[Z]` still
200), and a probe that reads 5 at the X tower point (the fourth point probed)
and 0 at the six other points. -/
def calStart : DeltaCal where
  delta_radius := 100
  delta_diagonal_rod := 200
  tower_adj := fun _ => 0
  endstop_adj := fun _ => 0
  min_pos := ⟨-100, -100, 0⟩
  max_pos := ⟨100, 100, 200⟩
  add_homing := ⟨0, 0, 5⟩
  base_max_pos := ⟨100, 100, 200⟩
  base_home_pos := ⟨0, 0, 200⟩
  max_length := ⟨200, 200, 200⟩
  bed_level := fun _ _ => 0
  bed_level_c := 20
  bed_level_x := 0
  bed_level_y := 0
  bed_level_z := 0
  bed_level_ox := 0
  bed_level_oy := 0
  bed_level_oz := 0
  probing_feedrate := 500
  z_probe_offset := ⟨0, 0, 0⟩
  ac_prec := 1 / 20
  bed_radius := 85
  z_probe_readings := fun n => if n = 6 ∨ n = 7 then 5 else 0
  z_probe_calls := 0
  probed := []
  out := []

/-- A stand-in for the iteration loop that marks its run by setting
`delta_radius` to -1. -/
def markLoop (_ : Bool) (s : DeltaCal) : Option DeltaCal :=
  some { s with delta_radius := -1 }

/-- The second state differs from the first at most in the seven readings, the
count of `z_probe` calls and the list of probed points. -/
def probeFrame (s t : DeltaCal) : Prop :=
  ∃ n l c x y z ox oy oz, t =
    { s with z_probe_calls := n, probed := l, bed_level_c := c, bed_level_x := x,
             bed_level_y := y, bed_level_z := z, bed_level_ox := ox, bed_level_oy := oy,
             bed_level_oz := oz }

/-- The state of `case 30` after the first probe pass and its report, on the
path without `C` and without an `X`, `Y` pair: the bed-level array is zeroed,
`F` is applied, and the machine was homed and probed at all seven points. -/
def G30_first_pass (cfg : DeltaCfg) (cmd : List Nat) (s : DeltaCal) : DeltaCal :=
  let s := { s with bed_level := fun x y =>
    if 0 ≤ x ∧ x < 7 ∧ 0 ≤ y ∧ y < 7 then 0 else s.bed_level x y }
  let s := if code_seen cmd 70 then { s with probing_feedrate := code_value cmd 70 } else s
  let s :=
    if code_seen cmd 65 then { s with out := s.out ++ ["Starting Auto Calibration.."] }
    else s
  calibration_report (bed_probe_all (home_delta_axis cfg s))

/-- `grid_x` of `adjust_delta`. -/
def grid_x (cfg : Config) (cartesian : Pos) : ℚ :=
  max (-2999 / 1000) (min (2999 / 1000) (cartesian.x / cfg.AUTOLEVEL_GRID))

/-- `grid_y` of `adjust_delta`. -/
def grid_y (cfg : Config) (cartesian : Pos) : ℚ :=
  max (-2999 / 1000) (min (2999 / 1000) (cartesian.y / cfg.AUTOLEVEL_GRID))

/-- `floor_x` of `adjust_delta`. -/
def floor_x (cfg : Config) (cartesian : Pos) : Int := ⌊grid_x cfg cartesian⌋

/-- `floor_y` of `adjust_delta`. -/
def floor_y (cfg : Config) (cartesian : Pos) : Int := ⌊grid_y cfg cartesian⌋

/-- `offset` of `adjust_delta`: the bilinear interpolation of the four entries
`z1`, `z2`, `z3`, `z4` of `bed_level`. -/
def adjust_delta_offset (cfg : Config) (s : Machine) (cartesian : Pos) : ℚ :=
  let ratio_x : ℚ := grid_x cfg cartesian - floor_x cfg cartesian
  let ratio_y : ℚ := grid_y cfg cartesian - floor_y cfg cartesian
  let z1 : ℚ := s.bed_level (floor_x cfg cartesian + 3) (floor_y cfg cartesian + 3)
  let z2 : ℚ := s.bed_level (floor_x cfg cartesian + 3) (floor_y cfg cartesian + 4)
  let z3 : ℚ := s.bed_level (floor_x cfg cartesian + 4) (floor_y cfg cartesian + 3)
  let z4 : ℚ := s.bed_level (floor_x cfg cartesian + 4) (floor_y cfg cartesian + 4)
  let left : ℚ := (1 - ratio_y) * z1 + ratio_y * z2
  let right : ℚ := (1 - ratio_y) * z3 + ratio_y * z4
  (1 - ratio_x) * left + ratio_x * right

/-- The value that the `i`-th pass (counted from 0) of a probing loop started in
the state `s` compares: the reading of `z_probe` plus `z_probe_offset[Z]`. -/
def probeValue (s : DeltaCal) (i : Nat) : ℚ :=
  s.z_probe_readings (s.z_probe_calls + i) + s.z_probe_offset.z

/-- A probe that reads -100 first and then 7 for ever. -/
def sentinelProbe : DeltaCal :=
  { calStart with z_probe_readings := fun n => if n = 0 then -100 else 7 }

/-- The three variables of the command queue: `buflen`, `bufindr`, `bufindw`. -/
def queueOf (s : Machine) : Int × Nat × Nat := (s.buflen, s.bufindr, s.bufindw)

/-- The queue after one more command was stored at `bufindw`:
`bufindw = (bufindw + 1) % BUFSIZE; buflen += 1`. -/
def pushQueue (cfg : Config) (q : Int × Nat × Nat) : Int × Nat × Nat :=
  (q.1 + 1, q.2.1, (q.2.2 + 1) % cfg.BUFSIZE)

/-- The consistency of the command queue: `0 <= buflen <= BUFSIZE`,
`bufindr, bufindw < BUFSIZE` and `bufindw = (bufindr + buflen) mod BUFSIZE`. -/
def queueOk (cfg : Config) (s : Machine) : Prop :=
  0 ≤ s.buflen ∧ s.buflen ≤ (cfg.BUFSIZE : Int) ∧ s.bufindr < cfg.BUFSIZE ∧
    s.bufindw < cfg.BUFSIZE ∧
    (s.bufindw : Int) = ((s.bufindr : Int) + s.buflen) % (cfg.BUFSIZE : Int)

/-- The step from `s` to `t` only adds commands to the queue: `bufindr` is
unchanged, `buflen` does not shrink, and a consistent queue stays consistent. -/
def enqueues (cfg : Config) (s t : Machine) : Prop :=
  t.bufindr = s.bufindr ∧ s.buflen ≤ t.buflen ∧ (queueOk cfg s → queueOk cfg t)

/-- The unmodelled handlers of `process_commands` only add commands to the
queue (the queue variables are `static` in `Marlin_main.cpp`, and the handlers
reach them through `enquecommand` and `get_command`). -/
def hooksEnqueueOnly (cfg : Config) : Prop :=
  (∀ code s, enqueues cfg s (cfg.otherG code s).1) ∧
    (∀ code s, enqueues cfg s (cfg.otherM code s).1) ∧
    (∀ s, enqueues cfg s (cfg.toolChange s)) ∧
    (∀ s s2, cfg.fwretract s = some s2 → enqueues cfg s s2)

/-- What one pass of `loop` takes from outside the model: the flags
`card.saving` and `card.logging`, the effect of `card.checkautostart(false)`,
and the effect of the calls that end the pass (`manage_heater`,
`manage_inactivity`, `checkHitEndstops`, `lcd_update`). -/
structure LoopEnv where
  saving : Bool
  logging : Bool
  checkautostart : Machine → Machine
  idle : Machine → Machine

/-- `loop`: fetch commands when at most `BUFSIZE - 2` are queued, then execute
(or, while saving to SD, store) the command at `bufindr` and remove it from the
queue. -/
def loop (cfg : Config) (env : LoopEnv) (s : Machine) : Machine :=
  let s := if s.buflen < (cfg.BUFSIZE : Int) - 1 then get_command cfg s else s
  let s := if cfg.SDSUPPORT then env.checkautostart s else s
  let s :=
    if s.buflen ≠ 0 then
      let s :=
        if cfg.SDSUPPORT = true ∧ env.saving = true then
          if strstr (s.cmd cfg s.bufindr) (bytes "M29") = none then
            if env.logging then process_commands cfg s
            else { s with out := s.out ++ [Out.ok] }
          else { s with out := s.out ++ [Out.fileSaved] }
        else process_commands cfg s
      { s with buflen := s.buflen - 1, bufindr := (s.bufindr + 1) % cfg.BUFSIZE }
    else s
  env.idle s

/-- The code outside the model that runs in a pass of `loop` only adds
commands to the queue. -/
def envEnqueueOnly (cfg : Config) (env : LoopEnv) : Prop :=
  (∀ s, enqueues cfg s (env.checkautostart s)) ∧ (∀ s, enqueues cfg s (env.idle s))

/-- The events that touch the command queue: bytes arriving at the serial
port, a call of `enquecommand`, a call of `get_command`, a pass of `loop`. -/
inductive QueueStep where
  | serialInput (input : List Nat)
  | enque (cmd : List Nat)
  | getCommand
  | loopPass (env : LoopEnv)

/-- The state after one event. -/
def queueStep (cfg : Config) (s : Machine) : QueueStep → Machine
  | QueueStep.serialInput input => { s with rx := s.rx ++ input }
  | QueueStep.enque cmd => enquecommand cfg cmd s
  | QueueStep.getCommand => get_command cfg s
  | QueueStep.loopPass env => loop cfg env s

/-- The state after a sequence of events. -/
def runQueue (cfg : Config) (steps : List QueueStep) (s : Machine) : Machine :=
  steps.foldl (queueStep cfg) s

/-- A pass of `loop` with nothing happening outside the model. -/
def quietPass : QueueStep := QueueStep.loopPass ⟨false, false, fun s => s, fun s => s⟩

/-- An example run on the example build: a line arrives and is fetched, five
commands are enqueued (the queue holds four), and two passes of `loop` follow. -/
def queueRun : List QueueStep :=
  [QueueStep.serialInput (bytes "G90" ++ [10]), QueueStep.getCommand,
   QueueStep.enque (bytes "G91"), QueueStep.enque (bytes "G90"), QueueStep.enque (bytes "G91"),
   QueueStep.enque (bytes "G90"), QueueStep.enque (bytes "G91"), quietPass, quietPass]

/-! ## Serial receive buffer (`HardwareSerial.h`) -/

/-- `RX_BUFFER_SIZE`. -/
def RX_BUFFER_SIZE : Int := 128

/-- `struct ring_buffer`: the bytes, `head` and `tail`. -/
structure ring_buffer where
  buffer : Int → Nat
  head : Int
  tail : Int

/-- The conversion `(unsigned int)x` of an `int` (16 bits). -/
def toUnsignedInt (x : Int) : Int := x % 65536

/-- `MKHardwareSerial::available`. -/
def available (rx_buffer : ring_buffer) : Int :=
  toUnsignedInt (RX_BUFFER_SIZE + rx_buffer.head - rx_buffer.tail) % RX_BUFFER_SIZE

/-- `MKHardwareSerial::checkRx`; `received` is the byte in the data register when
the receive-complete flag is set. -/
def checkRx (received : Option Nat) (rx_buffer : ring_buffer) : ring_buffer :=
  match received with
  | none => rx_buffer
  | some c =>
    let i : Int := toUnsignedInt (rx_buffer.head + 1) % RX_BUFFER_SIZE
    if i ≠ rx_buffer.tail then
      { rx_buffer with buffer := Function.update rx_buffer.buffer rx_buffer.head c, head := i }
    else rx_buffer

/-- A buffer whose `head` is at the last index, 127, with `tail = 5`. -/
def wrapBuffer : ring_buffer := ⟨fun _ => 0, 127, 5⟩

/-- The `do ... while ((probe_z != probe_bed_z) and (probe_count < 21))` loop of
`calibrate_print_surface`, which adds `z_offset` to each reading; the result is
the state and `probe_bed_z`. -/
def surface_probe_loop : Nat → DeltaCal → ℚ → ℚ → Int → DeltaCal × ℚ
  | 0, s, _, probe_z, _ => (s, probe_z)
  | fuel + 1, s, z_offset, probe_z, probe_count =>
    let probe_bed_z := probe_z
    let r := z_probe s
    let probe_z := r.2 + z_offset
    let probe_count := probe_count + 1
    if probe_z ≠ probe_bed_z ∧ probe_count < 21 then
      surface_probe_loop fuel r.1 z_offset probe_z probe_count
    else (r.1, probe_bed_z)

/-- The assignment `bed_level[i][j] = v`. -/
def setBedLevel (s : DeltaCal) (i j : Int) (v : ℚ) : DeltaCal :=
  { s with bed_level := fun a b => if a = i ∧ b = j then v else s.bed_level a b }

/-- The body of the inner `for` loop of `calibrate_print_surface` for the grid
point `(x, y)`: inside the circle `x*x + y*y < 11` move to
`(AUTOLEVEL_GRID * x, AUTOLEVEL_GRID * y)` minus the probe offset, probe, and
store the height in `bed_level[x+3][3-y]`; outside store 0. -/
def calibrate_point (AUTOLEVEL_GRID z_offset : ℚ) (y : Int) (s : DeltaCal) (x : Int) :
    DeltaCal :=
  if x * x + y * y < 11 then
    let s := { s with probed := s.probed ++
      [(AUTOLEVEL_GRID * x - s.z_probe_offset.x, AUTOLEVEL_GRID * y - s.z_probe_offset.y)] }
    withReading (surface_probe_loop 21 s z_offset (-100) 0)
      fun s v => setBedLevel s (x + 3) (3 - y) v
  else setBedLevel s (x + 3) (3 - y) 0

/-- The body of the outer `for` loop of `calibrate_print_surface` for the row
`y`: the points of the row in the direction `dir`, then the copies to the
unprobed positions, then the end of the printed row. -/
def calibrate_row (AUTOLEVEL_GRID z_offset : ℚ) (s : DeltaCal) (y : Int) : DeltaCal :=
  let dir : Int := if Int.tmod y 2 ≠ 0 then -1 else 1
  let s := ((List.range 7).map fun k : Nat => -3 * dir + (k : Int) * dir).foldl
    (calibrate_point AUTOLEVEL_GRID z_offset y) s
  let s :=
    if |y| ≥ 3 then
      let s := setBedLevel s 1 (3 - y) (s.bed_level 2 (3 - y))
      setBedLevel s 5 (3 - y) (s.bed_level 4 (3 - y))
    else s
  let s :=
    if |y| ≥ 2 then
      let s := setBedLevel s 0 (3 - y) (s.bed_level 1 (3 - y))
      setBedLevel s 6 (3 - y) (s.bed_level 5 (3 - y))
    else s
  { s with out := s.out ++ [""] }

/-- `calibrate_print_surface(z_offset)`: the rows `y = 3, 2, ..., -3`. -/
def calibrate_print_surface (AUTOLEVEL_GRID : ℚ) (s : DeltaCal) (z_offset : ℚ) : DeltaCal :=
  [3, 2, 1, 0, -1, -2, -3].foldl (calibrate_row AUTOLEVEL_GRID z_offset) s

/-- A calibration state with a zero probe offset and a probe that reads 1 at
the twelfth point it is taken to (readings 22 and 23) and 0 at all others. -/
def bumpProbe : DeltaCal :=
  { calStart with z_probe_readings := fun n => if n = 22 ∨ n = 23 then 1 else 0 }

/-- The machine whose bed-level grid is the one that `calibrate_print_surface`
stores for the example probe, with `AUTOLEVEL_GRID = 20`. -/
def bumpMachine : Machine :=
  { init with bed_level := (calibrate_print_surface 20 bumpProbe 0).bed_level }

/-! ## The iteration loop of the delta auto-calibration (G30 A) -/

/-- The value `iterations = 100` set by `case 30`: the maximum number of
iterations. -/
def iterations : Int := 100

/-- `set_delta_constants`: the build height follows `max_pos[Z]`. The constants
that only `calculate_delta` reads (`DELTA_DIAGONAL_ROD_2` and the tower
positions `delta_tower1_x` ... `delta_tower3_y`) belong to the moves and are
left out. -/
def set_delta_constants (cfg : DeltaCfg) (s : DeltaCal) : DeltaCal :=
  { s with
    max_length := { s.max_length with z := s.max_pos.z - cfg.base_min_pos.z }
    base_max_pos := { s.base_max_pos with z := s.max_pos.z }
    base_home_pos := { s.base_home_pos with z := s.max_pos.z } }

/-- The calibration variables together with the locals of the block
`if (code_seen('A'))` that live across the passes of its loops. The locals
declared without an initialiser (`adj_r_target`, `adj_dr_target`, `adj_Alpha*`,
`adj_Radius*`, `adj_r_done`, `adj_dr_done`) are written before they are read. -/
structure AutoCal where
  cal : DeltaCal
  loopcount : Int
  adj_r_target : ℚ
  adj_dr_target : ℚ
  adj_AlphaA : ℚ
  adj_AlphaB : ℚ
  adj_AlphaC : ℚ
  adj_RadiusA : ℚ
  adj_RadiusB : ℚ
  adj_RadiusC : ℚ
  adj_r : ℚ
  adj_dr : ℚ
  adj_r_done : Bool
  adj_dr_done : Bool
  adj_dr_allowed : Bool

/-- The locals at the entry of the outer loop: `loopcount = 1`, `adj_r = 0`,
`adj_dr = 0`, and `adj_dr_allowed` as the `D` parameter left it. -/
def autoCalStart (adj_dr_allowed : Bool) (s : DeltaCal) : AutoCal :=
  { cal := s, loopcount := 1, adj_r_target := 0, adj_dr_target := 0,
    adj_AlphaA := 0, adj_AlphaB := 0, adj_AlphaC := 0,
    adj_RadiusA := 0, adj_RadiusB := 0, adj_RadiusC := 0,
    adj_r := 0, adj_dr := 0, adj_r_done := false, adj_dr_done := false,
    adj_dr_allowed := adj_dr_allowed }

/-- The check `//Check to see if autocal is complete to within limits..`: when
the readings (all seven, or the centre and the three towers when the rod is
fixed) lie within `ac_prec` of 0, `loopcount = iterations`. -/
def completeness_check (a : AutoCal) : AutoCal :=
  if a.adj_dr_allowed = true then
    if a.cal.bed_level_x ≥ -a.cal.ac_prec ∧ a.cal.bed_level_x ≤ a.cal.ac_prec
        ∧ a.cal.bed_level_y ≥ -a.cal.ac_prec ∧ a.cal.bed_level_y ≤ a.cal.ac_prec
        ∧ a.cal.bed_level_z ≥ -a.cal.ac_prec ∧ a.cal.bed_level_z ≤ a.cal.ac_prec
        ∧ a.cal.bed_level_c ≥ -a.cal.ac_prec ∧ a.cal.bed_level_c ≤ a.cal.ac_prec
        ∧ a.cal.bed_level_ox ≥ -a.cal.ac_prec ∧ a.cal.bed_level_ox ≤ a.cal.ac_prec
        ∧ a.cal.bed_level_oy ≥ -a.cal.ac_prec ∧ a.cal.bed_level_oy ≤ a.cal.ac_prec
        ∧ a.cal.bed_level_oz ≥ -a.cal.ac_prec ∧ a.cal.bed_level_oz ≤ a.cal.ac_prec then
      { a with loopcount := iterations }
    else a
  else
    if a.cal.bed_level_x ≥ -a.cal.ac_prec ∧ a.cal.bed_level_x ≤ a.cal.ac_prec
        ∧ a.cal.bed_level_y ≥ -a.cal.ac_prec ∧ a.cal.bed_level_y ≤ a.cal.ac_prec
        ∧ a.cal.bed_level_z ≥ -a.cal.ac_prec ∧ a.cal.bed_level_z ≤ a.cal.ac_prec
        ∧ a.cal.bed_level_c ≥ -a.cal.ac_prec ∧ a.cal.bed_level_c ≤ a.cal.ac_prec then
      { a with loopcount := iterations }
    else a

/-- The first part of the body of the inner loop (`//Apply adjustments`): add
the steps to `delta_radius`, `delta_diagonal_rod` and `tower_adj`, then
`set_delta_constants`. -/
def apply_adjustments (cfg : DeltaCfg) (a : AutoCal) : AutoCal :=
  let s := a.cal
  let s :=
    if a.adj_r_done = false then
      { s with delta_radius := s.delta_radius + a.adj_r, out := s.out ++ [")"] }
    else s
  let adj_dr_done := if a.adj_dr_allowed = false then true else a.adj_dr_done
  let s :=
    if adj_dr_done = false then
      { s with delta_diagonal_rod := s.delta_diagonal_rod + a.adj_dr, out := s.out ++ [")"] }
    else s
  let s := { s with tower_adj := fun i =>
    if i = 0 then s.tower_adj 0 - a.adj_AlphaA
    else if i = 1 then s.tower_adj 1 - a.adj_AlphaB
    else if i = 2 then s.tower_adj 2 - a.adj_AlphaC
    else if i = 3 then s.tower_adj 3 + a.adj_RadiusA
    else if i = 4 then s.tower_adj 4 + a.adj_RadiusB
    else if i = 5 then s.tower_adj 5 + a.adj_RadiusC
    else s.tower_adj i }
  { a with cal := set_delta_constants cfg s, adj_dr_done := adj_dr_done }

/-- The pattern `if (((adj > 0) and (level > target)) or ((adj < 0) and
(level < target))) adj = -(adj / 2);` that the body applies to `adj_r`,
`adj_dr` and the three `adj_Radius` values: the new value of `adj`. -/
def overshoot_reverse (adj level target : ℚ) : ℚ :=
  if (adj > 0 ∧ level > target) ∨ (adj < 0 ∧ level < target) then -(adj / 2) else adj

/-- The pattern `if (adj_Radius == 0) { if (level < opposite) adj_Radius = 0.5;
if (level > opposite) adj_Radius = -0.5; }`: the new value of `adj_Radius`. -/
def tower_radius_start (adj_Radius level opposite : ℚ) : ℚ :=
  if adj_Radius = 0 then
    let adj_Radius := if level < opposite then 1 / 2 else adj_Radius
    if level > opposite then -(1 / 2) else adj_Radius
  else adj_Radius

/-- The last part of the body of the inner loop, after the probe pass: the
targets, the tower steps, the reversal of the steps that overshot, and the
two flags. -/
def set_targets (a : AutoCal) : AutoCal :=
  let s := a.cal
  let adj_r_target := (s.bed_level_x + s.bed_level_y + s.bed_level_z) / 3
  let adj_dr_target := (s.bed_level_ox + s.bed_level_oy + s.bed_level_oz) / 3
  let adj_AlphaA := s.bed_level_oy - s.bed_level_oz
  let adj_AlphaB := s.bed_level_oz - s.bed_level_ox
  let adj_AlphaC := s.bed_level_ox - s.bed_level_oy
  let radiusErrorA := s.bed_level_x - s.bed_level_ox
  let radiusErrorB := s.bed_level_y - s.bed_level_oy
  let radiusErrorC := s.bed_level_z - s.bed_level_oz
  let equalAB : Bool :=
    decide (radiusErrorA ≥ radiusErrorB - 2 / 100 ∧ radiusErrorA ≤ radiusErrorB + 2 / 100)
  let equalBC : Bool :=
    decide (radiusErrorB ≥ radiusErrorC - 2 / 100 ∧ radiusErrorB ≤ radiusErrorC + 2 / 100)
  let equalCA : Bool :=
    decide (radiusErrorC ≥ radiusErrorA - 2 / 100 ∧ radiusErrorC ≤ radiusErrorA + 2 / 100)
  let allEqual : Bool := equalAB && equalBC && equalCA
  let adj_RadiusA := if allEqual = true then 0 else a.adj_RadiusA
  let adj_RadiusB := if allEqual = true then 0 else a.adj_RadiusB
  let adj_RadiusC := if allEqual = true then 0 else a.adj_RadiusC
  let towerC : Bool := equalAB && !equalBC && !equalCA
  let out := if towerC = true then s.out ++ ["TowerC Radius error - adjusting"] else s.out
  let adj_RadiusC :=
    if towerC = true then tower_radius_start adj_RadiusC s.bed_level_z s.bed_level_oz
    else adj_RadiusC
  let towerA : Bool := equalBC && !equalAB && !equalCA
  let out := if towerA = true then out ++ ["TowerA Radius error - adjusting"] else out
  let adj_RadiusA :=
    if towerA = true then tower_radius_start adj_RadiusA s.bed_level_x s.bed_level_ox
    else adj_RadiusA
  let towerB : Bool := equalCA && !equalAB && !equalBC
  let out := if towerB = true then out ++ ["TowerB Radius error - adjusting"] else out
  let adj_RadiusB :=
    if towerB = true then tower_radius_start adj_RadiusB s.bed_level_y s.bed_level_oy
    else adj_RadiusB
  { a with
    cal := { s with out := out }
    adj_r_target := adj_r_target
    adj_dr_target := adj_dr_target
    adj_AlphaA := adj_AlphaA
    adj_AlphaB := adj_AlphaB
    adj_AlphaC := adj_AlphaC
    adj_RadiusA := overshoot_reverse adj_RadiusA s.bed_level_x s.bed_level_ox
    adj_RadiusB := overshoot_reverse adj_RadiusB s.bed_level_y s.bed_level_oy
    adj_RadiusC := overshoot_reverse adj_RadiusC s.bed_level_z s.bed_level_oz
    adj_r := overshoot_reverse a.adj_r s.bed_level_c adj_r_target
    adj_dr := overshoot_reverse a.adj_dr adj_dr_target adj_r_target
    adj_r_done :=
      decide (s.bed_level_c ≥ adj_r_target - s.ac_prec ∧ s.bed_level_c ≤ adj_r_target + s.ac_prec)
    adj_dr_done :=
      decide (adj_dr_target ≥ adj_r_target - s.ac_prec ∧ adj_dr_target ≤ adj_r_target + s.ac_prec) }

/-- The probe pass in the middle of the body of the inner loop:
`bed_probe_all`, `calibration_report` and the completeness check. -/
def probe_and_check (a : AutoCal) : AutoCal :=
  completeness_check { a with cal := calibration_report (bed_probe_all a.cal) }

/-- One pass through the body of the inner `do ... while` loop (the radius and
rod adjustment loop). -/
def geometry_adjust_body (cfg : DeltaCfg) (a : AutoCal) : AutoCal :=
  set_targets (probe_and_check (apply_adjustments cfg a))

/-- The inner loop `do ... while (((adj_r_done == false) or (adj_dr_done =
false)) and (loopcount < iterations))`. When `adj_r_done` is false the first
operand of `or` is true and `loopcount < iterations` decides; otherwise the
second operand assigns false to `adj_dr_done` and has the value false, so the
loop ends. The result is `none` when `fuel` passes did not end the loop. -/
def geometry_adjust_loop (cfg : DeltaCfg) : Nat → AutoCal → Option AutoCal
  | 0, _ => none
  | fuel + 1, a =>
    let a := geometry_adjust_body cfg a
    if a.adj_r_done = false then
      if a.loopcount < iterations then geometry_adjust_loop cfg fuel a else some a
    else some { a with adj_dr_done := false }

/-- The statements of the branch `Adjusting Delta Geometry..` before the inner
loop: the first direction of the two steps, and no tower adjustment on the
first pass. -/
def geometry_adjust_start (a : AutoCal) : AutoCal :=
  let adj_r :=
    if a.adj_r = 0 then (if a.adj_r_target > a.cal.bed_level_c then 1 else -1) else a.adj_r
  let adj_dr :=
    if a.adj_dr = 0 then (if a.adj_r_target > a.adj_dr_target then 1 else -1) else a.adj_dr
  { a with
    cal := { a.cal with out := a.cal.out ++ ["Adjusting Delta Geometry.."] }
    adj_r := adj_r, adj_dr := adj_dr
    adj_AlphaA := 0, adj_AlphaB := 0, adj_AlphaC := 0
    adj_RadiusA := 0, adj_RadiusB := 0, adj_RadiusC := 0 }

/-- The branch `Adjusting Endstops..` of an iteration. -/
def adjust_endstops (cfg : DeltaCfg) (s : DeltaCal) : DeltaCal :=
  let s := { s with out := s.out ++ ["Adjusting Endstops.."] }
  let s := { s with endstop_adj := fun i =>
    if i = 0 then s.endstop_adj 0 + s.bed_level_x / (21 / 20)
    else if i = 1 then s.endstop_adj 1 + s.bed_level_y / (21 / 20)
    else if i = 2 then s.endstop_adj 2 + s.bed_level_z / (21 / 20)
    else s.endstop_adj i }
  let h_endstop : ℚ := 0
  let h_endstop := if s.endstop_adj 0 > h_endstop then s.endstop_adj 0 else h_endstop
  let h_endstop := if s.endstop_adj 1 > h_endstop then s.endstop_adj 1 else h_endstop
  let h_endstop := if s.endstop_adj 2 > h_endstop then s.endstop_adj 2 else h_endstop
  if h_endstop > 0 then
    let s := { s with endstop_adj := fun i =>
      if i < 3 then s.endstop_adj i - (h_endstop + 2) else s.endstop_adj i }
    let s := { s with max_pos := { s.max_pos with z := s.max_pos.z - (h_endstop + 2) } }
    let s := set_delta_constants cfg s
    { s with out := s.out ++ [" mm.."] }
  else s

/-- The first statement of the body of the outer loop: the adjustment that the
readings ask for (build height, endstops, or delta geometry with the inner
loop). The result is `none` when the inner loop does not end within `fuel`
passes. -/
def iteration_adjust (cfg : DeltaCfg) (fuel : Nat) (a : AutoCal) : Option AutoCal :=
  let a := { a with cal := { a.cal with out := a.cal.out ++ [""] } }
  if a.cal.bed_level_c > 3 ∨ a.cal.bed_level_c < -3 then
    let s := a.cal
    let s := { s with max_pos := { s.max_pos with z := s.max_pos.z - (s.bed_level_c + 2) } }
    let s := set_delta_constants cfg s
    some { a with cal := { s with out := s.out ++ [" mm.."] } }
  else if a.cal.bed_level_x < -a.cal.ac_prec ∨ a.cal.bed_level_x > a.cal.ac_prec
      ∨ a.cal.bed_level_y < -a.cal.ac_prec ∨ a.cal.bed_level_y > a.cal.ac_prec
      ∨ a.cal.bed_level_z < -a.cal.ac_prec ∨ a.cal.bed_level_z > a.cal.ac_prec then
    some { a with cal := adjust_endstops cfg a.cal }
  else
    let s := a.cal
    let s := { s with out := s.out ++ ["Endstops: OK"] }
    let adj_r_target := (s.bed_level_x + s.bed_level_y + s.bed_level_z) / 3
    let adj_dr_target := (s.bed_level_ox + s.bed_level_oy + s.bed_level_oz) / 3
    let adj_r_done : Bool :=
      decide (s.bed_level_c ≥ adj_r_target - s.ac_prec ∧ s.bed_level_c ≤ adj_r_target + s.ac_prec)
    let adj_dr_done : Bool :=
      decide (adj_dr_target ≥ adj_r_target - s.ac_prec ∧ adj_dr_target ≤ adj_r_target + s.ac_prec)
    let adj_tower_done : Bool :=
      if s.bed_level_x ≠ s.bed_level_ox ∨ s.bed_level_y ≠ s.bed_level_oy
          ∨ s.bed_level_z ≠ s.bed_level_oz then false
      else true
    let a := { a with cal := s, adj_r_target := adj_r_target, adj_dr_target := adj_dr_target,
                      adj_r_done := adj_r_done, adj_dr_done := adj_dr_done }
    if adj_r_done = false ∨ adj_dr_done = false ∨ adj_tower_done = false then
      geometry_adjust_loop cfg fuel (geometry_adjust_start a)
    else
      some { a with cal := { s with out := s.out ++ ["Delta Geometry: OK"] } }

/-- The rest of the body of the outer loop: while `loopcount < iterations`, home
and probe again with the completeness check; then `loopcount++`. -/
def iteration_probe (cfg : DeltaCfg) (a : AutoCal) : AutoCal :=
  let a :=
    if a.loopcount < iterations then
      completeness_check
        { a with cal := calibration_report (bed_probe_all (home_delta_axis cfg a.cal)) }
    else a
  { a with loopcount := a.loopcount + 1 }

/-- The outer loop `do ... while (loopcount < iterations)`. The result is `none`
when an inner loop did not end within `fuel` passes or the outer loop did not
end within `n` passes. -/
def calibration_loop (cfg : DeltaCfg) (fuel : Nat) : Nat → AutoCal → Option AutoCal
  | 0, _ => none
  | n + 1, a =>
    match iteration_adjust cfg fuel a with
    | none => none
    | some a =>
      let a := iteration_probe cfg a
      if a.loopcount < iterations then calibration_loop cfg fuel n a else some a

/-- The iteration loop of `G30 A` as `case 30` runs it: the outer loop from the
initial locals, with `fuel` passes allowed to each loop. -/
def G30_loop (cfg : DeltaCfg) (fuel : Nat) (adj_dr_allowed : Bool) (s : DeltaCal) :
    Option DeltaCal :=
  (calibration_loop cfg fuel fuel (autoCalStart adj_dr_allowed s)).map fun a => a.cal

/-- The seven points of one `bed_probe_all` pass, in the order of probing. -/
def probe_points (s : DeltaCal) : List (ℚ × ℚ) :=
  [(0, 0), (0, s.bed_radius), (-SIN_60 * s.bed_radius, COS_60 * s.bed_radius),
   (-SIN_60 * s.bed_radius, -COS_60 * s.bed_radius), (0, -s.bed_radius),
   (SIN_60 * s.bed_radius, -COS_60 * s.bed_radius),
   (SIN_60 * s.bed_radius, COS_60 * s.bed_radius)]

/-- The probe reads 0 at every point on every probe: each reading plus
`z_probe_offset[Z]` is 0. -/
def zeroProbe (s : DeltaCal) : Prop := ∀ n, s.z_probe_readings n + s.z_probe_offset.z = 0

/-- The example calibration state with a probe that always reads 0. -/
def levelProbe : DeltaCal := { calStart with z_probe_readings := fun _ => 0 }

/-- The example calibration state with a probe that reads 1 at the centre and
0 at the six other points on every pass: each point takes two readings, so the
readings repeat with period 14 and the first two of each period are the
centre. -/
def domeProbe : DeltaCal :=
  { calStart with z_probe_readings := fun n => if n % 14 < 2 then 1 else 0 }

/-- All seven readings of the last probe pass are 0. -/
def levelReadings (s : DeltaCal) : Prop :=
  s.bed_level_c = 0 ∧ s.bed_level_x = 0 ∧ s.bed_level_y = 0 ∧ s.bed_level_z = 0 ∧
    s.bed_level_ox = 0 ∧ s.bed_level_oy = 0 ∧ s.bed_level_oz = 0

/-- The probe of the state reads 1 at the centre and 0 at the six other points
on every pass, and the next reading starts a pass: the readings are those of
`domeProbe`, `z_probe_offset[Z]` is 0 and the count of `z_probe` calls is a
multiple of 14. -/
def domeReadings (s : DeltaCal) : Prop :=
  s.z_probe_readings = domeProbe.z_probe_readings ∧ s.z_probe_offset.z = 0 ∧
    s.z_probe_calls % 14 = 0

/-- The state of the inner loop at its first entry in the run of `G30 A` on
`domeProbe`: the locals as the first iteration sets them after `Endstops: OK`
(both targets 0, the radius not done, the rod done), passed through
`geometry_adjust_start`. -/
def domeEntry : AutoCal :=
  geometry_adjust_start
    { autoCalStart true
        { G30_first_pass deltaCfg0 (bytes "G30 A") domeProbe with
          out := (G30_first_pass deltaCfg0 (bytes "G30 A") domeProbe).out ++ [""] ++
            ["Endstops: OK"] } with
      adj_r_target := (0 + 0 + 0) / 3, adj_dr_target := (0 + 0 + 0) / 3,
      adj_r_done := false, adj_dr_done := true }

/-- The state on the example build after `setup`, with `last` as the last
accepted line number and the bytes `input` pending on the serial port. -/
def pendingInput (last : Int) (input : List Nat) : Machine :=
  { init with gcode_LastN := last, rx := input }

/-! ## Theorems -/

/-- A decimal digit is a byte between `0` (48) and `9` (57). -/
theorem isdigit_bounds {d : Nat} (h : isdigit d = true) : 48 ≤ d ∧ d ≤ 57 := by
  simpa [isdigit] using h

/-- A decimal digit is not white space. -/
theorem isspace_of_isdigit {d : Nat} (h : isdigit d = true) : isspace d = false := by
  have hb := isdigit_bounds h
  simp only [isspace, Bool.or_eq_false_iff, beq_eq_false_iff_ne, Bool.and_eq_false_iff,
    decide_eq_false_iff_not]
  omega

/-- Reading digits stops at the first byte that is not a digit. -/
theorem digitsVal_append_nondigit (ds : List Nat) (c : Nat) (r : List Nat)
    (hds : ∀ d ∈ ds, isdigit d = true) (hc : isdigit c = false) (acc : Nat) :
    digitsVal acc (ds ++ c :: r) = digitsVal acc ds := by
  induction ds generalizing acc with
  | nil => simp [digitsVal, hc]
  | cons d ds ih =>
    have hd : isdigit d = true := hds d (List.mem_cons_self _ _)
    simp only [List.cons_append, digitsVal, hd, if_true]
    exact ih (fun x hx => hds x (List.mem_cons_of_mem _ hx)) _

/-- `strtol` on a non-empty digit string followed by a non-digit reads the digit
string (saturating at `LONG_MAX`). -/
theorem strtol_digits (ds : List Nat) (c : Nat) (r : List Nat)
    (hne : ds ≠ []) (hds : ∀ d ∈ ds, isdigit d = true) (hc : isdigit c = false) :
    strtol (ds ++ c :: r) = min (digitsVal 0 ds : Int) LONG_MAX := by
  cases ds with
  | nil => exact absurd rfl hne
  | cons d ds =>
    have hd : isdigit d = true := hds d (List.mem_cons_self _ _)
    have hb := isdigit_bounds hd
    have hsp : isspace d = false := isspace_of_isdigit hd
    have hdv := digitsVal_append_nondigit (d :: ds) c r hds hc 0
    unfold strtol
    rw [List.cons_append, List.dropWhile_cons_of_neg (by simp [hsp])]
    split
    · next r' heq => 
      have : d = 45 := by injection heq
      omega
    · next r' heq => 
      have : d = 43 := by injection heq
      omega
    · rw [← List.cons_append, hdv]

/-- `strchr` finds the first occurrence. -/
theorem strchr_append_cons (a : List Nat) (c : Nat) (b : List Nat) (h : c ∉ a) :
    strchr (a ++ c :: b) c = some (c :: b) := by
  induction a with
  | nil => simp [strchr]
  | cons x xs ih =>
    have hx : x ≠ c := fun e => h (e ▸ List.mem_cons_self _ _)
    simp only [List.cons_append, strchr, hx, if_false]
    exact ih (fun hm => h (List.mem_cons_of_mem _ hm))

/-- `strstr` finds a pattern that occurs in the string. -/
theorem strstr_append (a pat b : List Nat) (hp : pat ≠ []) :
    strstr (a ++ pat ++ b) pat ≠ none := by
  induction a with
  | nil =>
    cases pat with
    | nil => exact absurd rfl hp
    | cons y ys =>
      have : (y :: ys).isPrefixOf (y :: (ys ++ b)) = true := by
        rw [List.isPrefixOf_iff_prefix]
        exact List.prefix_append (y :: ys) b
      show strstr (y :: (ys ++ b)) (y :: ys) ≠ none
      unfold strstr
      rw [if_pos this]
      exact Option.noConfusion
  | cons x xs ih =>
    simp only [List.cons_append, strstr]
    split
    · exact Option.noConfusion
    · simpa using ih

/-- The bytes before the first occurrence of `c`. -/
theorem takeWhile_append_cons (a : List Nat) (c : Nat) (b : List Nat) (h : c ∉ a) :
    (a ++ c :: b).takeWhile (fun x => x != c) = a := by
  induction a with
  | nil => simp
  | cons x xs ih =>
    have hx : x ≠ c := fun e => h (e ▸ List.mem_cons_self _ _)
    simp only [List.cons_append]
    rw [List.takeWhile_cons_of_pos (by simp [hx])]
    rw [ih (fun hm => h (List.mem_cons_of_mem _ hm))]
/-- An accepted line leaves the SD print flag alone. -/
theorem acceptLine_sdprinting (cfg : Config) (line : List Nat) (s : Machine) :
    (acceptLine cfg line s).1.sdprinting = s.sdprinting := by
  unfold acceptLine kill
  split <;> rfl

/-- A rejected line leaves the SD print flag alone. -/
theorem rejectLine_sdprinting (cfg : Config) (err : Out) (s : Machine) :
    (rejectLine cfg err s).1.sdprinting = s.sdprinting := rfl

/-- The line protocol leaves the SD print flag alone. -/
theorem serialLine_sdprinting (cfg : Config) (s : Machine) :
    (serialLine cfg s).1.sdprinting = s.sdprinting := by
  simp only [serialLine]
  repeat' split
  all_goals simp only [acceptLine_sdprinting, rejectLine_sdprinting]

/-- The serial loop body never touches the SD print flag. -/
theorem serialChar_sdprinting (cfg : Config) (c : Nat) (s : Machine) :
    (serialChar cfg c s).1.sdprinting = s.sdprinting := by
  simp only [serialChar]
  repeat' split
  all_goals simp only [serialLine_sdprinting]

/-- With a single pending character, room in the queue and no SD print running,
`get_command` is one pass of the serial loop body. -/
theorem get_command_single (cfg : Config) (s : Machine) (c : Nat)
    (hrx : s.rx = [c]) (hroom : s.buflen < cfg.BUFSIZE)
    (hsd : cfg.SDSUPPORT = false ∨ s.sdprinting = false) :
    get_command cfg s = (serialChar cfg c { s with rx := [] }).1 := by
  have hsp : (serialChar cfg c { s with rx := [] }).1.sdprinting = s.sdprinting :=
    serialChar_sdprinting cfg c { s with rx := [] }
  unfold get_command
  simp only [hrx, List.length_singleton, serialLoop, hroom, if_true]
  generalize serialChar cfg c { s with rx := [] } = r at hsp ⊢
  by_cases hr : r.2 = true
  · simp only [hr, if_true]
  · simp only [hr, Bool.false_eq_true, if_false]
    rcases hsd with h | h
    · simp only [h, if_true]
    · split
      · rfl
      · rw [if_pos (Or.inl (hsp.trans h))]

/-- At the end of a non-empty line outside comment mode the loop body writes the
terminating NUL and runs the line protocol. -/
theorem serialChar_lineEnd (cfg : Config) (c : Nat) (s : Machine)
    (hend : endsLine cfg s.comment_mode s.serial_count c = true) (hcnt : s.serial_count ≠ 0)
    (hcm : s.comment_mode = false) :
    serialChar cfg c s = serialLine cfg
      { s with serial_char := c
               cmdbuffer := setChar s.cmdbuffer s.bufindw s.serial_count 0 } := by
  unfold serialChar
  dsimp only
  rw [if_pos hend, if_neg hcnt, if_pos hcm]

/-- The line protocol on a numbered line whose number is the expected one and
whose checksum field `q` matches: the line is enqueued. -/
theorem serialLine_numbered_ok (cfg : Config) (s : Machine) (p q : List Nat)
    (hN : strchr (s.cmd cfg s.bufindw) 78 = some p)
    (hseq : strtol (p.drop 1) = s.gcode_LastN + 1 ∨
      strstr (s.cmd cfg s.bufindw) (bytes "M110") ≠ none)
    (hstar : strchr (s.cmd cfg s.bufindw) 42 = some q)
    (hsum : (strtod (q.drop 1)).toInt = (checksumOf (s.cmd cfg s.bufindw) : Int)) :
    serialLine cfg s = acceptLine cfg (s.cmd cfg s.bufindw)
      { s with comment_mode := false
               fromsd := Function.update s.fromsd s.bufindw false
               gcode_N := strtol (p.drop 1)
               gcode_LastN := strtol (p.drop 1) } := by
  have hc : ¬ (strtol (p.drop 1) ≠ s.gcode_LastN + 1 ∧
      strstr (s.cmd cfg s.bufindw) (bytes "M110") = none) := by
    rintro ⟨h1, h2⟩
    rcases hseq with h | h
    · exact h1 h
    · exact h h2
  unfold serialLine
  dsimp only
  rw [hN]
  dsimp only
  rw [if_neg hc, hstar]
  dsimp only
  rw [if_neg (not_not.mpr hsum)]

/-- The line protocol on a numbered line with an unexpected number and no
`M110`: rejected with the line-number error. -/
theorem serialLine_bad_sequence (cfg : Config) (s : Machine) (p : List Nat)
    (hN : strchr (s.cmd cfg s.bufindw) 78 = some p)
    (hseq : strtol (p.drop 1) ≠ s.gcode_LastN + 1)
    (hM : strstr (s.cmd cfg s.bufindw) (bytes "M110") = none) :
    serialLine cfg s = rejectLine cfg (Out.errLineNo s.gcode_LastN)
      { s with comment_mode := false
               fromsd := Function.update s.fromsd s.bufindw false
               gcode_N := strtol (p.drop 1) } := by
  unfold serialLine
  dsimp only
  rw [hN]
  dsimp only
  rw [if_pos ⟨hseq, hM⟩]

/-- The line protocol on a numbered line that passes the sequence check but
whose checksum field does not match: rejected with the checksum error. -/
theorem serialLine_bad_checksum (cfg : Config) (s : Machine) (p q : List Nat)
    (hN : strchr (s.cmd cfg s.bufindw) 78 = some p)
    (hseq : strtol (p.drop 1) = s.gcode_LastN + 1 ∨
      strstr (s.cmd cfg s.bufindw) (bytes "M110") ≠ none)
    (hstar : strchr (s.cmd cfg s.bufindw) 42 = some q)
    (hsum : (strtod (q.drop 1)).toInt ≠ (checksumOf (s.cmd cfg s.bufindw) : Int)) :
    serialLine cfg s = rejectLine cfg (Out.errChecksumMismatch s.gcode_LastN)
      { s with comment_mode := false
               fromsd := Function.update s.fromsd s.bufindw false
               gcode_N := strtol (p.drop 1) } := by
  have hc : ¬ (strtol (p.drop 1) ≠ s.gcode_LastN + 1 ∧
      strstr (s.cmd cfg s.bufindw) (bytes "M110") = none) := by
    rintro ⟨h1, h2⟩
    rcases hseq with h | h
    · exact h1 h
    · exact h h2
  unfold serialLine
  dsimp only
  rw [hN]
  dsimp only
  rw [if_neg hc, hstar]
  dsimp only
  rw [if_pos hsum]

/-- The line protocol on a numbered line that passes the sequence check but has
no `*`: rejected with the no-checksum error. -/
theorem serialLine_no_checksum (cfg : Config) (s : Machine) (p : List Nat)
    (hN : strchr (s.cmd cfg s.bufindw) 78 = some p)
    (hseq : strtol (p.drop 1) = s.gcode_LastN + 1 ∨
      strstr (s.cmd cfg s.bufindw) (bytes "M110") ≠ none)
    (hstar : strchr (s.cmd cfg s.bufindw) 42 = none) :
    serialLine cfg s = rejectLine cfg (Out.errNoChecksum s.gcode_LastN)
      { s with comment_mode := false
               fromsd := Function.update s.fromsd s.bufindw false
               gcode_N := strtol (p.drop 1) } := by
  have hc : ¬ (strtol (p.drop 1) ≠ s.gcode_LastN + 1 ∧
      strstr (s.cmd cfg s.bufindw) (bytes "M110") = none) := by
    rintro ⟨h1, h2⟩
    rcases hseq with h | h
    · exact h1 h
    · exact h h2
  unfold serialLine
  dsimp only
  rw [hN]
  dsimp only
  rw [if_neg hc, hstar]

/-- A string that contains the byte `c` differs from every string that does
not. -/
theorem ne_of_strchr (line other p : List Nat) (c : Nat)
    (h : strchr line c = some p) (ho : strchr other c = none) : line ≠ other := by
  intro e
  rw [e, ho] at h
  exact Option.noConfusion h

/-- An accepted line other than the bare `M112` is enqueued. -/
theorem acceptLine_enqueues (cfg : Config) (line : List Nat) (s : Machine)
    (h : line ≠ bytes "M112") :
    acceptLine cfg line s =
      ({ s with out := s.out ++ stoppedNotice line s.Stopped
                bufindw := (s.bufindw + 1) % cfg.BUFSIZE
                buflen := s.buflen + 1
                serial_count := 0 }, false) := by
  unfold acceptLine
  dsimp only
  rw [if_neg h]

/-- When the only pending character ends a non-empty line outside comment mode,
`get_command` is the line protocol on that line. -/
theorem get_command_lineEnd (cfg : Config) (s : Machine) (c : Nat)
    (hrx : s.rx = [c]) (hroom : s.buflen < cfg.BUFSIZE)
    (hsd : cfg.SDSUPPORT = false ∨ s.sdprinting = false)
    (hend : endsLine cfg s.comment_mode s.serial_count c = true)
    (hcnt : s.serial_count ≠ 0) (hcm : s.comment_mode = false) :
    get_command cfg s = (serialLine cfg (termState s c)).1 := by
  rw [get_command_single cfg s c hrx hroom hsd,
    serialChar_lineEnd cfg c { s with rx := [] } hend hcnt hcm]
  rfl

/-- Outside comment mode (the line carried no `;`), a received serial line that
contains `N` and whose line number is `gcode_LastN + 1` is accepted by
`get_command` (stored in the command queue: `buflen` grows by one, `bufindw`
advances, the slot holds the line; and `gcode_LastN` becomes that number) if
and only if the line contains `*` and the integer value of the number after the
first `*` equals the 8-bit XOR of the bytes before that `*`. -/
theorem numbered_line_accepted_iff_checksum (cfg : Config) (s : Machine) (c : Nat)
    (p : List Nat)
    (hrx : s.rx = [c]) (hroom : s.buflen < cfg.BUFSIZE)
    (hsd : cfg.SDSUPPORT = false ∨ s.sdprinting = false)
    (hend : endsLine cfg s.comment_mode s.serial_count c = true)
    (hcnt : s.serial_count ≠ 0) (hcm : s.comment_mode = false)
    (hN : strchr (receivedLine cfg s) 78 = some p)
    (hseq : strtol (p.drop 1) = s.gcode_LastN + 1) :
    ((get_command cfg s).buflen = s.buflen + 1 ∧
      (get_command cfg s).bufindw = (s.bufindw + 1) % cfg.BUFSIZE ∧
      (get_command cfg s).cmd cfg s.bufindw = receivedLine cfg s ∧
      (get_command cfg s).gcode_LastN = s.gcode_LastN + 1) ↔
    ∃ q, strchr (receivedLine cfg s) 42 = some q ∧
      (strtod (q.drop 1)).toInt = (checksumOf (receivedLine cfg s) : Int) := by
  rw [get_command_lineEnd cfg s c hrx hroom hsd hend hcnt hcm]
  cases hq : strchr (receivedLine cfg s) 42 with
  | none =>
    rw [serialLine_no_checksum cfg (termState s c) p hN (Or.inl hseq) hq]
    constructor
    · rintro ⟨h, -⟩
      exact absurd h (by show s.buflen ≠ s.buflen + 1; omega)
    · rintro ⟨q, h, -⟩
      exact Option.noConfusion h
  | some q =>
    by_cases hsum : (strtod (q.drop 1)).toInt = (checksumOf (receivedLine cfg s) : Int)
    · have hne : (termState s c).cmd cfg (termState s c).bufindw ≠ bytes "M112" :=
        ne_of_strchr _ _ p 78 hN (by decide)
      rw [serialLine_numbered_ok cfg (termState s c) p q hN (Or.inl hseq) hq hsum,
        acceptLine_enqueues cfg _ _ hne]
      constructor
      · intro _
        exact ⟨q, rfl, hsum⟩
      · intro _
        exact ⟨rfl, rfl, rfl, hseq⟩
    · rw [serialLine_bad_checksum cfg (termState s c) p q hN (Or.inl hseq) hq hsum]
      constructor
      · rintro ⟨h, -⟩
        exact absurd h (by show s.buflen ≠ s.buflen + 1; omega)
      · rintro ⟨q2, h, h2⟩
        cases h
        exact absurd h2 hsum

/-- The line `N5 G28*22` without a comment, after line 4, is accepted. -/
theorem numbered_line_accepted_iff_checksum_example :
    (get_command cfg0 (atLineEnd (bytes "N5 G28*22") 4)).buflen = 1 ∧
    (get_command cfg0 (atLineEnd (bytes "N5 G28*22") 4)).gcode_LastN = 5 :=
  have h := (numbered_line_accepted_iff_checksum cfg0 (atLineEnd (bytes "N5 G28*22") 4) 10
    (bytes "N5 G28*22") (by decide!) (by decide!) (Or.inl rfl) (by decide!) (by decide!)
    (by decide!) (by decide!) (by decide!)).mpr ⟨bytes "*22", by decide!, by decide!⟩
  ⟨h.1.trans (by decide!), h.2.2.2.trans (by decide!)⟩

/-- What a rejected numbered line leaves behind: queue indices, `gcode_LastN`,
`Stopped`, the planner queue and every other queue slot are untouched, the
collected line is dropped, and the output is the error line followed by the
resend request for `gcode_LastN + 1` (and the acknowledgement). -/
theorem rejectLine_effect (cfg : Config) (err : Out) (s : Machine) :
    (rejectLine cfg err s).1.buflen = s.buflen ∧
    (rejectLine cfg err s).1.bufindw = s.bufindw ∧
    (rejectLine cfg err s).1.bufindr = s.bufindr ∧
    (rejectLine cfg err s).1.gcode_LastN = s.gcode_LastN ∧
    (rejectLine cfg err s).1.Stopped = s.Stopped ∧
    (rejectLine cfg err s).1.planner = s.planner ∧
    (rejectLine cfg err s).1.cmdbuffer = s.cmdbuffer ∧
    (rejectLine cfg err s).1.serial_count = 0 ∧
    (rejectLine cfg err s).1.out = s.out ++ [err, Out.resend (s.gcode_LastN + 1)] ++
      (if cfg.SDSUPPORT && s.fromsd s.bufindr then [] else [Out.ok]) := by
  refine ⟨rfl, rfl, rfl, rfl, rfl, rfl, rfl, rfl, ?_⟩
  show (s.out ++ [err] ++ [Out.resend (s.gcode_LastN + 1)]) ++ _ = _
  simp

/-- Outside comment mode (the line carried no `;`), a numbered line that
`get_command` rejects (its number is not `gcode_LastN + 1` and it has no
`M110`, or its checksum does not match, or it has no checksum) has no effect
other than the response: `buflen`, `bufindw`,
`bufindr`, `gcode_LastN`, `Stopped`, the planner queue and the queued commands
are unchanged, the collected line is dropped, and the output is one error line
followed by the resend request carrying `gcode_LastN + 1`. -/
theorem rejected_line_only_requests_resend (cfg : Config) (s : Machine) (c : Nat)
    (p : List Nat)
    (hrx : s.rx = [c]) (hroom : s.buflen < cfg.BUFSIZE)
    (hsd : cfg.SDSUPPORT = false ∨ s.sdprinting = false)
    (hend : endsLine cfg s.comment_mode s.serial_count c = true)
    (hcnt : s.serial_count ≠ 0) (hcm : s.comment_mode = false)
    (hN : strchr (receivedLine cfg s) 78 = some p)
    (hrej : (strtol (p.drop 1) ≠ s.gcode_LastN + 1 ∧
        strstr (receivedLine cfg s) (bytes "M110") = none) ∨
      (∃ q, strchr (receivedLine cfg s) 42 = some q ∧
        (strtod (q.drop 1)).toInt ≠ (checksumOf (receivedLine cfg s) : Int)) ∨
      strchr (receivedLine cfg s) 42 = none) :
    (get_command cfg s).buflen = s.buflen ∧
    (get_command cfg s).bufindw = s.bufindw ∧
    (get_command cfg s).bufindr = s.bufindr ∧
    (get_command cfg s).gcode_LastN = s.gcode_LastN ∧
    (get_command cfg s).Stopped = s.Stopped ∧
    (get_command cfg s).planner = s.planner ∧
    (∀ slot, slot ≠ s.bufindw → (get_command cfg s).cmdbuffer slot = s.cmdbuffer slot) ∧
    (get_command cfg s).serial_count = 0 ∧
    ∃ err, err ∈ [Out.errLineNo s.gcode_LastN, Out.errChecksumMismatch s.gcode_LastN,
        Out.errNoChecksum s.gcode_LastN] ∧
      (get_command cfg s).out = s.out ++ [err, Out.resend (s.gcode_LastN + 1)] ++
        (if cfg.SDSUPPORT && Function.update s.fromsd s.bufindw false s.bufindr
          then [] else [Out.ok]) := by
  have hbuf : ∀ slot, slot ≠ s.bufindw →
      setChar s.cmdbuffer s.bufindw s.serial_count 0 slot = s.cmdbuffer slot := by
    intro slot hne
    exact Function.update_noteq hne _ _
  suffices key : ∃ err, err ∈ [Out.errLineNo s.gcode_LastN,
        Out.errChecksumMismatch s.gcode_LastN, Out.errNoChecksum s.gcode_LastN] ∧
      get_command cfg s = (rejectLine cfg err
        { termState s c with
          comment_mode := false
          fromsd := Function.update s.fromsd s.bufindw false
          gcode_N := strtol (p.drop 1) }).1 by
    obtain ⟨err, hmem, hg⟩ := key
    rw [hg]
    obtain ⟨h1, h2, h3, h4, h5, h6, h7, h8, h9⟩ := rejectLine_effect cfg err
      { termState s c with
        comment_mode := false
        fromsd := Function.update s.fromsd s.bufindw false
        gcode_N := strtol (p.drop 1) }
    refine ⟨h1, h2, h3, h4, h5, h6, ?_, h8, err, hmem, h9⟩
    intro slot hne
    rw [h7]
    exact hbuf slot hne
  have hg := get_command_lineEnd cfg s c hrx hroom hsd hend hcnt hcm
  by_cases hseq : strtol (p.drop 1) ≠ s.gcode_LastN + 1 ∧
      strstr (receivedLine cfg s) (bytes "M110") = none
  · refine ⟨Out.errLineNo s.gcode_LastN, by simp, ?_⟩
    rw [hg, serialLine_bad_sequence cfg (termState s c) p hN hseq.1 hseq.2]
    rfl
  · have hseq2 : strtol (p.drop 1) = s.gcode_LastN + 1 ∨
        strstr (receivedLine cfg s) (bytes "M110") ≠ none := by
      by_cases h : strtol (p.drop 1) = s.gcode_LastN + 1
      · exact Or.inl h
      · exact Or.inr (fun h2 => hseq ⟨h, h2⟩)
    rcases hrej with h | ⟨q, hq, hsum⟩ | hq
    · exact absurd h hseq
    · refine ⟨Out.errChecksumMismatch s.gcode_LastN, by simp, ?_⟩
      rw [hg, serialLine_bad_checksum cfg (termState s c) p q hN hseq2 hq hsum]
      rfl
    · refine ⟨Out.errNoChecksum s.gcode_LastN, by simp, ?_⟩
      rw [hg, serialLine_no_checksum cfg (termState s c) p hN hseq2 hq]
      rfl

/-- The line `N5 G28*23` without a comment, after line 4, has a corrupted
checksum; it is dropped and line 5 is requested again. -/
theorem rejected_line_only_requests_resend_example :
    (get_command cfg0 (atLineEnd (bytes "N5 G28*23") 4)).buflen = 0 ∧
    (get_command cfg0 (atLineEnd (bytes "N5 G28*23") 4)).gcode_LastN = 4 ∧
    Out.resend 5 ∈ (get_command cfg0 (atLineEnd (bytes "N5 G28*23") 4)).out :=
  have h := rejected_line_only_requests_resend cfg0 (atLineEnd (bytes "N5 G28*23") 4) 10
    (bytes "N5 G28*23") (by decide!) (by decide!) (Or.inl rfl) (by decide!) (by decide!)
    (by decide!) (by decide!) (Or.inr (Or.inl ⟨bytes "*23", by decide!, by decide!⟩))
  ⟨h.1.trans (by decide!), h.2.2.2.1.trans (by decide!), by
    obtain ⟨err, -, ho⟩ := h.2.2.2.2.2.2.2.2
    rw [ho]
    exact List.mem_append_left _ (List.mem_append_right _
      (List.mem_cons_of_mem _ (List.mem_singleton.mpr (by decide!))))⟩

/-- The bytes before a `*` that is preceded by no other `*` are the checksummed
part of the line. -/
theorem checksumOf_append_star (body t : List Nat) (h : 42 ∉ body) :
    checksumOf (body ++ 42 :: t) = xorBytes body := by
  unfold checksumOf
  rw [takeWhile_append_cons body 42 t h]

/-- Outside comment mode (the line carried no `;`), the reset-sequence command
is exempt from the sequence check.  For every line number `n` (the value of the
digit string `ds`, within the range of `long`) and whatever `gcode_LastN` is,
the line `N<n> M110*<t>` whose checksum
field `t` has the XOR of the bytes of `N<n> M110` as value is accepted by
`get_command` (enqueued), and afterwards `gcode_LastN = n`; and from any state
with `gcode_LastN = n`, a numbered line without `M110` whose number is not
`n + 1` is not accepted. -/
theorem M110_exempt_from_sequence_check (cfg : Config) (s : Machine) (c : Nat)
    (ds t : List Nat) (n : Nat)
    (hrx : s.rx = [c]) (hroom : s.buflen < cfg.BUFSIZE)
    (hsd : cfg.SDSUPPORT = false ∨ s.sdprinting = false)
    (hend : endsLine cfg s.comment_mode s.serial_count c = true)
    (hcnt : s.serial_count ≠ 0) (hcm : s.comment_mode = false)
    (hne : ds ≠ []) (hds : ∀ d ∈ ds, isdigit d = true)
    (hval : digitsVal 0 ds = n) (hn : (n : Int) ≤ LONG_MAX)
    (hline : receivedLine cfg s = 78 :: (ds ++ bytes " M110") ++ 42 :: t)
    (hsum : (strtod t).toInt = (xorBytes (78 :: (ds ++ bytes " M110")) : Int)) :
    ((get_command cfg s).buflen = s.buflen + 1 ∧
      (get_command cfg s).bufindw = (s.bufindw + 1) % cfg.BUFSIZE ∧
      (get_command cfg s).cmd cfg s.bufindw = receivedLine cfg s ∧
      (get_command cfg s).gcode_LastN = n) ∧
    ∀ (s2 : Machine) (c2 : Nat) (p2 : List Nat),
      s2.rx = [c2] → s2.buflen < cfg.BUFSIZE →
      (cfg.SDSUPPORT = false ∨ s2.sdprinting = false) →
      endsLine cfg s2.comment_mode s2.serial_count c2 = true →
      s2.serial_count ≠ 0 → s2.comment_mode = false →
      s2.gcode_LastN = (get_command cfg s).gcode_LastN →
      strchr (receivedLine cfg s2) 78 = some p2 →
      strstr (receivedLine cfg s2) (bytes "M110") = none →
      strtol (p2.drop 1) ≠ (n : Int) + 1 →
      (get_command cfg s2).buflen = s2.buflen ∧
        (get_command cfg s2).bufindw = s2.bufindw ∧
        (get_command cfg s2).gcode_LastN = n := by
  have hd42 : ∀ d ∈ ds, d ≠ 42 := fun d hd e => by
    have := isdigit_bounds (hds d hd)
    omega
  have h42 : (42 : Nat) ∉ 78 :: (ds ++ bytes " M110") := by
    intro hm
    rcases List.mem_cons.mp hm with h | h
    · exact absurd h (by decide)
    · rcases List.mem_append.mp h with h | h
      · exact hd42 42 h rfl
      · exact absurd h (by decide)
  have hN : strchr (receivedLine cfg s) 78 = some (78 :: (ds ++ bytes " M110") ++ 42 :: t) := by
    rw [hline]
    simp [strchr]
  have htl : strtol ((78 :: (ds ++ bytes " M110") ++ 42 :: t).drop 1) = (n : Int) := by
    have e : (78 :: (ds ++ bytes " M110") ++ 42 :: t).drop 1 =
        ds ++ 32 :: (bytes "M110" ++ 42 :: t) := by
      show ds ++ bytes " M110" ++ 42 :: t = _
      rw [List.append_assoc]
      rfl
    rw [e, strtol_digits ds 32 _ hne hds (by decide), hval]
    exact min_eq_left hn
  have hM : strstr (receivedLine cfg s) (bytes "M110") ≠ none := by
    have e : receivedLine cfg s = (78 :: (ds ++ [32])) ++ bytes "M110" ++ 42 :: t := by
      rw [hline]
      show 78 :: (ds ++ bytes " M110" ++ 42 :: t) = 78 :: (ds ++ [32] ++ bytes "M110" ++ 42 :: t)
      congr 1
      simp only [List.append_assoc]
      rfl
    rw [e]
    exact strstr_append _ _ _ (by decide)
  have hstar : strchr (receivedLine cfg s) 42 = some (42 :: t) := by
    rw [hline]
    exact strchr_append_cons _ 42 t h42
  have hck : (strtod ((42 :: t).drop 1)).toInt = (checksumOf (receivedLine cfg s) : Int) := by
    rw [hline, checksumOf_append_star _ t h42]
    exact hsum
  have hne112 : (termState s c).cmd cfg (termState s c).bufindw ≠ bytes "M112" :=
    ne_of_strchr _ _ _ 78 hN (by decide)
  have hacc : (get_command cfg s).buflen = s.buflen + 1 ∧
      (get_command cfg s).bufindw = (s.bufindw + 1) % cfg.BUFSIZE ∧
      (get_command cfg s).cmd cfg s.bufindw = receivedLine cfg s ∧
      (get_command cfg s).gcode_LastN = n := by
    rw [get_command_lineEnd cfg s c hrx hroom hsd hend hcnt hcm,
      serialLine_numbered_ok cfg (termState s c) _ _ hN (Or.inr hM) hstar hck,
      acceptLine_enqueues cfg _ _ hne112]
    exact ⟨rfl, rfl, rfl, htl⟩
  refine ⟨hacc, ?_⟩
  intro s2 c2 p2 hrx2 hroom2 hsd2 hend2 hcnt2 hcm2 hlast hN2 hM2 hbad
  rw [hacc.2.2.2] at hlast
  have hbad2 : strtol (p2.drop 1) ≠ s2.gcode_LastN + 1 := by
    rw [hlast]
    exact hbad
  rw [get_command_lineEnd cfg s2 c2 hrx2 hroom2 hsd2 hend2 hcnt2 hcm2,
    serialLine_bad_sequence cfg (termState s2 c2) p2 hN2 hbad2 hM2]
  exact ⟨rfl, rfl, hlast⟩

/-- The line `N7 M110*36` without a comment is accepted although the last
accepted line was 4, and `gcode_LastN` becomes 7. -/
theorem M110_exempt_from_sequence_check_example :
    (get_command cfg0 (atLineEnd (bytes "N7 M110*36") 4)).buflen = 1 ∧
    (get_command cfg0 (atLineEnd (bytes "N7 M110*36") 4)).gcode_LastN = 7 :=
  have h := (M110_exempt_from_sequence_check cfg0 (atLineEnd (bytes "N7 M110*36") 4) 10
    (bytes "7") (bytes "36") 7 (by decide!) (by decide!) (Or.inl rfl) (by decide!)
    (by decide!) (by decide!) (by decide!) (by decide!) (by decide!) (by decide!)
    (by decide!) (by decide!)).1
  ⟨h.1.trans (by decide!), h.2.2.2⟩

/-- When a non-empty line ends while `comment_mode` is set, the serial branch of
`get_command` enqueues nothing, drops the collected command, and leaves
`comment_mode` set for the next line. -/
theorem get_command_comment_line (cfg : Config) (s : Machine) (c : Nat)
    (hrx : s.rx = [c]) (hroom : s.buflen < cfg.BUFSIZE)
    (hsd : cfg.SDSUPPORT = false ∨ s.sdprinting = false)
    (hend : endsLine cfg s.comment_mode s.serial_count c = true)
    (hcnt : s.serial_count ≠ 0) (hcm : s.comment_mode = true) :
    (get_command cfg s).buflen = s.buflen ∧
    (get_command cfg s).bufindw = s.bufindw ∧
    (get_command cfg s).serial_count = 0 ∧
    (get_command cfg s).comment_mode = true ∧
    (get_command cfg s).out = s.out := by
  have hcm2 : ¬ (s.comment_mode = false) := by simp [hcm]
  have e : serialChar cfg c { s with rx := [] } =
      ({ s with rx := [], serial_char := c
                cmdbuffer := setChar s.cmdbuffer s.bufindw s.serial_count 0
                serial_count := 0 }, false) := by
    unfold serialChar
    dsimp only
    rw [if_pos hend, if_neg hcnt, if_neg hcm2]
  rw [get_command_single cfg s c hrx hroom hsd, e]
  exact ⟨rfl, rfl, rfl, hcm, rfl⟩

/-- C5 (the code at the failing input): on the serial input `G28;home` line feed
`G1 X5` line feed, `get_command` consumes both lines and enqueues neither: the
command before the comment is dropped and the following line is swallowed as
part of the comment. -/
theorem C5_serial_comment_drops_command_and_next_line :
    (get_command cfg0 { init with rx := commentInput }).buflen = 0 ∧
    (get_command cfg0 { init with rx := commentInput }).bufindw = 0 ∧
    (get_command cfg0 { init with rx := commentInput }).rx = [] ∧
    (get_command cfg0 { init with rx := commentInput }).serial_count = 0 := by
  decide

/-- The SD branch of `get_command` on the same two lines: both commands are
enqueued, the first one without its comment. -/
theorem sd_comment_is_stripped :
    (get_command cfgSD { init with sdprinting := true, card := commentInput }).buflen = 2 ∧
    (get_command cfgSD { init with sdprinting := true, card := commentInput }).cmd cfgSD 0 =
      bytes "G28" ∧
    (get_command cfgSD { init with sdprinting := true, card := commentInput }).cmd cfgSD 1 =
      bytes "G1 X5" := by
  decide

/-- While stopped, the G switch does nothing for the codes 0, 1, 2 and 3. -/
theorem dispatchG_stopped (cfg : Config) (code : Int) (s : Machine)
    (hst : s.Stopped = true) (hcode : code ∈ [0, 1, 2, 3]) :
    dispatchG cfg code s = (s, false) := by
  have hst2 : ¬ (s.Stopped = false) := by simp [hst]
  unfold dispatchG
  simp only [List.mem_cons, List.mem_singleton, List.not_mem_nil, or_false] at hcode
  rcases hcode with h | h | h | h <;> subst h
  · rw [if_pos (Or.inl rfl), if_neg hst2]
  · rw [if_pos (Or.inr rfl), if_neg hst2]
  · rw [if_neg (by decide)]
    by_cases ht : cfg.topology ≠ Topology.scara
    · rw [if_pos ⟨Or.inl rfl, ht⟩, if_neg hst2]
    · rw [if_neg (fun h => ht h.2), if_neg (by decide), if_neg (by decide),
        if_neg (by decide), if_neg (by decide), if_neg (by decide)]
  · rw [if_neg (by decide)]
    by_cases ht : cfg.topology ≠ Topology.scara
    · rw [if_pos ⟨Or.inr rfl, ht⟩, if_neg hst2]
    · rw [if_neg (fun h => ht h.2), if_neg (by decide), if_neg (by decide),
        if_neg (by decide), if_neg (by decide), if_neg (by decide)]

/-- C6: while `Stopped` is true, `process_commands` rejects G0, G1, G2 and G3
with any parameters: no move is submitted to the planner, and
`current_position`, `destination` and `feedrate` are unchanged (the command is
only acknowledged). -/
theorem C6_stopped_rejects_G0_to_G3 (cfg : Config) (s : Machine)
    (hst : s.Stopped = true)
    (hG : code_seen (s.cmd cfg s.bufindr) 71 = true)
    (hcode : code_value_int (s.cmd cfg s.bufindr) 71 ∈ [0, 1, 2, 3]) :
    (process_commands cfg s).planner = s.planner ∧
    (process_commands cfg s).current_position = s.current_position ∧
    (process_commands cfg s).destination = s.destination ∧
    (process_commands cfg s).feedrate = s.feedrate ∧
    (process_commands cfg s).Stopped = true := by
  have e : process_commands cfg s = ClearToSend cfg s := by
    unfold process_commands
    dsimp only
    rw [if_pos hG, dispatchG_stopped cfg _ s hst hcode]
    rfl
  rw [e]
  exact ⟨rfl, rfl, rfl, rfl, hst⟩

/-- C6 at a concrete command: `G1 X10 F3000` while stopped moves nothing. -/
theorem C6_stopped_rejects_G0_to_G3_witness :
    (process_commands cfg0 (stoppedWith (bytes "G1 X10 F3000"))).planner = [] ∧
    (process_commands cfg0 (stoppedWith (bytes "G1 X10 F3000"))).feedrate = 1500 :=
  have h := C6_stopped_rejects_G0_to_G3 cfg0 (stoppedWith (bytes "G1 X10 F3000")) rfl
    (by decide) (by decide)
  ⟨h.1, h.2.2.2.1⟩

/-- The G switch runs the G61 body whether or not the machine is stopped. -/
theorem dispatchG_G61 (cfg : Config) (s : Machine) :
    dispatchG cfg 61 s = (gcode_G61 cfg s, false) := by
  unfold dispatchG
  rw [if_neg (by decide), if_neg (fun h => absurd h.1 (by decide)), if_neg (by decide),
    if_pos rfl]

/-- C7 (the code at the failing input): with `Stopped` true, position 0 and
memorised position 0 on a Cartesian machine, the command `G61 X10` makes
`process_commands` submit the move to X = 10 to the planner and set
`current_position` to it; `Stopped` stays true. -/
theorem C7_G61_moves_while_stopped :
    (stoppedWith (bytes "G61 X10")).Stopped = true ∧
    (process_commands cfg0 (stoppedWith (bytes "G61 X10"))).planner =
      [⟨10, 0, 0, 0, 25, 0, 0⟩] ∧
    (process_commands cfg0 (stoppedWith (bytes "G61 X10"))).current_position =
      ⟨10, 0, 0, 0⟩ ∧
    (process_commands cfg0 (stoppedWith (bytes "G61 X10"))).Stopped = true := by
  decide!

/-- The M switch for M999: restart and request a resend. -/
theorem dispatchM_M999 (cfg : Config) (s : Machine) :
    dispatchM cfg 999 s = (FlushSerialRequestResend cfg
      { s with Stopped := false, gcode_LastN := s.Stopped_gcode_LastN }, false) := by
  unfold dispatchM
  rw [if_neg (show ¬ ((999 : Int) = 112) by decide), if_pos rfl]

/-- `Stop` while already stopped changes nothing. -/
theorem Stop_idempotent (s : Machine) (h : s.Stopped = true) : Stop s = s := by
  unfold Stop
  rw [if_neg (by simp [h])]

/-- C8: `Stop` sets `Stopped` and records `gcode_LastN` on the first call only (a
`Stop` while already stopped changes nothing); an `M999` processed afterwards,
in any state that still holds the recorded value, sets `Stopped` to false, sets
`gcode_LastN` to the value recorded by the first `Stop`, and requests a resend
from that value + 1 (followed by the acknowledgements). -/
theorem C8_stop_then_M999_restores_sequence (cfg : Config) (s : Machine)
    (hrun : s.Stopped = false) :
    (Stop s).Stopped = true ∧
    (Stop s).Stopped_gcode_LastN = s.gcode_LastN ∧
    Stop (Stop s) = Stop s ∧
    (∀ s1 : Machine, s1.Stopped = true → Stop s1 = s1) ∧
    ∀ s2 : Machine,
      s2.Stopped_gcode_LastN = (Stop s).Stopped_gcode_LastN →
      code_seen (s2.cmd cfg s2.bufindr) 71 = false →
      code_seen (s2.cmd cfg s2.bufindr) 77 = true →
      code_value_int (s2.cmd cfg s2.bufindr) 77 = 999 →
      (process_commands cfg s2).Stopped = false ∧
        (process_commands cfg s2).gcode_LastN = s.gcode_LastN ∧
        (process_commands cfg s2).out = s2.out ++ [Out.resend (s.gcode_LastN + 1)] ++
          (if cfg.SDSUPPORT && s2.fromsd s2.bufindr then [] else [Out.ok, Out.ok]) := by
  have h1 : Stop s = { s with Stopped := true
                              Stopped_gcode_LastN := s.gcode_LastN
                              out := s.out ++ [Out.errStopped] } := by
    unfold Stop
    rw [if_pos hrun]
  have h2 : (Stop s).Stopped = true := by rw [h1]
  refine ⟨h2, by rw [h1], Stop_idempotent _ h2, fun s1 hs1 => Stop_idempotent s1 hs1, ?_⟩
  intro s2 hrec hG hM hcode
  have hG2 : ¬ (code_seen (s2.cmd cfg s2.bufindr) 71 = true) := by simp [hG]
  have hrec2 : s2.Stopped_gcode_LastN = s.gcode_LastN := by
    rw [hrec, h1]
  have e : process_commands cfg s2 = ClearToSend cfg (FlushSerialRequestResend cfg
      { s2 with Stopped := false, gcode_LastN := s2.Stopped_gcode_LastN }) := by
    unfold process_commands
    dsimp only
    rw [if_neg hG2, if_pos hM, hcode, dispatchM_M999]
    rfl
  rw [e]
  refine ⟨rfl, hrec2, ?_⟩
  show s2.out ++ [Out.resend (s2.Stopped_gcode_LastN + 1)] ++
      (if cfg.SDSUPPORT && s2.fromsd s2.bufindr then [] else [Out.ok]) ++
      (if cfg.SDSUPPORT && s2.fromsd s2.bufindr then [] else [Out.ok]) = _
  rw [hrec2]
  by_cases hc : (cfg.SDSUPPORT && s2.fromsd s2.bufindr) = true
  · simp [hc]
  · simp [hc]

/-- C8 at a concrete run: stop after line 7, then `M999`: the machine runs again,
`gcode_LastN` is 7 and line 8 is requested. -/
theorem C8_stop_then_M999_restores_sequence_witness :
    (Stop { init with gcode_LastN := 7 }).Stopped = true ∧
    (process_commands cfg0
      { Stop { init with gcode_LastN := 7 } with
        gcode_LastN := 9
        cmdbuffer := fun _ i => (bytes "M999").getD i 0 }).gcode_LastN = 7 ∧
    (process_commands cfg0
      { Stop { init with gcode_LastN := 7 } with
        gcode_LastN := 9
        cmdbuffer := fun _ i => (bytes "M999").getD i 0 }).out =
      [Out.errStopped, Out.resend 8, Out.ok, Out.ok] :=
  have h := C8_stop_then_M999_restores_sequence cfg0 { init with gcode_LastN := 7 } rfl
  have h5 := h.2.2.2.2
    { Stop { init with gcode_LastN := 7 } with
      gcode_LastN := 9
      cmdbuffer := fun _ i => (bytes "M999").getD i 0 }
    rfl (by decide) (by decide) (by decide)
  ⟨h.1, h5.2.1, h5.2.2⟩

/-- C9, as stated, fails: on the Cartesian example build the command `G5` (a G
number without a case) produces only the acknowledgement, no unknown-command
echo. -/
theorem C9_counterexample_G5_is_silently_acknowledged :
    (process_commands cfg0 (withCommand (bytes "G5"))).out = [Out.ok] ∧
    Out.unknownCommand (bytes "G5") ∉ (process_commands cfg0 (withCommand (bytes "G5"))).out := by
  decide

/-- The G switch has no case for a code outside the case labels. -/
theorem dispatchG_no_case (cfg : Config) (code : Int) (s : Machine)
    (h : code ∉ [0, 1, 2, 3, 60, 61, 90, 91] ++ otherGLabels) :
    dispatchG cfg code s = (s, false) := by
  simp only [List.mem_append, List.mem_cons, List.mem_singleton, List.not_mem_nil, or_false,
    not_or] at h
  obtain ⟨⟨h0, h1, h2, h3, h60, h61, h90, h91⟩, hother⟩ := h
  unfold dispatchG
  rw [if_neg (by rintro (h | h); exacts [h0 h, h1 h]),
    if_neg (by rintro ⟨h | h, -⟩; exacts [h2 h, h3 h]),
    if_neg h60, if_neg h61, if_neg h90, if_neg h91, if_neg hother]

/-- The M switch has no case for a code outside the case labels. -/
theorem dispatchM_no_case (cfg : Config) (code : Int) (s : Machine)
    (h : code ∉ [112, 999] ++ otherMLabels cfg) :
    dispatchM cfg code s = (s, false) := by
  rw [List.mem_append, not_or] at h
  obtain ⟨h1, hother⟩ := h
  simp only [List.mem_cons, List.mem_singleton, List.not_mem_nil, or_false, not_or] at h1
  unfold dispatchM
  rw [if_neg h1.1, if_neg h1.2, if_neg hother]

/-- C9, amended: a command line that contains none of the letters G, M and T
makes `process_commands` emit the unknown-command echo quoting the line; a
line whose G or M number has no case in the switch produces no diagnostic, only
the acknowledgement.  In all these cases the `Stopped` flag, the planner queue
and the position are unchanged. -/
theorem C9_unrecognized_codes (cfg : Config) (s : Machine)
    (h : (code_seen (s.cmd cfg s.bufindr) 71 = false ∧
          code_seen (s.cmd cfg s.bufindr) 77 = false ∧
          code_seen (s.cmd cfg s.bufindr) 84 = false) ∨
        (code_seen (s.cmd cfg s.bufindr) 71 = true ∧
          code_value_int (s.cmd cfg s.bufindr) 71 ∉
            [0, 1, 2, 3, 60, 61, 90, 91] ++ otherGLabels) ∨
        (code_seen (s.cmd cfg s.bufindr) 71 = false ∧
          code_seen (s.cmd cfg s.bufindr) 77 = true ∧
          code_value_int (s.cmd cfg s.bufindr) 77 ∉ [112, 999] ++ otherMLabels cfg)) :
    (process_commands cfg s).Stopped = s.Stopped ∧
    (process_commands cfg s).planner = s.planner ∧
    (process_commands cfg s).current_position = s.current_position ∧
    (process_commands cfg s).out =
      s.out ++
        (if code_seen (s.cmd cfg s.bufindr) 71 = false ∧
            code_seen (s.cmd cfg s.bufindr) 77 = false
          then [Out.unknownCommand (s.cmd cfg s.bufindr)] else []) ++
        (if cfg.SDSUPPORT && s.fromsd s.bufindr then [] else [Out.ok]) := by
  rcases h with ⟨hG, hM, hT⟩ | ⟨hG, hc⟩ | ⟨hG, hM, hc⟩
  · have e : process_commands cfg s = ClearToSend cfg
        { s with out := s.out ++ [Out.unknownCommand (s.cmd cfg s.bufindr)] } := by
      unfold process_commands
      dsimp only
      rw [if_neg (by simp [hG]), if_neg (by simp [hM]), if_neg (by simp [hT])]
    rw [e, if_pos ⟨hG, hM⟩]
    exact ⟨rfl, rfl, rfl, rfl⟩
  · have e : process_commands cfg s = ClearToSend cfg s := by
      unfold process_commands
      dsimp only
      rw [if_pos hG, dispatchG_no_case cfg _ s hc]
      rfl
    rw [e, if_neg (by simp [hG])]
    refine ⟨rfl, rfl, rfl, ?_⟩
    show s.out ++ _ = s.out ++ [] ++ _
    rw [List.append_nil]
  · have e : process_commands cfg s = ClearToSend cfg s := by
      unfold process_commands
      dsimp only
      rw [if_neg (by simp [hG]), if_pos hM, dispatchM_no_case cfg _ s hc]
      rfl
    rw [e, if_neg (by simp [hM])]
    refine ⟨rfl, rfl, rfl, ?_⟩
    show s.out ++ _ = s.out ++ [] ++ _
    rw [List.append_nil]

/-- C9, amended, at a concrete line: `X5 Y3` has no G, M or T and is echoed as
unknown. -/
theorem C9_unrecognized_codes_witness :
    (process_commands cfg0 (withCommand (bytes "X5 Y3"))).Stopped = false ∧
    (process_commands cfg0 (withCommand (bytes "X5 Y3"))).out =
      [Out.unknownCommand (bytes "X5 Y3"), Out.ok] :=
  have h := C9_unrecognized_codes cfg0 (withCommand (bytes "X5 Y3"))
    (Or.inl ⟨by decide, by decide, by decide⟩)
  ⟨h.1, h.2.2.2.trans (by decide)⟩

/-- The string in an array whose first bytes are those of `line`, followed by a
NUL, is `line`. -/
theorem cstr_eq_of_prefix (line : List Nat) : ∀ (size : Nat) (buf : Nat → Nat),
    (∀ i, i < line.length → buf i = line.getD i 0) → buf line.length = 0 →
    line.length < size → (0 : Nat) ∉ line → cstr size buf = line := by
  induction line with
  | nil =>
    intro size buf _ h0 hsz _
    obtain ⟨n, rfl⟩ : ∃ n, size = n + 1 := ⟨size - 1, by simp at hsz; omega⟩
    have h00 : buf 0 = 0 := h0
    simp [cstr, List.range_succ_eq_map, h00]
  | cons c cs ih =>
    intro size buf hpre h0 hsz hnul
    obtain ⟨n, rfl⟩ : ∃ n, size = n + 1 := ⟨size - 1, by simp at hsz; omega⟩
    have hc : buf 0 = c := by simpa using hpre 0 (by simp)
    have hc0 : c ≠ 0 := fun e => hnul (e ▸ List.mem_cons_self _ _)
    have ih2 := ih n (fun i => buf (i + 1))
      (fun i hi => by simpa using hpre (i + 1) (by simpa using hi))
      (by simpa using h0) (by simpa using hsz)
      (fun h => hnul (List.mem_cons_of_mem _ h))
    unfold cstr at ih2 ⊢
    rw [List.range_succ_eq_map, List.map_cons, List.map_map,
      List.takeWhile_cons_of_pos (by simp [hc, hc0]), hc]
    congr 1

/-- A character that is no line end, outside comment mode and with room in the
line buffer, does not end the line. -/
theorem endsLine_false (cfg : Config) (n c : Nat)
    (hc : c ≠ 10 ∧ c ≠ 13 ∧ c ≠ 58 ∧ c ≠ 59) (hroom : n + 1 ≤ cfg.MAX_CMD_SIZE - 1) :
    ¬ (endsLine cfg false n c = true) := by
  obtain ⟨h10, h13, h58, -⟩ := hc
  have hn : ¬ (n ≥ cfg.MAX_CMD_SIZE - 1) := by omega
  simp [endsLine, h10, h13, h58, hn]

/-- One pass of the serial loop body on such a character stores it. -/
theorem serialChar_store (cfg : Config) (c : Nat) (s : Machine) (rest : List Nat)
    (hrx : s.rx = c :: rest) (hcm : s.comment_mode = false)
    (hc : c ≠ 10 ∧ c ≠ 13 ∧ c ≠ 58 ∧ c ≠ 59)
    (hroom : s.serial_count + 1 ≤ cfg.MAX_CMD_SIZE - 1) :
    serialChar cfg c { s with rx := rest } = (storeChar s c, false) := by
  have hend : ¬ (endsLine cfg s.comment_mode s.serial_count c = true) := by
    rw [hcm]
    exact endsLine_false cfg _ c hc hroom
  unfold serialChar storeChar
  dsimp only
  rw [if_neg hend, if_neg hc.2.2.2, if_pos hcm, hrx]
  rfl

/-- Storing a line: what changes and what does not. -/
theorem collect_frame (line : List Nat) : ∀ s : Machine,
    (collect s line).serial_count = s.serial_count + line.length ∧
    (collect s line).comment_mode = s.comment_mode ∧
    (collect s line).bufindw = s.bufindw ∧
    (collect s line).buflen = s.buflen ∧
    (collect s line).gcode_LastN = s.gcode_LastN ∧
    (collect s line).sdprinting = s.sdprinting ∧
    (collect s line).rx = s.rx.drop line.length ∧
    (∀ i, i < s.serial_count →
      (collect s line).cmdbuffer s.bufindw i = s.cmdbuffer s.bufindw i) ∧
    (∀ i, i < line.length →
      (collect s line).cmdbuffer s.bufindw (s.serial_count + i) = line.getD i 0) := by
  induction line with
  | nil =>
    intro s
    exact ⟨rfl, rfl, rfl, rfl, rfl, rfl, rfl, fun _ _ => rfl, fun i hi => absurd hi (by simp)⟩
  | cons c cs ih =>
    intro s
    obtain ⟨h1, h2, h3, h4, h5, h6, h7, h8, h9⟩ := ih (storeChar s c)
    have hset : (storeChar s c).cmdbuffer s.bufindw s.serial_count = c := by
      simp [storeChar, setChar]
    have hkeep : ∀ i, i < s.serial_count →
        (storeChar s c).cmdbuffer s.bufindw i = s.cmdbuffer s.bufindw i := by
      intro i hi
      have : i ≠ s.serial_count := by omega
      simp [storeChar, setChar, this]
    refine ⟨?_, h2, h3, h4, h5, h6, ?_, ?_, ?_⟩
    · show (collect (storeChar s c) cs).serial_count = _
      rw [h1, List.length_cons]
      show s.serial_count + 1 + cs.length = _
      omega
    · show (collect (storeChar s c) cs).rx = _
      rw [h7]
      show s.rx.tail.drop cs.length = _
      cases s.rx with
      | nil => simp
      | cons a as => simp
    · intro i hi
      show (collect (storeChar s c) cs).cmdbuffer (storeChar s c).bufindw i = _
      rw [h8 i (by show i < s.serial_count + 1; omega)]
      exact hkeep i hi
    · intro i hi
      show (collect (storeChar s c) cs).cmdbuffer (storeChar s c).bufindw _ = _
      cases i with
      | zero =>
        rw [h8 _ (by show s.serial_count + 0 < s.serial_count + 1; omega)]
        exact hset
      | succ j =>
        have e : s.serial_count + (j + 1) = (storeChar s c).serial_count + j := by
          show _ = s.serial_count + 1 + j
          omega
        rw [e, h9 j (by simpa using hi)]
        simp

/-- The serial loop on input that holds no line end and no comment marker and
fits in the line buffer stores every character and leaves nothing pending. -/
theorem serialLoop_collect (cfg : Config) (line : List Nat) : ∀ (s : Machine) (fuel : Nat),
    s.rx = line → line.length ≤ fuel → s.comment_mode = false →
    s.buflen < cfg.BUFSIZE →
    (∀ c ∈ line, c ≠ 10 ∧ c ≠ 13 ∧ c ≠ 58 ∧ c ≠ 59) →
    s.serial_count + line.length ≤ cfg.MAX_CMD_SIZE - 1 →
    serialLoop cfg fuel s = (collect s line, false) := by
  induction line with
  | nil =>
    intro s fuel hrx _ _ _ _ _
    cases fuel with
    | zero => rfl
    | succ f =>
      unfold serialLoop
      rw [hrx]
      rfl
  | cons c cs ih =>
    intro s fuel hrx hfuel hcm hroom hchars hlen
    cases fuel with
    | zero => exact absurd hfuel (by simp)
    | succ f =>
      have hst := serialChar_store cfg c s cs hrx hcm (hchars c (List.mem_cons_self _ _))
        (by rw [List.length_cons] at hlen; omega)
      have hrec := ih (storeChar s c) f (by show s.rx.tail = cs; rw [hrx]; rfl)
        (by simpa using hfuel) hcm hroom
        (fun x hx => hchars x (List.mem_cons_of_mem _ hx))
        (by rw [List.length_cons] at hlen; show s.serial_count + 1 + cs.length ≤ _; omega)
      unfold serialLoop
      rw [hrx]
      dsimp only
      rw [if_pos hroom, hst]
      dsimp only
      rw [if_neg (by simp)]
      exact hrec

/-- Receiving a line: when `get_command` starts at the beginning of a line with
the bytes of `line` pending (no line end, comment marker or NUL among them, and
short enough for the line buffer), it collects exactly `line`: afterwards
nothing is pending, the queue is as before, and the line that a following
terminator will complete is `line`. -/
theorem get_command_collects_line (cfg : Config) (s : Machine) (line : List Nat)
    (hrx : s.rx = line) (hne : line ≠ []) (hcnt : s.serial_count = 0)
    (hcm : s.comment_mode = false) (hroom : s.buflen < cfg.BUFSIZE)
    (hchars : ∀ c ∈ line, c ≠ 10 ∧ c ≠ 13 ∧ c ≠ 58 ∧ c ≠ 59)
    (hnul : (0 : Nat) ∉ line) (hlen : line.length ≤ cfg.MAX_CMD_SIZE - 1) :
    receivedLine cfg (get_command cfg s) = line ∧
    (get_command cfg s).rx = [] ∧
    (get_command cfg s).serial_count = line.length ∧
    (get_command cfg s).comment_mode = false ∧
    (get_command cfg s).buflen = s.buflen ∧
    (get_command cfg s).bufindw = s.bufindw ∧
    (get_command cfg s).gcode_LastN = s.gcode_LastN := by
  obtain ⟨h1, h2, h3, h4, h5, _, h7, _, h9⟩ := collect_frame line s
  have hpos : 0 < line.length := List.length_pos.mpr hne
  have hloop := serialLoop_collect cfg line s s.rx.length hrx (by rw [hrx]) hcm hroom hchars
    (by rw [hcnt]; omega)
  have hg : get_command cfg s = collect s line := by
    unfold get_command
    rw [hloop]
    dsimp only
    rw [if_neg (by simp)]
    split
    · rfl
    · rw [if_pos (Or.inr (by rw [h1, hcnt]; omega))]
  rw [hg]
  refine ⟨?_, ?_, ?_, h2.trans hcm, h4, h3, h5⟩
  · unfold receivedLine
    apply cstr_eq_of_prefix line
    · intro i hi
      have hi2 : i ≠ (collect s line).serial_count := by rw [h1, hcnt]; omega
      have := h9 i hi
      rw [hcnt, Nat.zero_add] at this
      rw [← this, h3]
      simp [setChar, hi2]
    · have e : (collect s line).serial_count = line.length := by rw [h1, hcnt]; omega
      simp [setChar, e]
    · omega
    · exact hnul
  · rw [h7, hrx]
    simp
  · rw [h1, hcnt]
    omega

/-- One pass of the segment loop sets `destination` to the interpolated point,
`delta` to its machine transform, and appends the request for it. -/
theorem segmentStep_eq (cfg : Config) (d : Pos) (steps : Int) (s : Machine) (k : Nat) :
    segmentStep cfg d steps s k =
      { s with
        destination := segmentPoint s d steps k
        delta := machineTransform cfg s (segmentPoint s d steps k)
        planner := s.planner ++ [requestAt cfg s (segmentPoint s d steps k)] } := by
  unfold segmentStep requestAt machineTransform segmentPoint
  dsimp only
  by_cases h : cfg.topology = Topology.scara
  · simp only [h, if_true]
    rfl
  · simp only [h, if_false]
    rfl

/-- The transform, the feed rate and the tool of a request do not depend on the
destination, on the previous `delta` or on the queue. -/
theorem requestAt_frame (cfg : Config) (s : Machine) (dest : Pos) (dl : Vec3)
    (pl : List PlanReq) (p : Pos) :
    requestAt cfg { s with destination := dest, delta := dl, planner := pl } p =
      requestAt cfg s p := by
  unfold requestAt machineTransform
  by_cases h : cfg.topology = Topology.scara
  · simp only [h, if_true]
    rfl
  · simp only [h, if_false]
    rfl

/-- The segment loop over the list `l` of pass numbers appends the requests for
the interpolated points in order, keeps `current_position`, and leaves
`destination` at the last interpolated point. -/
theorem segmentLoop_eq (cfg : Config) (d : Pos) (steps : Int) :
    ∀ (l : List Nat) (s : Machine),
      (l.foldl (segmentStep cfg d steps) s).planner =
          s.planner ++ l.map (fun k => requestAt cfg s (segmentPoint s d steps k)) ∧
        (l.foldl (segmentStep cfg d steps) s).current_position = s.current_position ∧
        (l.foldl (segmentStep cfg d steps) s).destination =
          (l.getLast?.map (segmentPoint s d steps)).getD s.destination := by
  intro l
  induction l with
  | nil => intro s; simp
  | cons k l ih =>
    intro s
    rw [List.foldl_cons, segmentStep_eq]
    obtain ⟨h1, h2, h3⟩ := ih { s with
        destination := segmentPoint s d steps k
        delta := machineTransform cfg s (segmentPoint s d steps k)
        planner := s.planner ++ [requestAt cfg s (segmentPoint s d steps k)] }
    refine ⟨?_, ?_, ?_⟩
    · rw [h1]
      simp only [requestAt_frame]
      simp [segmentPoint]
    · rw [h2]
    · rw [h3]
      cases l with
      | nil => simp
      | cons a as =>
        rw [List.getLast?_cons_cons]
        have hl : ((a :: as).getLast?).isSome = true := by simp [List.getLast?_isSome]
        obtain ⟨m, hm⟩ := Option.isSome_iff_exists.mp hl
        rw [hm]
        rfl


/-- `steps = max(1, ...)` is at least 1. -/
theorem one_le_segmentSteps (cfg : Config) (s : Machine) (mm : ℚ) :
    1 ≤ segmentSteps cfg s mm := by
  unfold segmentSteps
  exact le_max_left _ _

/-- The last point of the line is its end point. -/
theorem linePoint_end (p q : Pos) (n : ℚ) (hn : n ≠ 0) : linePoint p q n n = q := by
  unfold linePoint
  rw [div_self hn]
  simp

/-- A move shorter than 0.000001 only clamps the destination. -/
theorem prepare_move_negligible (cfg : Config) (s : Machine)
    (htop : cfg.topology ≠ Topology.cartesian)
    (hlen : cartesian_mm cfg (moveDifference cfg s) < 1 / 1000000) :
    prepare_move cfg s = clamp_to_software_endstops cfg s := by
  unfold prepare_move
  dsimp only
  rw [if_neg htop]
  have hlen3 : cartesian_mm cfg
      ⟨(clamp_to_software_endstops cfg s).destination.x -
          (clamp_to_software_endstops cfg s).current_position.x,
       (clamp_to_software_endstops cfg s).destination.y -
          (clamp_to_software_endstops cfg s).current_position.y,
       (clamp_to_software_endstops cfg s).destination.z -
          (clamp_to_software_endstops cfg s).current_position.z,
       (clamp_to_software_endstops cfg s).destination.e -
          (clamp_to_software_endstops cfg s).current_position.e⟩ < 1 / 1000000 := hlen
  rw [if_pos hlen3]

/-- A longer move on `DELTA` / `SCARA` runs the segment loop and then sets
`current_position = destination`. -/
theorem prepare_move_segmented (cfg : Config) (s : Machine)
    (htop : cfg.topology ≠ Topology.cartesian)
    (hlen : ¬ cartesian_mm cfg (moveDifference cfg s) < 1 / 1000000) :
    prepare_move cfg s =
      { (List.range' 1 (segmentSteps cfg (clamp_to_software_endstops cfg s)
          (cartesian_mm cfg (moveDifference cfg s))).toNat).foldl
        (segmentStep cfg (moveDifference cfg s)
          (segmentSteps cfg (clamp_to_software_endstops cfg s)
            (cartesian_mm cfg (moveDifference cfg s))))
        (clamp_to_software_endstops cfg s) with
        current_position := ((List.range' 1 (segmentSteps cfg (clamp_to_software_endstops cfg s)
          (cartesian_mm cfg (moveDifference cfg s))).toNat).foldl
        (segmentStep cfg (moveDifference cfg s)
          (segmentSteps cfg (clamp_to_software_endstops cfg s)
            (cartesian_mm cfg (moveDifference cfg s))))
        (clamp_to_software_endstops cfg s)).destination } := by
  unfold prepare_move
  dsimp only
  rw [if_neg htop]
  have hlen3 : ¬ cartesian_mm cfg
      ⟨(clamp_to_software_endstops cfg s).destination.x -
          (clamp_to_software_endstops cfg s).current_position.x,
       (clamp_to_software_endstops cfg s).destination.y -
          (clamp_to_software_endstops cfg s).current_position.y,
       (clamp_to_software_endstops cfg s).destination.z -
          (clamp_to_software_endstops cfg s).current_position.z,
       (clamp_to_software_endstops cfg s).destination.e -
          (clamp_to_software_endstops cfg s).current_position.e⟩ < 1 / 1000000 := hlen
  rw [if_neg hlen3]
  rfl

/-- The last pass number of `1..n`. -/
theorem getLast_passes (n : Nat) (hn : 1 ≤ n) :
    (List.range' 1 n).getLast? = some n := by
  obtain ⟨m, rfl⟩ : ∃ m, n = m + 1 := ⟨n - 1, by omega⟩
  rw [List.range'_1_concat]
  simp [Nat.add_comm]

/-- The requests of a segmented move, and the position after it. -/
theorem prepare_move_requests (cfg : Config) (s : Machine) (N : Int)
    (htop : cfg.topology ≠ Topology.cartesian)
    (hlen : ¬ cartesian_mm cfg (moveDifference cfg s) < 1 / 1000000)
    (hN : N = segmentSteps cfg (clamp_to_software_endstops cfg s)
      (cartesian_mm cfg (moveDifference cfg s))) :
    (prepare_move cfg s).planner = s.planner ++ (List.range' 1 N.toNat).map (fun (k : Nat) =>
        requestAt cfg s (linePoint s.current_position
          (clamp_to_software_endstops cfg s).destination (k : ℚ) (N : ℚ))) ∧
      (prepare_move cfg s).current_position = (clamp_to_software_endstops cfg s).destination := by
  have h1 : 1 ≤ N := hN ▸ one_le_segmentSteps cfg _ _
  have hnat : 1 ≤ N.toNat := by omega
  have hcast : ((N.toNat : Nat) : ℚ) = (N : ℚ) := by
    have : ((N.toNat : Int) : ℚ) = (N : ℚ) := by rw [Int.toNat_of_nonneg (by omega)]
    exact_mod_cast this
  have hN0 : (N : ℚ) ≠ 0 := by
    have : (1 : ℚ) ≤ (N : ℚ) := by exact_mod_cast h1
    linarith
  rw [prepare_move_segmented cfg s htop hlen, ← hN]
  obtain ⟨e1, -, e3⟩ := segmentLoop_eq cfg (moveDifference cfg s) N (List.range' 1 N.toNat)
    (clamp_to_software_endstops cfg s)
  refine ⟨?_, ?_⟩
  · show (List.foldl (segmentStep cfg (moveDifference cfg s) N)
      (clamp_to_software_endstops cfg s) (List.range' 1 N.toNat)).planner = _
    rw [e1]
    rfl
  · show (List.foldl (segmentStep cfg (moveDifference cfg s) N)
      (clamp_to_software_endstops cfg s) (List.range' 1 N.toNat)).destination = _
    rw [e3, getLast_passes _ hnat]
    show linePoint s.current_position (clamp_to_software_endstops cfg s).destination
      (N.toNat : ℚ) (N : ℚ) = _
    rw [hcast, linePoint_end _ _ _ hN0]

/-- C11: on a delta machine, a move of non-negligible length that `prepare_move`
splits into `N` segments from `p = current_position` to the clamped destination
`q` submits, for `k = 1..N` in this order, the request whose coordinates are
`calculate_delta` followed by `adjust_delta` of `p + (q - p) * k / N` and whose
E is interpolated the same way; the `N`-th request is the one for `q`, and
afterwards `current_position = q`. -/
theorem C11_segments_follow_the_line (cfg : Config) (s : Machine) (N : Int)
    (htop : cfg.topology = Topology.delta)
    (hlen : ¬ cartesian_mm cfg (moveDifference cfg s) < 1 / 1000000)
    (hN : N = segmentSteps cfg (clamp_to_software_endstops cfg s)
      (cartesian_mm cfg (moveDifference cfg s))) :
    (prepare_move cfg s).planner = s.planner ++ (List.range' 1 N.toNat).map (fun (k : Nat) =>
        requestAt cfg s (linePoint s.current_position
          (clamp_to_software_endstops cfg s).destination (k : ℚ) (N : ℚ))) ∧
      (∀ P : Pos, requestAt cfg s P =
        ⟨(adjust_delta cfg (calculate_delta_delta cfg s P) P).delta.x,
         (adjust_delta cfg (calculate_delta_delta cfg s P) P).delta.y,
         (adjust_delta cfg (calculate_delta_delta cfg s P) P).delta.z,
         P.e, s.feedrate * (s.feedmultiply : ℚ) / 60 / 100,
         s.active_extruder, s.active_driver⟩) ∧
      (prepare_move cfg s).planner.getLast? =
        some (requestAt cfg s (clamp_to_software_endstops cfg s).destination) ∧
      (prepare_move cfg s).current_position = (clamp_to_software_endstops cfg s).destination := by
  have htop2 : cfg.topology ≠ Topology.cartesian := by rw [htop]; decide
  have hsc : ¬ cfg.topology = Topology.scara := by rw [htop]; decide
  have h1 : 1 ≤ N := hN ▸ one_le_segmentSteps cfg _ _
  have hnat : 1 ≤ N.toNat := by omega
  have hcast : ((N.toNat : Nat) : ℚ) = (N : ℚ) := by
    have : ((N.toNat : Int) : ℚ) = (N : ℚ) := by rw [Int.toNat_of_nonneg (by omega)]
    exact_mod_cast this
  have hN0 : (N : ℚ) ≠ 0 := by
    have : (1 : ℚ) ≤ (N : ℚ) := by exact_mod_cast h1
    linarith
  obtain ⟨e1, e2⟩ := prepare_move_requests cfg s N htop2 hlen hN
  refine ⟨e1, ?_, ?_, e2⟩
  · intro P
    unfold requestAt machineTransform
    rw [if_neg hsc]
  · rw [e1, List.getLast?_append, List.getLast?_map, getLast_passes _ hnat]
    show some (requestAt cfg s (linePoint s.current_position
      (clamp_to_software_endstops cfg s).destination (N.toNat : ℚ) (N : ℚ))) = _
    rw [hcast, linePoint_end _ _ _ hN0]

/-- C11 at the 1 mm extruder-only move on the example delta machine: 7 segments,
the last one at the target. -/
theorem C11_segments_follow_the_line_witness :
    (prepare_move cfgDelta extrudeOnly).planner = extrudeOnly.planner ++
        (List.range' 1 (7 : Int).toNat).map (fun (k : Nat) =>
          requestAt cfgDelta extrudeOnly (linePoint extrudeOnly.current_position
            (clamp_to_software_endstops cfgDelta extrudeOnly).destination (k : ℚ)
              ((7 : Int) : ℚ))) ∧
      (∀ P : Pos, requestAt cfgDelta extrudeOnly P =
        ⟨(adjust_delta cfgDelta (calculate_delta_delta cfgDelta extrudeOnly P) P).delta.x,
         (adjust_delta cfgDelta (calculate_delta_delta cfgDelta extrudeOnly P) P).delta.y,
         (adjust_delta cfgDelta (calculate_delta_delta cfgDelta extrudeOnly P) P).delta.z,
         P.e, extrudeOnly.feedrate * (extrudeOnly.feedmultiply : ℚ) / 60 / 100,
         extrudeOnly.active_extruder, extrudeOnly.active_driver⟩) ∧
      (prepare_move cfgDelta extrudeOnly).planner.getLast? =
        some (requestAt cfgDelta extrudeOnly
          (clamp_to_software_endstops cfgDelta extrudeOnly).destination) ∧
      (prepare_move cfgDelta extrudeOnly).current_position =
        (clamp_to_software_endstops cfgDelta extrudeOnly).destination :=
  C11_segments_follow_the_line cfgDelta extrudeOnly 7 (by decide) (by decide!) (by decide!)

/-- The move length of `prepare_move` is negligible exactly when the XYZ distance
and `|E|` both are. -/
theorem cartesian_mm_negligible_iff (cfg : Config) (d : Pos) :
    cartesian_mm cfg d < 1 / 1000000 ↔
      (cfg.sqrt (sq d.x + sq d.y + sq d.z) < 1 / 1000000 ∧ |d.e| < 1 / 1000000) := by
  unfold cartesian_mm
  dsimp only
  by_cases h : cfg.sqrt (sq d.x + sq d.y + sq d.z) < 1 / 1000000
  · rw [if_pos h]
    exact ⟨fun he => ⟨h, he⟩, fun he => he.2⟩
  · rw [if_neg h]
    exact ⟨fun he => absurd he h, fun he => absurd he.1 h⟩

/-- C12: on the delta and SCARA topologies `prepare_move` submits no request
exactly when the XYZ distance and `|delta E|` between `current_position` and the
clamped destination are both below 0.000001; in every other case it submits at
least one request. -/
theorem C12_no_request_iff_negligible (cfg : Config) (s : Machine)
    (htop : cfg.topology = Topology.delta ∨ cfg.topology = Topology.scara) :
    ((prepare_move cfg s).planner.length = s.planner.length ↔
        (cfg.sqrt (sq (moveDifference cfg s).x + sq (moveDifference cfg s).y +
            sq (moveDifference cfg s).z) < 1 / 1000000 ∧
          |(moveDifference cfg s).e| < 1 / 1000000)) ∧
      ((cfg.sqrt (sq (moveDifference cfg s).x + sq (moveDifference cfg s).y +
            sq (moveDifference cfg s).z) < 1 / 1000000 ∧
          |(moveDifference cfg s).e| < 1 / 1000000) ∨
        s.planner.length + 1 ≤ (prepare_move cfg s).planner.length) := by
  have htop2 : cfg.topology ≠ Topology.cartesian := by
    rcases htop with h | h <;> rw [h] <;> decide
  rw [← cartesian_mm_negligible_iff]
  by_cases hlen : cartesian_mm cfg (moveDifference cfg s) < 1 / 1000000
  · have e : (prepare_move cfg s).planner = s.planner := by
      rw [prepare_move_negligible cfg s htop2 hlen]
      rfl
    rw [e]
    exact ⟨⟨fun _ => hlen, fun _ => rfl⟩, Or.inl hlen⟩
  · obtain ⟨e1, -⟩ := prepare_move_requests cfg s _ htop2 hlen rfl
    have h1 := one_le_segmentSteps cfg (clamp_to_software_endstops cfg s)
      (cartesian_mm cfg (moveDifference cfg s))
    have hnat : 1 ≤ (segmentSteps cfg (clamp_to_software_endstops cfg s)
      (cartesian_mm cfg (moveDifference cfg s))).toNat := by omega
    rw [e1, List.length_append, List.length_map, List.length_range']
    refine ⟨⟨fun h => ?_, fun h => absurd h hlen⟩, Or.inr ?_⟩
    · omega
    · omega

/-- C12 on the example delta machine at rest with destination = position: no
request is submitted. -/
theorem C12_no_request_iff_negligible_witness :
    ((prepare_move cfgDelta init).planner.length = init.planner.length ↔
        (cfgDelta.sqrt (sq (moveDifference cfgDelta init).x + sq (moveDifference cfgDelta init).y +
            sq (moveDifference cfgDelta init).z) < 1 / 1000000 ∧
          |(moveDifference cfgDelta init).e| < 1 / 1000000)) ∧
      ((cfgDelta.sqrt (sq (moveDifference cfgDelta init).x +
            sq (moveDifference cfgDelta init).y +
            sq (moveDifference cfgDelta init).z) < 1 / 1000000 ∧
          |(moveDifference cfgDelta init).e| < 1 / 1000000) ∨
        init.planner.length + 1 ≤ (prepare_move cfgDelta init).planner.length) :=
  C12_no_request_iff_negligible cfgDelta init (Or.inl (by decide))

/-- The grid coordinate of `adjust_delta` lies in the cell range: its floor is
between -3 and 2. -/
theorem grid_floor_bounds (q : ℚ) :
    -3 ≤ ⌊max (-2999 / 1000 : ℚ) (min (2999 / 1000) q)⌋ ∧
      ⌊max (-2999 / 1000 : ℚ) (min (2999 / 1000) q)⌋ ≤ 2 := by
  constructor
  · apply Int.le_floor.mpr
    have : (-2999 / 1000 : ℚ) ≤ max (-2999 / 1000 : ℚ) (min (2999 / 1000) q) := le_max_left _ _
    push_cast
    linarith
  · have h : max (-2999 / 1000 : ℚ) (min (2999 / 1000) q) < ((3 : Int) : ℚ) := by
      have : max (-2999 / 1000 : ℚ) (min (2999 / 1000) q) ≤ 2999 / 1000 :=
        max_le (by norm_num) (min_le_left _ _)
      push_cast
      linarith
    have := Int.floor_lt.mpr h
    omega

/-- C17: when every entry of the 7 x 7 `bed_level` grid is 0, `adjust_delta`
leaves `delta[X]`, `delta[Y]` and `delta[Z]` unchanged, for every Cartesian
position. -/
theorem C17_null_grid_changes_nothing (cfg : Config) (s : Machine) (cartesian : Pos)
    (hnull : ∀ i j : Int, 0 ≤ i → i ≤ 6 → 0 ≤ j → j ≤ 6 → s.bed_level i j = 0) :
    (adjust_delta cfg s cartesian).delta = s.delta := by
  obtain ⟨hx1, hx2⟩ := grid_floor_bounds (cartesian.x / cfg.AUTOLEVEL_GRID)
  obtain ⟨hy1, hy2⟩ := grid_floor_bounds (cartesian.y / cfg.AUTOLEVEL_GRID)
  unfold adjust_delta
  dsimp only
  rw [hnull _ _ (by omega) (by omega) (by omega) (by omega),
    hnull _ _ (by omega) (by omega) (by omega) (by omega),
    hnull _ _ (by omega) (by omega) (by omega) (by omega),
    hnull _ _ (by omega) (by omega) (by omega) (by omega)]
  simp

/-- C17 on the example machine (all-zero grid) at the position (500, -7, 3),
which lies outside the grid. -/
theorem C17_null_grid_changes_nothing_witness :
    (adjust_delta cfgDelta init ⟨500, -7, 3, 0⟩).delta = init.delta :=
  C17_null_grid_changes_nothing cfgDelta init ⟨500, -7, 3, 0⟩ (fun _ _ _ _ _ _ => rfl)

/-- C18, counterexample: with `AUTOLEVEL_GRID = 20` and the tilted grid
`bed_level[a][b] = a / 10 + b`, the offset applied at the boundary node (3, 0),
position (60, 0), is 3.5999 and not the stored `bed_level[6][3] = 3.6`; at the
boundary node (-3, 0), position (-60, 0), it is 3.0001 and not the stored
`bed_level[0][3] = 3`. -/
theorem C18_counterexample_boundary_node_is_clamped :
    cfg0.AUTOLEVEL_GRID = 20 ∧ tiltedBed.bed_level (3 + 3) (0 + 3) = 36 / 10 ∧
      (adjust_delta cfg0 tiltedBed ⟨3 * 20, 0 * 20, 0, 0⟩).delta =
        ⟨tiltedBed.delta.x + 35999 / 10000, tiltedBed.delta.y + 35999 / 10000,
         tiltedBed.delta.z + 35999 / 10000⟩ ∧
      tiltedBed.bed_level (-3 + 3) (0 + 3) = 3 ∧
      (adjust_delta cfg0 tiltedBed ⟨-3 * 20, 0 * 20, 0, 0⟩).delta =
        ⟨tiltedBed.delta.x + 30001 / 10000, tiltedBed.delta.y + 30001 / 10000,
         tiltedBed.delta.z + 30001 / 10000⟩ := by
  refine ⟨?_, ?_, ?_, ?_, ?_⟩ <;> decide!

/-- The grid coordinate of an interior node is the node number. -/
theorem grid_at_node (g : ℚ) (i : Int) (hg : g ≠ 0) (h1 : -2 ≤ i) (h2 : i ≤ 2) :
    max (-2999 / 1000 : ℚ) (min (2999 / 1000) ((i : ℚ) * g / g)) = (i : ℚ) := by
  rw [mul_div_assoc, div_self hg, mul_one]
  have a : ((-2 : Int) : ℚ) ≤ (i : ℚ) := by exact_mod_cast h1
  have b : (i : ℚ) ≤ ((2 : Int) : ℚ) := by exact_mod_cast h2
  push_cast at a b
  rw [min_eq_right (by linarith), max_eq_right (by linarith)]

/-- C18, amended: at every interior grid node `(i, j)` with `-2 <= i, j <= 2`
(and `AUTOLEVEL_GRID` non-zero), for every `bed_level` grid, the offset that
`adjust_delta` applies at the position `(i * AUTOLEVEL_GRID, j *
AUTOLEVEL_GRID)` equals the stored height `bed_level[i+3][j+3]`. -/
theorem C18_exact_at_interior_nodes (cfg : Config) (s : Machine) (cartesian : Pos)
    (i j : Int) (hg : cfg.AUTOLEVEL_GRID ≠ 0)
    (hi : -2 ≤ i ∧ i ≤ 2) (hj : -2 ≤ j ∧ j ≤ 2)
    (hx : cartesian.x = (i : ℚ) * cfg.AUTOLEVEL_GRID)
    (hy : cartesian.y = (j : ℚ) * cfg.AUTOLEVEL_GRID) :
    (adjust_delta cfg s cartesian).delta =
      ⟨s.delta.x + s.bed_level (i + 3) (j + 3), s.delta.y + s.bed_level (i + 3) (j + 3),
       s.delta.z + s.bed_level (i + 3) (j + 3)⟩ := by
  unfold adjust_delta
  dsimp only
  rw [hx, hy, grid_at_node _ i hg hi.1 hi.2, grid_at_node _ j hg hj.1 hj.2]
  simp

/-- C18, amended, at the interior node (2, -1) of the tilted grid: the offset
at (40, -20) is `bed_level[5][2]`. -/
theorem C18_exact_at_interior_nodes_witness :
    (adjust_delta cfg0 tiltedBed ⟨40, -20, 0, 0⟩).delta =
      ⟨tiltedBed.delta.x + tiltedBed.bed_level (2 + 3) (-1 + 3),
       tiltedBed.delta.y + tiltedBed.bed_level (2 + 3) (-1 + 3),
       tiltedBed.delta.z + tiltedBed.bed_level (2 + 3) (-1 + 3)⟩ :=
  C18_exact_at_interior_nodes cfg0 tiltedBed ⟨40, -20, 0, 0⟩ 2 (-1) (by decide!) (by decide)
    (by decide) (by decide!) (by decide!)

/-- The `SCARA` `calculate_delta` on the machine state is
`scara_calculate_delta` at the geometry and `libm` of the build. -/
theorem calculate_delta_scara_eq (cfg : Config) (s : Machine) (cartesian : Pos)
    (sin cos : ℚ → ℚ) :
    (calculate_delta_scara cfg s cartesian).delta =
      ⟨(scara_calculate_delta (libmOf cfg sin cos) (scaraOf cfg s)
          cartesian.x cartesian.y cartesian.z).1,
       (scara_calculate_delta (libmOf cfg sin cos) (scaraOf cfg s)
          cartesian.x cartesian.y cartesian.z).2.1,
       (scara_calculate_delta (libmOf cfg sin cos) (scaraOf cfg s)
          cartesian.x cartesian.y cartesian.z).2.2⟩ := by
  unfold calculate_delta_scara scara_calculate_delta SCARA_C2 SCARA_pos scaraOf libmOf
  by_cases h : cfg.Linkage_1 = cfg.Linkage_2
  · simp only [h, if_true]
    rfl
  · simp only [h, if_false]
    rfl

/-- With equal links (`L1_2` being the square of the link length) `SCARA_C2` is
the law of cosines. -/
theorem SCARA_C2_equal_links {K : Type} [Field K] [DecidableEq K] (g : Scara K) (x y : K)
    (heq : g.Linkage_1 = g.Linkage_2) (h0 : g.Linkage_1 ≠ 0)
    (h1 : g.L1_2 = g.Linkage_1 * g.Linkage_1) (h2 : g.L2_2 = g.Linkage_2 * g.Linkage_2)
    [NeZero (2 : K)] :
    SCARA_C2 g x y =
      ((SCARA_pos g x y).1 * (SCARA_pos g x y).1 + (SCARA_pos g x y).2 * (SCARA_pos g x y).2 -
        g.L1_2 - g.L2_2) / (2 * g.Linkage_1 * g.Linkage_2) := by
  unfold SCARA_C2
  rw [if_pos heq, h2, h1, ← heq]
  have h2' : (2 : K) ≠ 0 := NeZero.ne 2
  field_simp
  ring

/-- C14: on a build with `Linkage_1 = 150` and `Linkage_2 = 100` (`L1_2 = 150^2`,
`L2_2 = 100^2`, arm origin (0, 0), `axis_scaling` 1), for the target (200, 0)
`calculate_delta` computes `SCARA_C2 = 7500 / 45000 = 1/6`, while the law of
cosines gives `7500 / (2 * 150 * 100) = 1/4`. -/
theorem C14_elbow_cosine_divides_by_45000 :
    cfgScaraUnequal.L1_2 = sq cfgScaraUnequal.Linkage_1 ∧
      cfgScaraUnequal.L2_2 = sq cfgScaraUnequal.Linkage_2 ∧
      SCARA_pos (scaraOf cfgScaraUnequal init) 200 0 = (200, 0) ∧
      SCARA_C2 (scaraOf cfgScaraUnequal init) 200 0 = 1 / 6 ∧
      (sq 200 + sq 0 - sq cfgScaraUnequal.Linkage_1 - sq cfgScaraUnequal.Linkage_2) /
        (2 * cfgScaraUnequal.Linkage_1 * cfgScaraUnequal.Linkage_2) = 1 / 4 := by
  refine ⟨?_, ?_, ?_, ?_, ?_⟩ <;> decide!

/-- C15, counterexample: on the example SCARA build (links 150 and 150, arm
origin (100, -56)) the target (500, -56) lies at distance 400 > 300 from the arm
origin, `SCARA_C2 = 23/9` and `1 - SCARA_C2^2 < 0`; `calculate_delta` returns
joint angles for it, and they differ with the answer of `sqrt` for the negative
argument (-1 or -2), so the square root of the negative quantity is taken and
used. -/
theorem C15_counterexample_unreachable_target_gets_angles :
    sq (150 + 150) < sq (SCARA_pos (scaraOf (cfgScaraMark (-1)) init) 500 (-56)).1 +
        sq (SCARA_pos (scaraOf (cfgScaraMark (-1)) init) 500 (-56)).2 ∧
      SCARA_C2 (scaraOf (cfgScaraMark (-1)) init) 500 (-56) = 23 / 9 ∧
      1 - sq (SCARA_C2 (scaraOf (cfgScaraMark (-1)) init) 500 (-56)) < 0 ∧
      (calculate_delta_scara (cfgScaraMark (-1)) init ⟨500, -56, 0, 0⟩).delta =
        ⟨16235, 240469 / 15, 0⟩ ∧
      (calculate_delta_scara (cfgScaraMark (-2)) init ⟨500, -56, 0, 0⟩).delta =
        ⟨24830, 737069 / 30, 0⟩ := by
  refine ⟨?_, ?_, ?_, ?_, ?_⟩ <;> decide!

/-- C15, amended: `calculate_delta` makes no reachability check. For every
target, also one with `|SCARA_C2| > 1`, it stores in `delta` the joint angles
computed from `SCARA_S2 = sqrt(1 - SCARA_C2^2)`: `theta = -(atan2(pos_x, pos_y)
- atan2(K1, K2))` with `K1 = Linkage_1 + Linkage_2 * SCARA_C2`,
`K2 = Linkage_2 * SCARA_S2`, and `psi = atan2(SCARA_S2, SCARA_C2)`; the rest of
the state is unchanged. -/
theorem C15_inverse_kinematics_has_no_check (cfg : Config) (s : Machine) (cartesian : Pos) :
    calculate_delta_scara cfg s cartesian =
      { s with delta :=
        ⟨(cfg.atan2 (SCARA_pos (scaraOf cfg s) cartesian.x cartesian.y).1
              (SCARA_pos (scaraOf cfg s) cartesian.x cartesian.y).2 -
            cfg.atan2
              (cfg.Linkage_1 + cfg.Linkage_2 * SCARA_C2 (scaraOf cfg s) cartesian.x cartesian.y)
              (cfg.Linkage_2 *
                cfg.sqrt (1 - sq (SCARA_C2 (scaraOf cfg s) cartesian.x cartesian.y)))) * -1 *
            cfg.SCARA_RAD2DEG,
         ((cfg.atan2 (SCARA_pos (scaraOf cfg s) cartesian.x cartesian.y).1
              (SCARA_pos (scaraOf cfg s) cartesian.x cartesian.y).2 -
            cfg.atan2
              (cfg.Linkage_1 + cfg.Linkage_2 * SCARA_C2 (scaraOf cfg s) cartesian.x cartesian.y)
              (cfg.Linkage_2 *
                cfg.sqrt (1 - sq (SCARA_C2 (scaraOf cfg s) cartesian.x cartesian.y)))) * -1 +
            cfg.atan2 (cfg.sqrt (1 - sq (SCARA_C2 (scaraOf cfg s) cartesian.x cartesian.y)))
              (SCARA_C2 (scaraOf cfg s) cartesian.x cartesian.y)) * cfg.SCARA_RAD2DEG,
         cartesian.z⟩ } := by
  unfold calculate_delta_scara SCARA_C2 SCARA_pos scaraOf
  by_cases h : cfg.Linkage_1 = cfg.Linkage_2
  · simp only [h, if_true]
    rfl
  · simp only [h, if_false]
    rfl

/-- The squared distance from the arm origin of the point that two links at the
angles `a` and `b` reach. -/
theorem two_link_norm (l1 l2 a b : ℝ) :
    (Real.cos a * l1 + Real.cos b * l2) * (Real.cos a * l1 + Real.cos b * l2) +
      (Real.sin a * l1 + Real.sin b * l2) * (Real.sin a * l1 + Real.sin b * l2) =
      l1 * l1 + l2 * l2 + 2 * l1 * l2 * Real.cos (b - a) := by
  rw [Real.cos_sub]
  have ha := Real.sin_sq_add_cos_sq a
  have hb := Real.sin_sq_add_cos_sq b
  nlinarith [ha, hb]

/-- The cosine of `atan2(sqrt(1 - c^2), c)` is `c` when `|c| <= 1`. -/
theorem cos_atan2_sqrt (c : ℝ) (h : c * c ≤ 1) :
    Real.cos (Complex.arg ⟨c, Real.sqrt (1 - c * c)⟩) = c := by
  have hs : Real.sqrt (1 - c * c) * Real.sqrt (1 - c * c) = 1 - c * c :=
    Real.mul_self_sqrt (by linarith)
  have habs : Complex.abs ⟨c, Real.sqrt (1 - c * c)⟩ = 1 := by
    rw [Complex.abs_apply, Complex.normSq_mk, hs]
    simp
  have hne : (⟨c, Real.sqrt (1 - c * c)⟩ : ℂ) ≠ 0 := by
    intro h0
    rw [h0] at habs
    simp at habs
  rw [Complex.cos_arg hne, habs]
  simp

/-- C16: over the reals, with `Linkage_1 = 150`, `Linkage_2 = 100`
(`L1_2 = 150^2`, `L2_2 = 100^2`), arm origin (0, 0), `axis_scaling` 1 and
`SCARA_RAD2DEG = 180 / pi`, the target (200, 0) lies strictly inside the
reachable annulus (50 < 200 < 250), and `calculate_SCARA_forward_Transform` of
the joint angles that `calculate_delta` computes for it is not (200, 0): the
point it gives has squared distance 37500 from the arm origin, not 40000. -/
theorem C16_round_trip_fails_for_unequal_links :
    calculate_SCARA_forward_Transform
        (⟨Real.sqrt, fun y x => Complex.arg ⟨x, y⟩, Real.sin, Real.cos⟩ : Libm ℝ)
        (⟨150, 100, 22500, 10000, 0, 0, 180 / Real.pi, 1, 1⟩ : Scara ℝ)
        (scara_calculate_delta
          (⟨Real.sqrt, fun y x => Complex.arg ⟨x, y⟩, Real.sin, Real.cos⟩ : Libm ℝ)
          (⟨150, 100, 22500, 10000, 0, 0, 180 / Real.pi, 1, 1⟩ : Scara ℝ) 200 0 0).1
        (scara_calculate_delta
          (⟨Real.sqrt, fun y x => Complex.arg ⟨x, y⟩, Real.sin, Real.cos⟩ : Libm ℝ)
          (⟨150, 100, 22500, 10000, 0, 0, 180 / Real.pi, 1, 1⟩ : Scara ℝ) 200 0 0).2.1 ≠
      (200, 0) := by
  have hC2 : SCARA_C2 (⟨150, 100, 22500, 10000, 0, 0, 180 / Real.pi, 1, 1⟩ : Scara ℝ) 200 0 =
      1 / 6 := by
    unfold SCARA_C2 SCARA_pos
    dsimp only
    rw [if_neg (by norm_num)]
    norm_num
  have hR : (180 / Real.pi : ℝ) ≠ 0 := div_ne_zero (by norm_num) Real.pi_ne_zero
  intro h
  unfold calculate_SCARA_forward_Transform scara_calculate_delta at h
  dsimp only at h
  rw [hC2, mul_div_assoc, div_self hR, mul_one, mul_div_assoc, div_self hR, mul_one] at h
  have hx := congrArg Prod.fst h
  have hy := congrArg Prod.snd h
  dsimp only at hx hy
  have hn := two_link_norm 150 100
    ((Complex.arg ⟨(SCARA_pos (⟨150, 100, 22500, 10000, 0, 0, 180 / Real.pi, 1, 1⟩ : Scara ℝ)
        200 0).2, (SCARA_pos (⟨150, 100, 22500, 10000, 0, 0, 180 / Real.pi, 1, 1⟩ : Scara ℝ)
        200 0).1⟩ -
      Complex.arg ⟨100 * Real.sqrt (1 - 1 / 6 * (1 / 6)), 150 + 100 * (1 / 6)⟩) * -1)
    ((Complex.arg ⟨(SCARA_pos (⟨150, 100, 22500, 10000, 0, 0, 180 / Real.pi, 1, 1⟩ : Scara ℝ)
        200 0).2, (SCARA_pos (⟨150, 100, 22500, 10000, 0, 0, 180 / Real.pi, 1, 1⟩ : Scara ℝ)
        200 0).1⟩ -
      Complex.arg ⟨100 * Real.sqrt (1 - 1 / 6 * (1 / 6)), 150 + 100 * (1 / 6)⟩) * -1 +
      Complex.arg ⟨1 / 6, Real.sqrt (1 - 1 / 6 * (1 / 6))⟩)
  rw [add_sub_cancel_left, cos_atan2_sqrt (1 / 6) (by norm_num)] at hn
  rw [add_zero] at hx hy
  rw [hx, hy] at hn
  norm_num at hn

/-- The example square root is exact on the square of a natural number. -/
theorem sqrtQ_natCast_mul_self (a : Nat) : sqrtQ ((a : ℚ) * (a : ℚ)) = (a : ℚ) := by
  have h : ((a : ℚ) * (a : ℚ)) = ((a * a : Nat) : ℚ) := by push_cast; ring
  rw [h]
  unfold sqrtQ
  rw [Rat.num_natCast, Rat.den_natCast, Int.toNat_ofNat, Nat.sqrt_eq]
  simp

/-- C19: for the probe points (15, 200, 19), (15, 20, 0), (170, 20, 0), which
are not collinear and lie in a non-vertical plane, the normalised cross product
is (0, 19/181, -180/181), a normal of the plane; the vector passed to
`create_look_at` is (0, 19/181, 180/181): its z-component is positive, but it
is not orthogonal to `pt1 - pt2` (scalar product 6840/181). -/
theorem C19_normal_is_mirrored_not_negated :
    vector_3_get_normal sqrtQ (vector_3_cross
        (vector_3_get_normal sqrtQ (vector_3_sub tiltedProbes.pt1 tiltedProbes.pt2))
        (vector_3_get_normal sqrtQ (vector_3_sub tiltedProbes.pt3 tiltedProbes.pt2))) =
        ⟨0, 19 / 181, -180 / 181⟩ ∧
      dot ⟨0, 19 / 181, -180 / 181⟩ (vector_3_sub tiltedProbes.pt1 tiltedProbes.pt2) = 0 ∧
      dot ⟨0, 19 / 181, -180 / 181⟩ (vector_3_sub tiltedProbes.pt3 tiltedProbes.pt2) = 0 ∧
      set_bed_level_equation_3pts_planeNormal sqrtQ tiltedProbes = ⟨0, 19 / 181, 180 / 181⟩ ∧
      0 < (set_bed_level_equation_3pts_planeNormal sqrtQ tiltedProbes).z ∧
      dot (set_bed_level_equation_3pts_planeNormal sqrtQ tiltedProbes)
        (vector_3_sub tiltedProbes.pt1 tiltedProbes.pt2) = 6840 / 181 := by
  have s181 : sqrtQ 32761 = 181 := by
    have := sqrtQ_natCast_mul_self 181
    norm_num at this
    exact this
  have s155 : sqrtQ 24025 = 155 := by
    have := sqrtQ_natCast_mul_self 155
    norm_num at this
    exact this
  have s1 : sqrtQ 1 = 1 := by
    have := sqrtQ_natCast_mul_self 1
    norm_num at this
    exact this
  have h21 : vector_3_get_normal sqrtQ (vector_3_sub tiltedProbes.pt1 tiltedProbes.pt2) =
      ⟨0, 180 / 181, 19 / 181⟩ := by
    norm_num [vector_3_get_normal, vector_3_sub, tiltedProbes, s181]
  have h23 : vector_3_get_normal sqrtQ (vector_3_sub tiltedProbes.pt3 tiltedProbes.pt2) =
      ⟨1, 0, 0⟩ := by
    norm_num [vector_3_get_normal, vector_3_sub, tiltedProbes, s155]
  have hn : vector_3_get_normal sqrtQ (vector_3_cross
        (vector_3_get_normal sqrtQ (vector_3_sub tiltedProbes.pt1 tiltedProbes.pt2))
        (vector_3_get_normal sqrtQ (vector_3_sub tiltedProbes.pt3 tiltedProbes.pt2))) =
        ⟨0, 19 / 181, -180 / 181⟩ := by
    rw [h21, h23]
    norm_num [vector_3_get_normal, vector_3_cross, s1]
  have hp : set_bed_level_equation_3pts_planeNormal sqrtQ tiltedProbes =
      ⟨0, 19 / 181, 180 / 181⟩ := by
    unfold set_bed_level_equation_3pts_planeNormal
    dsimp only
    rw [hn]
    norm_num [abs_of_neg]
  refine ⟨hn, by decide!, by decide!, hp, ?_, ?_⟩
  · rw [hp]
    norm_num
  · rw [hp]
    decide!

/-- `probe_bed`'s loop changes only the count of `z_probe` calls. -/
theorem probe_bed_loop_frame : ∀ (fuel : Nat) (s : DeltaCal) (probe_z : ℚ) (probe_count : Int),
    ∃ n, (probe_bed_loop fuel s probe_z probe_count).1 = { s with z_probe_calls := n } := by
  intro fuel
  induction fuel with
  | zero => intro s _ _; exact ⟨s.z_probe_calls, rfl⟩
  | succ k ih =>
    intro s probe_z probe_count
    unfold probe_bed_loop
    dsimp only
    split
    · obtain ⟨n, hn⟩ := ih (z_probe s).1 ((z_probe s).2 + (z_probe s).1.z_probe_offset.z)
        (probe_count + 1)
      exact ⟨n, hn.trans rfl⟩
    · exact ⟨s.z_probe_calls + 1, rfl⟩

/-- `probe_bed` changes only the count of `z_probe` calls and the list of probed
points. -/
theorem probe_bed_frame (s : DeltaCal) (x y : ℚ) :
    ∃ n, (probe_bed s x y).1 =
      { s with z_probe_calls := n, probed := s.probed ++ [(x, y)] } := by
  obtain ⟨n, hn⟩ := probe_bed_loop_frame 21 { s with probed := s.probed ++ [(x, y)] } (-100) 0
  exact ⟨n, hn.trans rfl⟩

/-- A state is in its own frame. -/
theorem probeFrame_refl (s : DeltaCal) : probeFrame s s :=
  ⟨s.z_probe_calls, s.probed, s.bed_level_c, s.bed_level_x, s.bed_level_y, s.bed_level_z,
    s.bed_level_ox, s.bed_level_oy, s.bed_level_oz, rfl⟩

/-- Probing a point and storing the reading in one of the seven variables stays
in the frame. -/
theorem probeFrame_step (s0 s : DeltaCal) (x y : ℚ) (h : probeFrame s0 s) :
    probeFrame s0 (withReading (probe_bed s x y) fun s v => { s with bed_level_c := v }) ∧
    probeFrame s0 (withReading (probe_bed s x y) fun s v => { s with bed_level_x := v }) ∧
    probeFrame s0 (withReading (probe_bed s x y) fun s v => { s with bed_level_y := v }) ∧
    probeFrame s0 (withReading (probe_bed s x y) fun s v => { s with bed_level_z := v }) ∧
    probeFrame s0 (withReading (probe_bed s x y) fun s v => { s with bed_level_ox := v }) ∧
    probeFrame s0 (withReading (probe_bed s x y) fun s v => { s with bed_level_oy := v }) ∧
    probeFrame s0 (withReading (probe_bed s x y) fun s v => { s with bed_level_oz := v }) := by
  obtain ⟨n, l, c, bx, by_, bz, ox, oy, oz, rfl⟩ := h
  obtain ⟨m, hm⟩ := probe_bed_frame
    { s0 with z_probe_calls := n, probed := l, bed_level_c := c, bed_level_x := bx,
              bed_level_y := by_, bed_level_z := bz, bed_level_ox := ox, bed_level_oy := oy,
              bed_level_oz := oz } x y
  unfold withReading
  rw [hm]
  exact ⟨⟨m, _, _, _, _, _, _, _, _, rfl⟩, ⟨m, _, _, _, _, _, _, _, _, rfl⟩,
    ⟨m, _, _, _, _, _, _, _, _, rfl⟩, ⟨m, _, _, _, _, _, _, _, _, rfl⟩,
    ⟨m, _, _, _, _, _, _, _, _, rfl⟩, ⟨m, _, _, _, _, _, _, _, _, rfl⟩,
    ⟨m, _, _, _, _, _, _, _, _, rfl⟩⟩

/-- `bed_probe_all` changes only the seven readings, the count of `z_probe`
calls and the list of probed points. -/
theorem bed_probe_all_frame (s : DeltaCal) : probeFrame s (bed_probe_all s) := by
  unfold bed_probe_all
  exact (probeFrame_step s _ _ _ (probeFrame_step s _ _ _ (probeFrame_step s _ _ _
    (probeFrame_step s _ _ _ (probeFrame_step s _ _ _ (probeFrame_step s _ _ _
    (probeFrame_step s _ _ _ (probeFrame_refl s)).1).2.2.2.1).2.2.2.2.2.1).2.1).2.2.2.2.2.2
    ).2.2.1).2.2.2.2.1

/-- `home_delta_axis` changes only `min_pos` and `max_pos`. -/
theorem home_delta_axis_frame (cfg : DeltaCfg) (s : DeltaCal) :
    home_delta_axis cfg s =
      { s with min_pos := (home_delta_axis cfg s).min_pos,
               max_pos := (home_delta_axis cfg s).max_pos } := by
  unfold home_delta_axis homeaxis axis_is_at_home
  by_cases h0 : cfg.HOMEAXIS_DO 0 = true <;> by_cases h1 : cfg.HOMEAXIS_DO 1 = true <;>
    by_cases h2 : cfg.HOMEAXIS_DO 2 = true <;> simp only [h0, h1, h2, if_true, if_false] <;> rfl

/-- After `home_delta_axis`, `max_pos[Z]` is `base_max_pos[Z] + add_homing[Z]`
when the Z axis has an endstop to home to. -/
theorem home_delta_axis_max_pos_z (cfg : DeltaCfg) (s : DeltaCal) :
    (home_delta_axis cfg s).max_pos.z =
      if cfg.HOMEAXIS_DO 2 then s.base_max_pos.z + s.add_homing.z else s.max_pos.z := by
  unfold home_delta_axis homeaxis axis_is_at_home
  by_cases h0 : cfg.HOMEAXIS_DO 0 = true <;> by_cases h1 : cfg.HOMEAXIS_DO 1 = true <;>
    by_cases h2 : cfg.HOMEAXIS_DO 2 = true <;>
    simp [h0, h1, h2, Vec3.set, Vec3.get]

/-- The highest value found by the endstop check is at least each of the three
tower values. -/
theorem h_endstop_ge (s : DeltaCal) :
    s.bed_level_x + s.endstop_adj 0 ≤ h_endstop s ∧
      s.bed_level_y + s.endstop_adj 1 ≤ h_endstop s ∧
      s.bed_level_z + s.endstop_adj 2 ≤ h_endstop s := by
  unfold h_endstop
  dsimp only
  refine ⟨?_, ?_, ?_⟩ <;> split_ifs <;> linarith

/-- The lowest value found by the endstop check is at most each of the three
tower values. -/
theorem l_endstop_le (s : DeltaCal) :
    l_endstop s ≤ s.bed_level_x + s.endstop_adj 0 ∧
      l_endstop s ≤ s.bed_level_y + s.endstop_adj 1 ∧
      l_endstop s ≤ s.bed_level_z + s.endstop_adj 2 := by
  unfold l_endstop
  dsimp only
  refine ⟨?_, ?_, ?_⟩ <;> split_ifs <;> linarith

/-- On the path without `C` and without an `X`, `Y` pair, an `A` command runs
the auto-calibration block on the state after the first probe pass. -/
theorem gcode_G30_A (cfg : DeltaCfg) (loop : Bool → DeltaCal → Option DeltaCal)
    (cmd : List Nat)
    (s : DeltaCal) (hC : code_seen cmd 67 = false)
    (hXY : ¬ (code_seen cmd 88 = true ∧ code_seen cmd 89 = true))
    (hA : code_seen cmd 65 = true) :
    gcode_G30 cfg loop cmd s = G30_autocalibrate loop cmd (G30_first_pass cfg cmd s) := by
  unfold gcode_G30 G30_first_pass
  dsimp only
  rw [if_neg (by simp [hC]), if_neg hXY, if_pos hA, if_pos hA]

/-- The `max_pos` that homing sets depends on `max_pos`, `base_max_pos` and
`add_homing` only. -/
theorem home_delta_axis_max_pos_congr (cfg : DeltaCfg) (s t : DeltaCal)
    (e1 : t.max_pos = s.max_pos) (e2 : t.base_max_pos = s.base_max_pos)
    (e3 : t.add_homing = s.add_homing) :
    (home_delta_axis cfg t).max_pos = (home_delta_axis cfg s).max_pos := by
  unfold home_delta_axis homeaxis axis_is_at_home
  by_cases h0 : cfg.HOMEAXIS_DO 0 = true <;> by_cases h1 : cfg.HOMEAXIS_DO 1 = true <;>
    by_cases h2 : cfg.HOMEAXIS_DO 2 = true <;>
    simp [h0, h1, h2, e1, e2, e3]

/-- Homing, probing all points and reporting keep the geometry, except that
homing sets `min_pos` and `max_pos`. -/
theorem probe_pass_geometry (cfg : DeltaCfg) (s t : DeltaCal)
    (h1 : t.delta_radius = s.delta_radius) (h2 : t.delta_diagonal_rod = s.delta_diagonal_rod)
    (h3 : t.tower_adj = s.tower_adj) (h4 : t.endstop_adj = s.endstop_adj)
    (h5 : t.max_pos = s.max_pos) (h6 : t.base_max_pos = s.base_max_pos)
    (h7 : t.add_homing = s.add_homing) :
    (calibration_report (bed_probe_all (home_delta_axis cfg t))).delta_radius =
        s.delta_radius ∧
      (calibration_report (bed_probe_all (home_delta_axis cfg t))).delta_diagonal_rod =
        s.delta_diagonal_rod ∧
      (calibration_report (bed_probe_all (home_delta_axis cfg t))).tower_adj = s.tower_adj ∧
      (calibration_report (bed_probe_all (home_delta_axis cfg t))).endstop_adj =
        s.endstop_adj ∧
      (calibration_report (bed_probe_all (home_delta_axis cfg t))).max_pos =
        (home_delta_axis cfg s).max_pos := by
  obtain ⟨n, l, c, x, y, z, ox, oy, oz, hb⟩ := bed_probe_all_frame (home_delta_axis cfg t)
  have hf := home_delta_axis_frame cfg t
  rw [hb]
  refine ⟨?_, ?_, ?_, ?_, ?_⟩
  · exact ((congrArg DeltaCal.delta_radius hf).trans rfl).trans h1
  · exact ((congrArg DeltaCal.delta_diagonal_rod hf).trans rfl).trans h2
  · exact ((congrArg DeltaCal.tower_adj hf).trans rfl).trans h3
  · exact ((congrArg DeltaCal.endstop_adj hf).trans rfl).trans h4
  · exact home_delta_axis_max_pos_congr cfg s t h5 h6 h7

/-- The first probe pass keeps the geometry, except that homing sets `min_pos`
and `max_pos`. -/
theorem G30_first_pass_geometry (cfg : DeltaCfg) (cmd : List Nat) (s : DeltaCal) :
    (G30_first_pass cfg cmd s).delta_radius = s.delta_radius ∧
      (G30_first_pass cfg cmd s).delta_diagonal_rod = s.delta_diagonal_rod ∧
      (G30_first_pass cfg cmd s).tower_adj = s.tower_adj ∧
      (G30_first_pass cfg cmd s).endstop_adj = s.endstop_adj ∧
      (G30_first_pass cfg cmd s).max_pos = (home_delta_axis cfg s).max_pos := by
  unfold G30_first_pass
  dsimp only
  by_cases hF : code_seen cmd 70 = true <;> by_cases hA : code_seen cmd 65 = true <;>
    simp only [hF, hA, if_true, if_false] <;>
    exact probe_pass_geometry cfg s _ rfl rfl rfl rfl rfl rfl rfl

/-- C20, counterexample: on the example delta machine the probe reads 5 at the
X tower and 0 at the Y and Z towers, so the tower values differ by 5 mm and
the command aborts without running the iteration loop; yet after `G30 A`
`max_pos[Z]` is 205 instead of 200 (homing adds `add_homing[Z]`), and after
`G30 A D210` `delta_diagonal_rod` is 210 instead of 200. -/
theorem C20_counterexample_abort_changes_geometry :
    (G30_first_pass deltaCfg0 (bytes "G30 A") calStart).bed_level_x +
        (G30_first_pass deltaCfg0 (bytes "G30 A") calStart).endstop_adj 0 = 5 ∧
      (G30_first_pass deltaCfg0 (bytes "G30 A") calStart).bed_level_y +
        (G30_first_pass deltaCfg0 (bytes "G30 A") calStart).endstop_adj 1 = 0 ∧
      (G30_first_pass deltaCfg0 (bytes "G30 A") calStart).bed_level_z +
        (G30_first_pass deltaCfg0 (bytes "G30 A") calStart).endstop_adj 2 = 0 ∧
      (gcode_G30 deltaCfg0 markLoop (bytes "G30 A") calStart).map (fun r => r.out.getLast?) =
        some (some "Autocalibration aborted") ∧
      (gcode_G30 deltaCfg0 markLoop (bytes "G30 A") calStart).map (fun r => r.delta_radius) =
        some 100 ∧
      calStart.max_pos.z = 200 ∧
      (gcode_G30 deltaCfg0 markLoop (bytes "G30 A") calStart).map (fun r => r.max_pos.z) =
        some 205 ∧
      (gcode_G30 deltaCfg0 markLoop (bytes "G30 A D210") calStart).map
        (fun r => r.out.getLast?) = some (some "Autocalibration aborted") ∧
      (gcode_G30 deltaCfg0 markLoop (bytes "G30 A D210") calStart).map
        (fun r => r.delta_radius) = some 100 ∧
      calStart.delta_diagonal_rod = 200 ∧
      (gcode_G30 deltaCfg0 markLoop (bytes "G30 A D210") calStart).map
        (fun r => r.delta_diagonal_rod) = some 210 := by
  refine ⟨?_, ?_, ?_, ?_, ?_, ?_, ?_, ?_, ?_, ?_, ?_⟩ <;> decide!

/-- C20, amended: in the delta auto-calibration without `D` (a `G30` command
with `A` and without `C`, `D` and an `X`, `Y` pair), whenever the three tower
readings of the first probe pass plus their endstop offsets differ by more
than 3 mm between the highest and the lowest, the run aborts without running
the iteration loop: `delta_radius`, `delta_diagonal_rod`, `tower_adj` and
`endstop_adj` are unchanged, and `max_pos` is the one set by homing, so that
`max_pos[Z]` is `base_max_pos[Z] + add_homing[Z]` when Z homes to an endstop. -/
theorem C20_abort_keeps_geometry (cfg : DeltaCfg)
    (loop : Bool → DeltaCal → Option DeltaCal)
    (cmd : List Nat) (s : DeltaCal) (hC : code_seen cmd 67 = false)
    (hXY : ¬ (code_seen cmd 88 = true ∧ code_seen cmd 89 = true))
    (hA : code_seen cmd 65 = true) (hD : code_seen cmd 68 = false)
    (hspread : 3 <
      max ((G30_first_pass cfg cmd s).bed_level_x + (G30_first_pass cfg cmd s).endstop_adj 0)
        (max ((G30_first_pass cfg cmd s).bed_level_y + (G30_first_pass cfg cmd s).endstop_adj 1)
          ((G30_first_pass cfg cmd s).bed_level_z + (G30_first_pass cfg cmd s).endstop_adj 2)) -
      min ((G30_first_pass cfg cmd s).bed_level_x + (G30_first_pass cfg cmd s).endstop_adj 0)
        (min ((G30_first_pass cfg cmd s).bed_level_y + (G30_first_pass cfg cmd s).endstop_adj 1)
          ((G30_first_pass cfg cmd s).bed_level_z +
            (G30_first_pass cfg cmd s).endstop_adj 2))) :
    ∃ r : DeltaCal, gcode_G30 cfg loop cmd s = some r ∧
      r = { G30_first_pass cfg cmd s with out := (G30_first_pass cfg cmd s).out ++
          ["The position of the endstop switches on this printer are not within limits",
           "Adjust endstop switches so that they are within 3mm Z-height of each other",
           "", "", "", "Autocalibration aborted"] } ∧
      r.delta_radius = s.delta_radius ∧
      r.delta_diagonal_rod = s.delta_diagonal_rod ∧
      r.tower_adj = s.tower_adj ∧
      r.endstop_adj = s.endstop_adj ∧
      r.max_pos = (home_delta_axis cfg s).max_pos ∧
      r.max_pos.z =
        if cfg.HOMEAXIS_DO 2 then s.base_max_pos.z + s.add_homing.z else s.max_pos.z := by
  obtain ⟨g1, g2, g3, g4, g5⟩ := G30_first_pass_geometry cfg cmd s
  obtain ⟨a1, a2, a3⟩ := h_endstop_ge (G30_first_pass cfg cmd s)
  obtain ⟨b1, b2, b3⟩ := l_endstop_le (G30_first_pass cfg cmd s)
  have hmax : max ((G30_first_pass cfg cmd s).bed_level_x +
        (G30_first_pass cfg cmd s).endstop_adj 0)
      (max ((G30_first_pass cfg cmd s).bed_level_y + (G30_first_pass cfg cmd s).endstop_adj 1)
        ((G30_first_pass cfg cmd s).bed_level_z + (G30_first_pass cfg cmd s).endstop_adj 2)) ≤
      h_endstop (G30_first_pass cfg cmd s) := max_le a1 (max_le a2 a3)
  have hmin : l_endstop (G30_first_pass cfg cmd s) ≤
      min ((G30_first_pass cfg cmd s).bed_level_x + (G30_first_pass cfg cmd s).endstop_adj 0)
      (min ((G30_first_pass cfg cmd s).bed_level_y + (G30_first_pass cfg cmd s).endstop_adj 1)
        ((G30_first_pass cfg cmd s).bed_level_z + (G30_first_pass cfg cmd s).endstop_adj 2)) :=
    le_min b1 (le_min b2 b3)
  have habort : h_endstop (G30_first_pass cfg cmd s) - l_endstop (G30_first_pass cfg cmd s) > 3 := by
    linarith
  have e : gcode_G30 cfg loop cmd s =
      some { G30_first_pass cfg cmd s with out := (G30_first_pass cfg cmd s).out ++
        ["The position of the endstop switches on this printer are not within limits",
         "Adjust endstop switches so that they are within 3mm Z-height of each other",
         "", "", "", "Autocalibration aborted"] } := by
    rw [gcode_G30_A cfg loop cmd s hC hXY hA]
    unfold G30_autocalibrate
    dsimp only
    simp only [hD, Bool.false_eq_true, if_false]
    rw [if_pos habort]
  refine ⟨_, e, rfl, g1, g2, g3, g4, g5, ?_⟩
  rw [← home_delta_axis_max_pos_z]
  exact congrArg Vec3.z g5

/-- C20, amended, on the example delta machine with the command `G30 A`. -/
theorem C20_abort_keeps_geometry_witness :
    ∃ r : DeltaCal, gcode_G30 deltaCfg0 markLoop (bytes "G30 A") calStart = some r ∧
      r = { G30_first_pass deltaCfg0 (bytes "G30 A") calStart with
          out := (G30_first_pass deltaCfg0 (bytes "G30 A") calStart).out ++
          ["The position of the endstop switches on this printer are not within limits",
           "Adjust endstop switches so that they are within 3mm Z-height of each other",
           "", "", "", "Autocalibration aborted"] } ∧
      r.delta_radius = calStart.delta_radius ∧
      r.delta_diagonal_rod = calStart.delta_diagonal_rod ∧
      r.tower_adj = calStart.tower_adj ∧
      r.endstop_adj = calStart.endstop_adj ∧
      r.max_pos = (home_delta_axis deltaCfg0 calStart).max_pos ∧
      r.max_pos.z =
        if deltaCfg0.HOMEAXIS_DO 2 then calStart.base_max_pos.z + calStart.add_homing.z
        else calStart.max_pos.z :=
  C20_abort_keeps_geometry deltaCfg0 markLoop (bytes "G30 A") calStart (by decide)
    (by decide) (by decide) (by decide) (by decide!)

/-- The loop of `probe_bed`, entered with `probe_z = prev` and
`probe_count = 21 - fuel`, takes `m` readings, `1 <= m <= fuel`; it returns the
value before the last reading (`prev` when `m = 1`), and it stops either at the
cap or when the last reading equals that value. -/
theorem probe_bed_loop_spec : ∀ (fuel : Nat) (s : DeltaCal) (prev : ℚ) (count : Int),
    1 ≤ fuel → count + (fuel : Int) = 21 →
    ∃ m : Nat, 1 ≤ m ∧ m ≤ fuel ∧
      (probe_bed_loop fuel s prev count).1 = { s with z_probe_calls := s.z_probe_calls + m } ∧
      (probe_bed_loop fuel s prev count).2 = (if m = 1 then prev else probeValue s (m - 2)) ∧
      (m = fuel ∨ probeValue s (m - 1) = (if m = 1 then prev else probeValue s (m - 2))) := by
  intro fuel
  induction fuel with
  | zero => intro s prev count h; omega
  | succ k ih =>
    intro s prev count _ hc
    unfold probe_bed_loop
    dsimp only
    by_cases hgo : (z_probe s).2 + (z_probe s).1.z_probe_offset.z ≠ prev ∧ count + 1 < 21
    · rw [if_pos hgo]
      have hk : 1 ≤ k := by omega
      obtain ⟨m, hm1, hm2, e1, e2, e3⟩ := ih (z_probe s).1
        ((z_probe s).2 + (z_probe s).1.z_probe_offset.z) (count + 1) hk (by push_cast at hc ⊢; omega)
      refine ⟨m + 1, by omega, by omega, ?_, ?_, ?_⟩
      · rw [e1]
        show ({ s with z_probe_calls := s.z_probe_calls + 1 + m } : DeltaCal) = _
        rw [Nat.add_assoc, Nat.add_comm 1 m]
      · rw [e2]
        have hne : ¬ (m + 1 = 1) := by omega
        rw [if_neg hne]
        by_cases hm : m = 1
        · subst hm
          simp [probeValue, z_probe]
        · rw [if_neg hm]
          have : m + 1 - 2 = (m - 2) + 1 := by omega
          rw [this]
          simp [probeValue, z_probe, Nat.add_assoc, Nat.add_comm 1]
      · rcases e3 with e3 | e3
        · left; omega
        · right
          have hne : ¬ (m + 1 = 1) := by omega
          rw [if_neg hne]
          have h1 : probeValue s (m + 1 - 1) = probeValue (z_probe s).1 (m - 1) := by
            have : m + 1 - 1 = (m - 1) + 1 := by omega
            rw [this]
            simp [probeValue, z_probe, Nat.add_assoc, Nat.add_comm 1]
          rw [h1, e3]
          by_cases hm : m = 1
          · subst hm
            simp [probeValue, z_probe]
          · rw [if_neg hm]
            have : m + 1 - 2 = (m - 2) + 1 := by omega
            rw [this]
            simp [probeValue, z_probe, Nat.add_assoc, Nat.add_comm 1]
    · rw [if_neg hgo]
      refine ⟨1, le_refl _, by omega, rfl, by simp, ?_⟩
      by_cases hcap : count + 1 < 21
      · right
        have : ¬ ((z_probe s).2 + (z_probe s).1.z_probe_offset.z ≠ prev) := fun h => hgo ⟨h, hcap⟩
        simpa [probeValue, z_probe] using this
      · left
        push_cast at hc
        omega

/-- C24, counterexample: with a zero probe offset and a probe whose first
reading is -100 and whose later readings are 7, `probe_bed` returns -100 after a
single reading: no two readings agreed (the first two are -100 and 7) and the
cap of 21 readings was not reached. -/
theorem C24_counterexample_first_reading_equals_initial_value :
    (probe_bed sentinelProbe 0 0).1.z_probe_calls = sentinelProbe.z_probe_calls + 1 ∧
      (probe_bed sentinelProbe 0 0).2 = -100 ∧
      probeValue sentinelProbe 0 = -100 ∧ probeValue sentinelProbe 1 = 7 := by
  refine ⟨?_, ?_, ?_, ?_⟩ <;> decide!

/-- C24, amended: for every sequence of values returned by `z_probe`,
`probe_bed` takes `m` readings with `1 <= m <= 21` and returns when the cap of
21 readings is reached, or when the last two readings (each plus
`z_probe_offset[Z]`) are equal, in which case it returns this agreed value, or
when the first reading equals the initial value -100 of `probe_z`, in which
case it returns -100 after one reading. -/
theorem C24_probe_bed_stops_on_agreement_or_cap (s : DeltaCal) (x y : ℚ) :
    ∃ m : Nat, 1 ≤ m ∧ m ≤ 21 ∧
      (probe_bed s x y).1.z_probe_calls = s.z_probe_calls + m ∧
      (m = 21 ∨
        (2 ≤ m ∧ probeValue s (m - 1) = probeValue s (m - 2) ∧
          (probe_bed s x y).2 = probeValue s (m - 1)) ∨
        (m = 1 ∧ probeValue s 0 = -100 ∧ (probe_bed s x y).2 = -100)) := by
  obtain ⟨m, h1, h2, e1, e2, e3⟩ :=
    probe_bed_loop_spec 21 { s with probed := s.probed ++ [(x, y)] } (-100) 0 (by omega) (by omega)
  refine ⟨m, h1, h2, ?_, ?_⟩
  · show (probe_bed_loop 21 { s with probed := s.probed ++ [(x, y)] } (-100) 0).1.z_probe_calls = _
    rw [e1]
  · rcases e3 with e3 | e3
    · exact Or.inl e3
    · right
      by_cases hm : m = 1
      · right
        subst hm
        rw [if_pos rfl] at e2 e3
        exact ⟨rfl, e3, e2⟩
      · left
        rw [if_neg hm] at e2 e3
        refine ⟨by omega, e3, ?_⟩
        show (probe_bed_loop 21 { s with probed := s.probed ++ [(x, y)] } (-100) 0).2 = _
        rw [e2]
        exact e3.symm

/-- `adjust_delta` adds `offset` to the three entries of `delta` and changes
nothing else. -/
theorem adjust_delta_eq (cfg : Config) (s : Machine) (cartesian : Pos) :
    adjust_delta cfg s cartesian =
      { s with delta := ⟨s.delta.x + adjust_delta_offset cfg s cartesian,
                         s.delta.y + adjust_delta_offset cfg s cartesian,
                         s.delta.z + adjust_delta_offset cfg s cartesian⟩ } := rfl

/-- C27: on a delta machine, for every Cartesian position `p` and every
`bed_level` grid (exact arithmetic), `calculate_delta(p)` followed by
`adjust_delta(p)` gives the same state as `calculate_delta(p')`, where `p'` is
`p` with its Z increased by the offset interpolated at `(p.x, p.y)`. -/
theorem C27_grid_offset_raises_the_target (cfg : Config) (s : Machine) (p : Pos) :
    adjust_delta cfg (calculate_delta_delta cfg s p) p =
      calculate_delta_delta cfg s ⟨p.x, p.y, p.z + adjust_delta_offset cfg s p, p.e⟩ := by
  rw [adjust_delta_eq]
  have h : adjust_delta_offset cfg (calculate_delta_delta cfg s p) p =
      adjust_delta_offset cfg s p := rfl
  rw [h]
  unfold calculate_delta_delta
  simp only [add_assoc]

/-- The four entries that `adjust_delta` reads lie in the 7 x 7 array. -/
theorem adjust_delta_indices (cfg : Config) (cartesian : Pos) :
    (0 ≤ floor_x cfg cartesian + 3 ∧ floor_x cfg cartesian + 4 ≤ 6) ∧
      (0 ≤ floor_y cfg cartesian + 3 ∧ floor_y cfg cartesian + 4 ≤ 6) := by
  obtain ⟨hx1, hx2⟩ := grid_floor_bounds (cartesian.x / cfg.AUTOLEVEL_GRID)
  obtain ⟨hy1, hy2⟩ := grid_floor_bounds (cartesian.y / cfg.AUTOLEVEL_GRID)
  unfold floor_x floor_y grid_x grid_y
  refine ⟨⟨?_, ?_⟩, ⟨?_, ?_⟩⟩ <;> omega

/-- C28: for every Cartesian position and every `AUTOLEVEL_GRID`, positive or
not, the four index pairs that `adjust_delta` uses, `(floor_x+3, floor_y+3)`,
`(floor_x+3, floor_y+4)`, `(floor_x+4, floor_y+3)` and `(floor_x+4, floor_y+4)`,
have both components in 0..6; accordingly the result of `adjust_delta` is the
same for two states that differ only in `bed_level` outside the 7 x 7 array. -/
theorem C28_adjust_delta_stays_in_the_grid (cfg : Config) (s : Machine) (cartesian : Pos) :
    (∀ ij ∈ [(floor_x cfg cartesian + 3, floor_y cfg cartesian + 3),
              (floor_x cfg cartesian + 3, floor_y cfg cartesian + 4),
              (floor_x cfg cartesian + 4, floor_y cfg cartesian + 3),
              (floor_x cfg cartesian + 4, floor_y cfg cartesian + 4)],
        (0 ≤ ij.1 ∧ ij.1 ≤ 6) ∧ (0 ≤ ij.2 ∧ ij.2 ≤ 6)) ∧
      (adjust_delta cfg s cartesian).delta =
        ⟨s.delta.x + adjust_delta_offset cfg s cartesian,
         s.delta.y + adjust_delta_offset cfg s cartesian,
         s.delta.z + adjust_delta_offset cfg s cartesian⟩ ∧
      ∀ outside : Int → Int → ℚ,
        adjust_delta cfg { s with bed_level := fun i j =>
            if 0 ≤ i ∧ i ≤ 6 ∧ 0 ≤ j ∧ j ≤ 6 then s.bed_level i j else outside i j } cartesian =
          { adjust_delta cfg s cartesian with bed_level := fun i j =>
            if 0 ≤ i ∧ i ≤ 6 ∧ 0 ≤ j ∧ j ≤ 6 then s.bed_level i j else outside i j } := by
  obtain ⟨⟨x1, x2⟩, ⟨y1, y2⟩⟩ := adjust_delta_indices cfg cartesian
  refine ⟨?_, rfl, ?_⟩
  · intro ij hij
    simp only [List.mem_cons, List.mem_singleton, List.not_mem_nil, or_false] at hij
    rcases hij with h | h | h | h <;> subst h <;> dsimp only <;>
      refine ⟨⟨?_, ?_⟩, ⟨?_, ?_⟩⟩ <;> omega
  · intro outside
    rw [adjust_delta_eq, adjust_delta_eq]
    have h : adjust_delta_offset cfg { s with bed_level := fun i j =>
        if 0 ≤ i ∧ i ≤ 6 ∧ 0 ≤ j ∧ j ≤ 6 then s.bed_level i j else outside i j } cartesian =
        adjust_delta_offset cfg s cartesian := by
      unfold adjust_delta_offset
      dsimp only
      rw [if_pos ⟨by omega, by omega, by omega, by omega⟩,
        if_pos ⟨by omega, by omega, by omega, by omega⟩,
        if_pos ⟨by omega, by omega, by omega, by omega⟩,
        if_pos ⟨by omega, by omega, by omega, by omega⟩]
    rw [h]

/-- `ClearToSend` does not touch the queue. -/
theorem queueOf_ClearToSend (cfg : Config) (s : Machine) :
    queueOf (ClearToSend cfg s) = queueOf s := rfl

/-- `FlushSerialRequestResend` does not touch the queue. -/
theorem queueOf_FlushSerialRequestResend (cfg : Config) (s : Machine) :
    queueOf (FlushSerialRequestResend cfg s) = queueOf s := rfl

/-- `kill` does not touch the queue. -/
theorem queueOf_kill (s : Machine) : queueOf (kill s) = queueOf s := rfl

/-- Reading the feedrate does not touch the queue. -/
theorem queueOf_readFeedrate (cmd : List Nat) (s : Machine) :
    queueOf (readFeedrate cmd s) = queueOf s := by
  unfold readFeedrate
  dsimp only
  split_ifs <;> rfl

/-- `get_coordinates` does not touch the queue. -/
theorem queueOf_get_coordinates (cfg : Config) (s : Machine) :
    queueOf (get_coordinates cfg s) = queueOf s := by
  unfold get_coordinates
  dsimp only
  rw [queueOf_readFeedrate]
  rfl

/-- `get_arc_coordinates` does not touch the queue. -/
theorem queueOf_get_arc_coordinates (cfg : Config) (s : Machine) :
    queueOf (get_arc_coordinates cfg s) = queueOf s := by
  unfold get_arc_coordinates
  dsimp only
  by_cases h : cfg.SF_ARC_FIX = true
  · simp only [h, if_true]
    exact (queueOf_get_coordinates cfg _).trans rfl
  · simp only [h]
    exact (queueOf_get_coordinates cfg _).trans rfl

/-- A pass of the segment loop does not touch the queue. -/
theorem queueOf_segmentStep (cfg : Config) (d : Pos) (steps : Int) (s : Machine) (k : Nat) :
    queueOf (segmentStep cfg d steps s k) = queueOf s := by
  rw [segmentStep_eq]
  rfl

/-- The segment loop does not touch the queue. -/
theorem queueOf_segmentLoop (cfg : Config) (d : Pos) (steps : Int) (l : List Nat) :
    ∀ s : Machine, queueOf (l.foldl (segmentStep cfg d steps) s) = queueOf s := by
  induction l with
  | nil => intro s; rfl
  | cons k l ih => intro s; rw [List.foldl_cons, ih, queueOf_segmentStep]

/-- `clamp_to_software_endstops` does not touch the queue. -/
theorem queueOf_clamp (cfg : Config) (s : Machine) :
    queueOf (clamp_to_software_endstops cfg s) = queueOf s := rfl

/-- `prepare_move` does not touch the queue. -/
theorem queueOf_prepare_move (cfg : Config) (s : Machine) :
    queueOf (prepare_move cfg s) = queueOf s := by
  by_cases htop : cfg.topology = Topology.cartesian
  · unfold prepare_move
    dsimp only
    rw [if_pos htop]
    rfl
  · by_cases hlen : cartesian_mm cfg (moveDifference cfg s) < 1 / 1000000
    · rw [prepare_move_negligible cfg s htop hlen]
      rfl
    · rw [prepare_move_segmented cfg s htop hlen]
      exact (queueOf_segmentLoop cfg _ _ _ _).trans rfl

/-- `prepare_arc_move` does not touch the queue. -/
theorem queueOf_prepare_arc_move (cfg : Config) (b : Bool) (s : Machine) :
    queueOf (prepare_arc_move cfg b s) = queueOf s := rfl

/-- The body of G61 does not touch the queue. -/
theorem queueOf_gcode_G61 (cfg : Config) (s : Machine) :
    queueOf (gcode_G61 cfg s) = queueOf s := by
  unfold gcode_G61
  dsimp only
  rw [queueOf_prepare_move, queueOf_readFeedrate]
  rfl


/-- Doing nothing only adds commands. -/
theorem enqueues_refl (cfg : Config) (s : Machine) : enqueues cfg s s :=
  ⟨rfl, le_refl _, id⟩

/-- Two steps that only add commands compose. -/
theorem enqueues_trans (cfg : Config) {s t u : Machine} (h1 : enqueues cfg s t)
    (h2 : enqueues cfg t u) : enqueues cfg s u :=
  ⟨h2.1.trans h1.1, le_trans h1.2.1 h2.2.1, fun h => h2.2.2 (h1.2.2 h)⟩

/-- A step that leaves the three queue variables alone only adds commands. -/
theorem enqueues_of_same (cfg : Config) {s t : Machine} (h : queueOf t = queueOf s) :
    enqueues cfg s t := by
  have h1 : t.buflen = s.buflen := congrArg Prod.fst h
  have h2 : t.bufindr = s.bufindr := congrArg (fun q => q.2.1) h
  have h3 : t.bufindw = s.bufindw := congrArg (fun q => q.2.2) h
  refine ⟨h2, le_of_eq h1.symm, fun hq => ?_⟩
  unfold queueOk at hq ⊢
  rw [h1, h2, h3]
  exact hq

/-- Storing one command while there is room keeps the queue consistent. -/
theorem enqueues_of_push (cfg : Config) {s t : Machine} (hroom : s.buflen < (cfg.BUFSIZE : Int))
    (h : queueOf t = pushQueue cfg (queueOf s)) : enqueues cfg s t := by
  have h1 : t.buflen = s.buflen + 1 := congrArg Prod.fst h
  have h2 : t.bufindr = s.bufindr := congrArg (fun q => q.2.1) h
  have h3 : t.bufindw = (s.bufindw + 1) % cfg.BUFSIZE := congrArg (fun q => q.2.2) h
  refine ⟨h2, by omega, fun hq => ?_⟩
  obtain ⟨q1, q2, q3, q4, q5⟩ := hq
  have hB : 0 < cfg.BUFSIZE := by omega
  unfold queueOk
  rw [h1, h2, h3]
  refine ⟨by omega, by omega, q3, Nat.mod_lt _ hB, ?_⟩
  rw [Int.natCast_mod, Nat.cast_add, q5, Nat.cast_one, Int.emod_add_emod, add_assoc]

/-- A step that leaves the queue alone or stores one command while there is room only adds
commands. -/
theorem enqueues_of_same_or_push (cfg : Config) {s t : Machine}
    (hroom : s.buflen < (cfg.BUFSIZE : Int))
    (h : queueOf t = queueOf s ∨ queueOf t = pushQueue cfg (queueOf s)) : enqueues cfg s t :=
  h.elim (enqueues_of_same cfg) (enqueues_of_push cfg hroom)

/-- `enquecommand` only adds commands. -/
theorem enquecommand_enqueues (cfg : Config) (cmd : List Nat) (s : Machine) :
    enqueues cfg s (enquecommand cfg cmd s) := by
  unfold enquecommand
  by_cases h : s.buflen < (cfg.BUFSIZE : Int)
  · rw [if_pos h]
    exact enqueues_of_push cfg h rfl
  · rw [if_neg h]
    exact enqueues_refl cfg s

/-- An accepted line leaves the queue alone (`M112`) or stores one command. -/
theorem acceptLine_queue (cfg : Config) (line : List Nat) (s : Machine) :
    queueOf (acceptLine cfg line s).1 = queueOf s ∨
      queueOf (acceptLine cfg line s).1 = pushQueue cfg (queueOf s) := by
  unfold acceptLine kill
  dsimp only
  split
  · exact Or.inl rfl
  · exact Or.inr rfl

/-- A rejected line leaves the queue alone. -/
theorem rejectLine_queue (cfg : Config) (err : Out) (s : Machine) :
    queueOf (rejectLine cfg err s).1 = queueOf s := rfl

/-- The line protocol leaves the queue alone or stores one command. -/
theorem serialLine_queue (cfg : Config) (s : Machine) :
    queueOf (serialLine cfg s).1 = queueOf s ∨
      queueOf (serialLine cfg s).1 = pushQueue cfg (queueOf s) := by
  simp only [serialLine]
  repeat' split
  all_goals first
    | exact Or.inl rfl
    | exact acceptLine_queue cfg _ _

/-- One pass of the serial loop body leaves the queue alone or stores one command. -/
theorem serialChar_queue (cfg : Config) (c : Nat) (s : Machine) :
    queueOf (serialChar cfg c s).1 = queueOf s ∨
      queueOf (serialChar cfg c s).1 = pushQueue cfg (queueOf s) := by
  simp only [serialChar]
  repeat' split
  all_goals first
    | exact Or.inl rfl
    | exact serialLine_queue cfg _

/-- The serial loop, guarded by `buflen < BUFSIZE`, only adds commands. -/
theorem serialLoop_enqueues (cfg : Config) : ∀ (fuel : Nat) (s : Machine),
    enqueues cfg s (serialLoop cfg fuel s).1 := by
  intro fuel
  induction fuel with
  | zero => intro s; exact enqueues_refl cfg s
  | succ k ih =>
    intro s
    unfold serialLoop
    cases hrx : s.rx with
    | nil => exact enqueues_refl cfg s
    | cons c rest =>
      dsimp only
      by_cases hroom : s.buflen < (cfg.BUFSIZE : Int)
      · rw [if_pos hroom]
        have h1 : enqueues cfg s (serialChar cfg c { s with rx := rest }).1 :=
          enqueues_of_same_or_push cfg hroom (serialChar_queue cfg c { s with rx := rest })
        by_cases hr : (serialChar cfg c { s with rx := rest }).2 = true
        · rw [if_pos hr]
          exact h1
        · rw [if_neg hr]
          exact enqueues_trans cfg h1 (ih _)
      · rw [if_neg hroom]
        exact enqueues_refl cfg s

/-- One pass of the SD loop body leaves the queue alone or stores one command. -/
theorem sdChar_queue (cfg : Config) (c : Nat) (s : Machine) :
    queueOf (sdChar cfg c s).1 = queueOf s ∨
      queueOf (sdChar cfg c s).1 = pushQueue cfg (queueOf s) := by
  simp only [sdChar]
  repeat' split
  all_goals first
    | exact Or.inl rfl
    | exact Or.inr rfl

/-- The SD loop, guarded by `buflen < BUFSIZE`, only adds commands. -/
theorem sdLoop_enqueues (cfg : Config) : ∀ (fuel : Nat) (s : Machine),
    enqueues cfg s (sdLoop cfg fuel s) := by
  intro fuel
  induction fuel with
  | zero => intro s; exact enqueues_refl cfg s
  | succ k ih =>
    intro s
    unfold sdLoop
    cases hc : s.card with
    | nil => exact enqueues_refl cfg s
    | cons c rest =>
      dsimp only
      by_cases hroom : s.buflen < (cfg.BUFSIZE : Int) ∧ s.stop_buffering = false
      · rw [if_pos hroom]
        have h1 : enqueues cfg s (sdChar cfg c { s with card := rest }).1 :=
          enqueues_of_same_or_push cfg hroom.1 (sdChar_queue cfg c { s with card := rest })
        by_cases hr : (sdChar cfg c { s with card := rest }).2 = true
        · rw [if_pos hr]
          exact h1
        · rw [if_neg hr]
          exact enqueues_trans cfg h1 (ih _)
      · rw [if_neg hroom]
        exact enqueues_refl cfg s

/-- `get_command` only adds commands. -/
theorem get_command_enqueues (cfg : Config) (s : Machine) :
    enqueues cfg s (get_command cfg s) := by
  have h1 := serialLoop_enqueues cfg s.rx.length s
  unfold get_command
  dsimp only
  split_ifs
  · exact h1
  · exact h1
  · exact h1
  · exact enqueues_trans cfg h1 (enqueues_trans cfg (enqueues_of_same cfg rfl)
      (sdLoop_enqueues cfg _ _))
  · exact enqueues_trans cfg h1 (sdLoop_enqueues cfg _ _)


/-- The G switch only adds commands. -/
theorem dispatchG_enqueues (cfg : Config) (hooks : hooksEnqueueOnly cfg) (code : Int)
    (s : Machine) : enqueues cfg s (dispatchG cfg code s).1 := by
  unfold dispatchG
  by_cases h01 : code = 0 ∨ code = 1
  · rw [if_pos h01]
    by_cases hs : s.Stopped = false
    · rw [if_pos hs]
      dsimp only
      have hc := enqueues_of_same cfg (queueOf_get_coordinates cfg s)
      cases hf : cfg.fwretract (get_coordinates cfg s) with
      | none => exact enqueues_trans cfg hc (enqueues_of_same cfg (queueOf_prepare_move cfg _))
      | some s2 => exact enqueues_trans cfg hc (hooks.2.2.2 _ _ hf)
    · rw [if_neg hs]
      exact enqueues_refl cfg s
  · rw [if_neg h01]
    by_cases h23 : (code = 2 ∨ code = 3) ∧ cfg.topology ≠ Topology.scara
    · rw [if_pos h23]
      by_cases hs : s.Stopped = false
      · rw [if_pos hs]
        exact enqueues_of_same cfg
          ((queueOf_prepare_arc_move cfg _ _).trans (queueOf_get_arc_coordinates cfg s))
      · rw [if_neg hs]
        exact enqueues_refl cfg s
    · rw [if_neg h23]
      split_ifs
      · exact enqueues_of_same cfg rfl
      · exact enqueues_of_same cfg (queueOf_gcode_G61 cfg s)
      · exact enqueues_of_same cfg rfl
      · exact enqueues_of_same cfg rfl
      · exact hooks.1 code s
      · exact enqueues_refl cfg s

/-- The M switch only adds commands. -/
theorem dispatchM_enqueues (cfg : Config) (hooks : hooksEnqueueOnly cfg) (code : Int)
    (s : Machine) : enqueues cfg s (dispatchM cfg code s).1 := by
  unfold dispatchM
  split_ifs
  · exact enqueues_of_same cfg rfl
  · exact enqueues_of_same cfg rfl
  · exact hooks.2.1 code s
  · exact enqueues_refl cfg s

/-- `process_commands` only adds commands. -/
theorem process_commands_enqueues (cfg : Config) (hooks : hooksEnqueueOnly cfg)
    (s : Machine) : enqueues cfg s (process_commands cfg s) := by
  unfold process_commands
  dsimp only
  split_ifs
  · exact dispatchG_enqueues cfg hooks _ s
  · exact enqueues_trans cfg (dispatchG_enqueues cfg hooks _ s) (enqueues_of_same cfg rfl)
  · exact dispatchM_enqueues cfg hooks _ s
  · exact enqueues_trans cfg (dispatchM_enqueues cfg hooks _ s) (enqueues_of_same cfg rfl)
  · exact enqueues_trans cfg (hooks.2.2.1 s) (enqueues_of_same cfg rfl)
  · exact enqueues_of_same cfg rfl


/-- The dequeue of `loop` (`buflen = buflen - 1; bufindr = (bufindr + 1) % BUFSIZE`) on a
non-empty queue keeps it consistent. -/
theorem dequeue_queueOk (cfg : Config) (s : Machine) (h : queueOk cfg s) (hne : s.buflen ≠ 0) :
    queueOk cfg { s with buflen := s.buflen - 1, bufindr := (s.bufindr + 1) % cfg.BUFSIZE } := by
  obtain ⟨q1, q2, q3, q4, q5⟩ := h
  have hB : 0 < cfg.BUFSIZE := by omega
  refine ⟨?_, ?_, Nat.mod_lt _ hB, q4, ?_⟩
  · show 0 ≤ s.buflen - 1
    omega
  · show s.buflen - 1 ≤ (cfg.BUFSIZE : Int)
    omega
  · show (s.bufindw : Int) = ((((s.bufindr + 1) % cfg.BUFSIZE : Nat) : Int) + (s.buflen - 1)) %
      (cfg.BUFSIZE : Int)
    rw [Int.natCast_mod, Int.emod_add_emod, q5]
    congr 1
    push_cast
    ring

/-- A pass of `loop` keeps the queue consistent. -/
theorem loop_queueOk (cfg : Config) (hooks : hooksEnqueueOnly cfg) (env : LoopEnv)
    (henv : envEnqueueOnly cfg env) (s : Machine) (h : queueOk cfg s) :
    queueOk cfg (loop cfg env s) := by
  unfold loop
  dsimp only
  have h1 : enqueues cfg s (if s.buflen < (cfg.BUFSIZE : Int) - 1 then get_command cfg s else s) := by
    split_ifs
    · exact get_command_enqueues cfg s
    · exact enqueues_refl cfg s
  generalize (if s.buflen < (cfg.BUFSIZE : Int) - 1 then get_command cfg s else s) = s1 at h1 ⊢
  have h2 : enqueues cfg s1 (if cfg.SDSUPPORT = true then env.checkautostart s1 else s1) := by
    split_ifs
    · exact henv.1 s1
    · exact enqueues_refl cfg s1
  generalize (if cfg.SDSUPPORT = true then env.checkautostart s1 else s1) = s2 at h2 ⊢
  have hq2 : queueOk cfg s2 := h2.2.2 (h1.2.2 h)
  apply (henv.2 _).2.2
  by_cases hne : s2.buflen ≠ 0
  · rw [if_pos hne]
    have h3 : enqueues cfg s2
        (if cfg.SDSUPPORT = true ∧ env.saving = true then
          if strstr (s2.cmd cfg s2.bufindr) (bytes "M29") = none then
            if env.logging = true then process_commands cfg s2
            else { s2 with out := s2.out ++ [Out.ok] }
          else { s2 with out := s2.out ++ [Out.fileSaved] }
        else process_commands cfg s2) := by
      split_ifs
      · exact process_commands_enqueues cfg hooks s2
      · exact enqueues_of_same cfg rfl
      · exact enqueues_of_same cfg rfl
      · exact process_commands_enqueues cfg hooks s2
    generalize (if cfg.SDSUPPORT = true ∧ env.saving = true then
          if strstr (s2.cmd cfg s2.bufindr) (bytes "M29") = none then
            if env.logging = true then process_commands cfg s2
            else { s2 with out := s2.out ++ [Out.ok] }
          else { s2 with out := s2.out ++ [Out.fileSaved] }
        else process_commands cfg s2) = s3 at h3 ⊢
    have hq3 : queueOk cfg s3 := h3.2.2 hq2
    have hne3 : s3.buflen ≠ 0 := by
      have := h3.2.1
      have := hq2.1
      omega
    exact dequeue_queueOk cfg s3 hq3 hne3
  · rw [if_neg hne]
    exact hq2

/-- Every sequence of events keeps the queue consistent. -/
theorem runQueue_queueOk (cfg : Config) (hooks : hooksEnqueueOnly cfg) :
    ∀ (steps : List QueueStep) (s : Machine),
      (∀ env, QueueStep.loopPass env ∈ steps → envEnqueueOnly cfg env) →
      queueOk cfg s → queueOk cfg (runQueue cfg steps s) := by
  intro steps
  induction steps with
  | nil => intro s _ h; exact h
  | cons st rest ih =>
    intro s henv h
    unfold runQueue
    rw [List.foldl_cons]
    apply ih
    · intro env he
      exact henv env (List.mem_cons_of_mem _ he)
    · cases st with
      | serialInput input => exact h
      | enque cmd => exact (enquecommand_enqueues cfg cmd s).2.2 h
      | getCommand => exact (get_command_enqueues cfg s).2.2 h
      | loopPass env => exact loop_queueOk cfg hooks env (henv env (List.mem_cons_self _ _)) s h

/-- C29: on a build with `BUFSIZE > 0` whose unmodelled handlers only add
commands to the queue, starting from `buflen = bufindr = bufindw = 0`, every
sequence of arriving serial input, `enquecommand` calls, `get_command` calls and
passes of `loop` (with its dequeue) keeps `0 <= buflen <= BUFSIZE`,
`bufindr, bufindw < BUFSIZE` and `bufindw = (bufindr + buflen) mod BUFSIZE`;
and `enquecommand` on a full queue changes nothing. -/
theorem C29_queue_stays_consistent (cfg : Config) (hB : 0 < cfg.BUFSIZE)
    (hooks : hooksEnqueueOnly cfg) (steps : List QueueStep)
    (henv : ∀ env, QueueStep.loopPass env ∈ steps → envEnqueueOnly cfg env)
    (s : Machine) (h0 : s.buflen = 0 ∧ s.bufindr = 0 ∧ s.bufindw = 0) :
    (0 ≤ (runQueue cfg steps s).buflen ∧
      (runQueue cfg steps s).buflen ≤ (cfg.BUFSIZE : Int) ∧
      (runQueue cfg steps s).bufindr < cfg.BUFSIZE ∧
      (runQueue cfg steps s).bufindw < cfg.BUFSIZE ∧
      ((runQueue cfg steps s).bufindw : Int) =
        (((runQueue cfg steps s).bufindr : Int) + (runQueue cfg steps s).buflen) %
          (cfg.BUFSIZE : Int)) ∧
    ∀ (cmd : List Nat) (t : Machine), t.buflen = (cfg.BUFSIZE : Int) →
      enquecommand cfg cmd t = t := by
  obtain ⟨h1, h2, h3⟩ := h0
  have hs : queueOk cfg s := by
    unfold queueOk
    rw [h1, h2, h3]
    refine ⟨le_refl _, by omega, hB, hB, ?_⟩
    simp
  refine ⟨runQueue_queueOk cfg hooks steps s henv hs, ?_⟩
  intro cmd t ht
  unfold enquecommand
  rw [if_neg (by omega)]


/-- C29 on the example build (`BUFSIZE` 4) for the example run. -/
theorem C29_queue_stays_consistent_witness :
    (0 ≤ (runQueue cfg0 queueRun init).buflen ∧
      (runQueue cfg0 queueRun init).buflen ≤ (cfg0.BUFSIZE : Int) ∧
      (runQueue cfg0 queueRun init).bufindr < cfg0.BUFSIZE ∧
      (runQueue cfg0 queueRun init).bufindw < cfg0.BUFSIZE ∧
      ((runQueue cfg0 queueRun init).bufindw : Int) =
        (((runQueue cfg0 queueRun init).bufindr : Int) + (runQueue cfg0 queueRun init).buflen) %
          (cfg0.BUFSIZE : Int)) ∧
    ∀ (cmd : List Nat) (t : Machine), t.buflen = (cfg0.BUFSIZE : Int) →
      enquecommand cfg0 cmd t = t :=
  C29_queue_stays_consistent cfg0 (by decide)
    ⟨fun _ s => enqueues_refl cfg0 s, fun _ s => enqueues_refl cfg0 s,
      fun s => enqueues_refl cfg0 s, fun _ _ h => Option.noConfusion h⟩
    queueRun
    (fun env he => by
      simp only [queueRun, quietPass, List.mem_cons, List.mem_singleton, List.not_mem_nil,
        or_false, reduceCtorEq, false_or, or_self, QueueStep.loopPass.injEq] at he
      subst he
      exact ⟨fun s => enqueues_refl cfg0 s, fun s => enqueues_refl cfg0 s⟩)
    init ⟨rfl, rfl, rfl⟩

/-- `checkRx` keeps `head` in 0..127 and does not move `tail`. -/
theorem checkRx_range (received : Option Nat) (rb : ring_buffer)
    (hh : 0 ≤ rb.head ∧ rb.head < 128) :
    (0 ≤ (checkRx received rb).head ∧ (checkRx received rb).head < 128) ∧
      (checkRx received rb).tail = rb.tail := by
  unfold checkRx
  cases received with
  | none => exact ⟨hh, rfl⟩
  | some c =>
    dsimp only
    split_ifs
    · refine ⟨⟨?_, ?_⟩, rfl⟩
      · show 0 ≤ toUnsignedInt (rb.head + 1) % RX_BUFFER_SIZE
        unfold toUnsignedInt RX_BUFFER_SIZE
        omega
      · show toUnsignedInt (rb.head + 1) % RX_BUFFER_SIZE < 128
        unfold toUnsignedInt RX_BUFFER_SIZE
        omega
    · exact ⟨hh, rfl⟩

/-- Any sequence of `checkRx` calls keeps `head` in 0..127 and does not move
`tail`. -/
theorem checkRx_sequence (input : List (Option Nat)) : ∀ rb : ring_buffer,
    (0 ≤ rb.head ∧ rb.head < 128) →
    (0 ≤ (input.foldl (fun r c => checkRx c r) rb).head ∧
      (input.foldl (fun r c => checkRx c r) rb).head < 128) ∧
      (input.foldl (fun r c => checkRx c r) rb).tail = rb.tail := by
  induction input with
  | nil => intro rb hh; exact ⟨hh, rfl⟩
  | cons c rest ih =>
    intro rb hh
    rw [List.foldl_cons]
    obtain ⟨h1, h2⟩ := checkRx_range c rb hh
    obtain ⟨h3, h4⟩ := ih (checkRx c rb) h1
    exact ⟨h3, h4.trans h2⟩

/-- `available()` is at most 127. -/
theorem available_le (rb : ring_buffer) : 0 ≤ available rb ∧ available rb ≤ 127 := by
  unfold available toUnsignedInt RX_BUFFER_SIZE
  omega

/-- C30: for a receive buffer with `0 <= head, tail < 128`, `checkRx` with a
received byte `c` stores `c` at index `head`, sets `head` to `(head + 1) mod 128`
and increases `available()` by exactly 1 when `(head + 1) mod 128 != tail`, and
leaves the buffer unchanged when `(head + 1) mod 128 = tail`; after any sequence
of `checkRx` calls `head` is in 0..127, `tail` is unchanged and `available()`
is at most 127. -/
theorem C30_checkRx_ring_buffer (rb : ring_buffer) (c : Nat)
    (hh : 0 ≤ rb.head ∧ rb.head < 128) (ht : 0 ≤ rb.tail ∧ rb.tail < 128) :
    (if (rb.head + 1) % 128 ≠ rb.tail then
        checkRx (some c) rb =
          { rb with buffer := Function.update rb.buffer rb.head c, head := (rb.head + 1) % 128 } ∧
        available (checkRx (some c) rb) = available rb + 1
      else checkRx (some c) rb = rb) ∧
    ∀ input : List (Option Nat),
      (0 ≤ (input.foldl (fun r c => checkRx c r) rb).head ∧
        (input.foldl (fun r c => checkRx c r) rb).head < 128) ∧
      (input.foldl (fun r c => checkRx c r) rb).tail = rb.tail ∧
      available (input.foldl (fun r c => checkRx c r) rb) ≤ 127 := by
  have hi : toUnsignedInt (rb.head + 1) % RX_BUFFER_SIZE = (rb.head + 1) % 128 := by
    unfold toUnsignedInt RX_BUFFER_SIZE
    omega
  refine ⟨?_, fun input => ?_⟩
  · by_cases hne : (rb.head + 1) % 128 ≠ rb.tail
    · rw [if_pos hne]
      have e : checkRx (some c) rb =
          { rb with buffer := Function.update rb.buffer rb.head c,
                    head := (rb.head + 1) % 128 } := by
        unfold checkRx
        dsimp only
        rw [hi, if_pos hne]
      refine ⟨e, ?_⟩
      rw [e]
      unfold available toUnsignedInt RX_BUFFER_SIZE
      dsimp only
      omega
    · rw [if_neg hne]
      unfold checkRx
      dsimp only
      rw [hi, if_neg hne]
  · obtain ⟨h1, h2⟩ := checkRx_sequence input rb hh
    exact ⟨h1, h2, (available_le _).2⟩

/-- C30 for the buffer with `head = 127`, `tail = 5` and the byte 65: the byte is
stored at index 127 and `head` wraps to 0. -/
theorem C30_checkRx_ring_buffer_witness :
    (if (wrapBuffer.head + 1) % 128 ≠ wrapBuffer.tail then
        checkRx (some 65) wrapBuffer =
          { wrapBuffer with buffer := Function.update wrapBuffer.buffer wrapBuffer.head 65,
                            head := (wrapBuffer.head + 1) % 128 } ∧
        available (checkRx (some 65) wrapBuffer) = available wrapBuffer + 1
      else checkRx (some 65) wrapBuffer = wrapBuffer) ∧
    ∀ input : List (Option Nat),
      (0 ≤ (input.foldl (fun r c => checkRx c r) wrapBuffer).head ∧
        (input.foldl (fun r c => checkRx c r) wrapBuffer).head < 128) ∧
      (input.foldl (fun r c => checkRx c r) wrapBuffer).tail = wrapBuffer.tail ∧
      available (input.foldl (fun r c => checkRx c r) wrapBuffer) ≤ 127 :=
  C30_checkRx_ring_buffer wrapBuffer 65 (by decide) (by decide)

/-- C26: with `AUTOLEVEL_GRID = 20`, a zero probe offset and a probe that reads
1 at the grid point (0, 1), Cartesian (0, 20), and 0 at the 36 other points,
`calibrate_print_surface` stores the 1 in `bed_level[3][2]`
(`bed_level[x+3][3-y]`); `adjust_delta` afterwards applies the offset 0 at
(0, 20), where it reads `bed_level[3][4]`, and the offset 1 at (0, -20). -/
theorem C26_grid_is_stored_mirrored_in_y :
    cfg0.AUTOLEVEL_GRID = 20 ∧ bumpProbe.z_probe_offset = ⟨0, 0, 0⟩ ∧
      (calibrate_print_surface 20 bumpProbe 0).probed.length = 37 ∧
      (calibrate_print_surface 20 bumpProbe 0).probed.getD 11 (0, 0) = (0 * 20, 1 * 20) ∧
      (calibrate_print_surface 20 bumpProbe 0).bed_level (0 + 3) (3 - 1) = 1 ∧
      (calibrate_print_surface 20 bumpProbe 0).bed_level (0 + 3) (1 + 3) = 0 ∧
      (adjust_delta cfg0 bumpMachine ⟨0 * 20, 1 * 20, 0, 0⟩).delta =
        ⟨bumpMachine.delta.x + 0, bumpMachine.delta.y + 0, bumpMachine.delta.z + 0⟩ ∧
      (adjust_delta cfg0 bumpMachine ⟨0 * 20, -1 * 20, 0, 0⟩).delta =
        ⟨bumpMachine.delta.x + 1, bumpMachine.delta.y + 1, bumpMachine.delta.z + 1⟩ := by
  refine ⟨?_, ?_, ?_, ?_, ?_, ?_, ?_, ?_⟩ <;> decide!

/-- When the first reading differs from -100 and the second reading equals the
first, `probe_bed` takes two readings and returns the first. -/
theorem probe_bed_steady (s : DeltaCal) (x y : ℚ) (h0 : probeValue s 0 ≠ -100)
    (h1 : probeValue s 1 = probeValue s 0) :
    probe_bed s x y =
      ({ s with z_probe_calls := s.z_probe_calls + 2, probed := s.probed ++ [(x, y)] },
        probeValue s 0) := by
  unfold probe_bed
  show probe_bed_loop (19 + 1 + 1) _ _ _ = _
  rw [probe_bed_loop]
  rw [if_pos (by
    constructor
    · exact h0
    · norm_num)]
  rw [probe_bed_loop]
  rw [if_neg (by
    intro hc
    exact hc.1 h1)]
  rfl

/-- The store of the value returned by a steady `probe_bed`. -/
theorem withReading_probe_bed_steady (s : DeltaCal) (x y : ℚ)
    (store : DeltaCal → ℚ → DeltaCal) (h0 : probeValue s 0 ≠ -100)
    (h1 : probeValue s 1 = probeValue s 0) :
    withReading (probe_bed s x y) store =
      store { s with z_probe_calls := s.z_probe_calls + 2, probed := s.probed ++ [(x, y)] }
        (probeValue s 0) := by
  unfold withReading
  rw [probe_bed_steady s x y h0 h1]

/-- When at each of the seven points the first reading differs from -100 and the
second equals the first, `bed_probe_all` takes 14 readings and stores the
first reading of each point. -/
theorem bed_probe_all_steady (s : DeltaCal)
    (h : ∀ i, i < 7 → probeValue s (2 * i) ≠ -100 ∧
      probeValue s (2 * i + 1) = probeValue s (2 * i)) :
    bed_probe_all s =
      { s with
        z_probe_calls := s.z_probe_calls + 14
        probed := s.probed ++ probe_points s
        bed_level_c := probeValue s 0, bed_level_z := probeValue s 2
        bed_level_oy := probeValue s 4, bed_level_x := probeValue s 6
        bed_level_oz := probeValue s 8, bed_level_y := probeValue s 10
        bed_level_ox := probeValue s 12 } := by
  have e1 : withReading (probe_bed s
      (0) (0))
      (fun s v => { s with bed_level_c := v }) =
      ({ s with z_probe_calls := s.z_probe_calls + 2, probed := s.probed ++ [(0, 0)], bed_level_c := probeValue s 0 } : DeltaCal) := by
    rw [withReading_probe_bed_steady _ _ _ _ (h 0 (by norm_num)).1 (h 0 (by norm_num)).2]
    try simp only [probeValue, List.append_assoc, List.cons_append, List.nil_append, Nat.add_assoc,
      Nat.reduceAdd, Nat.reduceMul, Nat.add_zero]
  have e2 : withReading (probe_bed ({ s with z_probe_calls := s.z_probe_calls + 2, probed := s.probed ++ [(0, 0)], bed_level_c := probeValue s 0 } : DeltaCal)
      (0) (({ s with z_probe_calls := s.z_probe_calls + 2, probed := s.probed ++ [(0, 0)], bed_level_c := probeValue s 0 } : DeltaCal).bed_radius))
      (fun s v => { s with bed_level_z := v }) =
      ({ s with z_probe_calls := s.z_probe_calls + 4, probed := s.probed ++ [(0, 0), (0, s.bed_radius)], bed_level_c := probeValue s 0, bed_level_z := probeValue s 2 } : DeltaCal) := by
    rw [withReading_probe_bed_steady _ _ _ _ (h 1 (by norm_num)).1 (h 1 (by norm_num)).2]
    try simp only [probeValue, List.append_assoc, List.cons_append, List.nil_append, Nat.add_assoc,
      Nat.reduceAdd, Nat.reduceMul, Nat.add_zero]
  have e3 : withReading (probe_bed ({ s with z_probe_calls := s.z_probe_calls + 4, probed := s.probed ++ [(0, 0), (0, s.bed_radius)], bed_level_c := probeValue s 0, bed_level_z := probeValue s 2 } : DeltaCal)
      (-SIN_60 * ({ s with z_probe_calls := s.z_probe_calls + 4, probed := s.probed ++ [(0, 0), (0, s.bed_radius)], bed_level_c := probeValue s 0, bed_level_z := probeValue s 2 } : DeltaCal).bed_radius) (COS_60 * ({ s with z_probe_calls := s.z_probe_calls + 4, probed := s.probed ++ [(0, 0), (0, s.bed_radius)], bed_level_c := probeValue s 0, bed_level_z := probeValue s 2 } : DeltaCal).bed_radius))
      (fun s v => { s with bed_level_oy := v }) =
      ({ s with z_probe_calls := s.z_probe_calls + 6, probed := s.probed ++ [(0, 0), (0, s.bed_radius), (-SIN_60 * s.bed_radius, COS_60 * s.bed_radius)], bed_level_c := probeValue s 0, bed_level_z := probeValue s 2, bed_level_oy := probeValue s 4 } : DeltaCal) := by
    rw [withReading_probe_bed_steady _ _ _ _ (h 2 (by norm_num)).1 (h 2 (by norm_num)).2]
    try simp only [probeValue, List.append_assoc, List.cons_append, List.nil_append, Nat.add_assoc,
      Nat.reduceAdd, Nat.reduceMul, Nat.add_zero]
  have e4 : withReading (probe_bed ({ s with z_probe_calls := s.z_probe_calls + 6, probed := s.probed ++ [(0, 0), (0, s.bed_radius), (-SIN_60 * s.bed_radius, COS_60 * s.bed_radius)], bed_level_c := probeValue s 0, bed_level_z := probeValue s 2, bed_level_oy := probeValue s 4 } : DeltaCal)
      (-SIN_60 * ({ s with z_probe_calls := s.z_probe_calls + 6, probed := s.probed ++ [(0, 0), (0, s.bed_radius), (-SIN_60 * s.bed_radius, COS_60 * s.bed_radius)], bed_level_c := probeValue s 0, bed_level_z := probeValue s 2, bed_level_oy := probeValue s 4 } : DeltaCal).bed_radius) (-COS_60 * ({ s with z_probe_calls := s.z_probe_calls + 6, probed := s.probed ++ [(0, 0), (0, s.bed_radius), (-SIN_60 * s.bed_radius, COS_60 * s.bed_radius)], bed_level_c := probeValue s 0, bed_level_z := probeValue s 2, bed_level_oy := probeValue s 4 } : DeltaCal).bed_radius))
      (fun s v => { s with bed_level_x := v }) =
      ({ s with z_probe_calls := s.z_probe_calls + 8, probed := s.probed ++ [(0, 0), (0, s.bed_radius), (-SIN_60 * s.bed_radius, COS_60 * s.bed_radius), (-SIN_60 * s.bed_radius, -COS_60 * s.bed_radius)], bed_level_c := probeValue s 0, bed_level_z := probeValue s 2, bed_level_oy := probeValue s 4, bed_level_x := probeValue s 6 } : DeltaCal) := by
    rw [withReading_probe_bed_steady _ _ _ _ (h 3 (by norm_num)).1 (h 3 (by norm_num)).2]
    try simp only [probeValue, List.append_assoc, List.cons_append, List.nil_append, Nat.add_assoc,
      Nat.reduceAdd, Nat.reduceMul, Nat.add_zero]
  have e5 : withReading (probe_bed ({ s with z_probe_calls := s.z_probe_calls + 8, probed := s.probed ++ [(0, 0), (0, s.bed_radius), (-SIN_60 * s.bed_radius, COS_60 * s.bed_radius), (-SIN_60 * s.bed_radius, -COS_60 * s.bed_radius)], bed_level_c := probeValue s 0, bed_level_z := probeValue s 2, bed_level_oy := probeValue s 4, bed_level_x := probeValue s 6 } : DeltaCal)
      (0) (-({ s with z_probe_calls := s.z_probe_calls + 8, probed := s.probed ++ [(0, 0), (0, s.bed_radius), (-SIN_60 * s.bed_radius, COS_60 * s.bed_radius), (-SIN_60 * s.bed_radius, -COS_60 * s.bed_radius)], bed_level_c := probeValue s 0, bed_level_z := probeValue s 2, bed_level_oy := probeValue s 4, bed_level_x := probeValue s 6 } : DeltaCal).bed_radius))
      (fun s v => { s with bed_level_oz := v }) =
      ({ s with z_probe_calls := s.z_probe_calls + 10, probed := s.probed ++ [(0, 0), (0, s.bed_radius), (-SIN_60 * s.bed_radius, COS_60 * s.bed_radius), (-SIN_60 * s.bed_radius, -COS_60 * s.bed_radius), (0, -s.bed_radius)], bed_level_c := probeValue s 0, bed_level_z := probeValue s 2, bed_level_oy := probeValue s 4, bed_level_x := probeValue s 6, bed_level_oz := probeValue s 8 } : DeltaCal) := by
    rw [withReading_probe_bed_steady _ _ _ _ (h 4 (by norm_num)).1 (h 4 (by norm_num)).2]
    try simp only [probeValue, List.append_assoc, List.cons_append, List.nil_append, Nat.add_assoc,
      Nat.reduceAdd, Nat.reduceMul, Nat.add_zero]
  have e6 : withReading (probe_bed ({ s with z_probe_calls := s.z_probe_calls + 10, probed := s.probed ++ [(0, 0), (0, s.bed_radius), (-SIN_60 * s.bed_radius, COS_60 * s.bed_radius), (-SIN_60 * s.bed_radius, -COS_60 * s.bed_radius), (0, -s.bed_radius)], bed_level_c := probeValue s 0, bed_level_z := probeValue s 2, bed_level_oy := probeValue s 4, bed_level_x := probeValue s 6, bed_level_oz := probeValue s 8 } : DeltaCal)
      (SIN_60 * ({ s with z_probe_calls := s.z_probe_calls + 10, probed := s.probed ++ [(0, 0), (0, s.bed_radius), (-SIN_60 * s.bed_radius, COS_60 * s.bed_radius), (-SIN_60 * s.bed_radius, -COS_60 * s.bed_radius), (0, -s.bed_radius)], bed_level_c := probeValue s 0, bed_level_z := probeValue s 2, bed_level_oy := probeValue s 4, bed_level_x := probeValue s 6, bed_level_oz := probeValue s 8 } : DeltaCal).bed_radius) (-COS_60 * ({ s with z_probe_calls := s.z_probe_calls + 10, probed := s.probed ++ [(0, 0), (0, s.bed_radius), (-SIN_60 * s.bed_radius, COS_60 * s.bed_radius), (-SIN_60 * s.bed_radius, -COS_60 * s.bed_radius), (0, -s.bed_radius)], bed_level_c := probeValue s 0, bed_level_z := probeValue s 2, bed_level_oy := probeValue s 4, bed_level_x := probeValue s 6, bed_level_oz := probeValue s 8 } : DeltaCal).bed_radius))
      (fun s v => { s with bed_level_y := v }) =
      ({ s with z_probe_calls := s.z_probe_calls + 12, probed := s.probed ++ [(0, 0), (0, s.bed_radius), (-SIN_60 * s.bed_radius, COS_60 * s.bed_radius), (-SIN_60 * s.bed_radius, -COS_60 * s.bed_radius), (0, -s.bed_radius), (SIN_60 * s.bed_radius, -COS_60 * s.bed_radius)], bed_level_c := probeValue s 0, bed_level_z := probeValue s 2, bed_level_oy := probeValue s 4, bed_level_x := probeValue s 6, bed_level_oz := probeValue s 8, bed_level_y := probeValue s 10 } : DeltaCal) := by
    rw [withReading_probe_bed_steady _ _ _ _ (h 5 (by norm_num)).1 (h 5 (by norm_num)).2]
    try simp only [probeValue, List.append_assoc, List.cons_append, List.nil_append, Nat.add_assoc,
      Nat.reduceAdd, Nat.reduceMul, Nat.add_zero]
  have e7 : withReading (probe_bed ({ s with z_probe_calls := s.z_probe_calls + 12, probed := s.probed ++ [(0, 0), (0, s.bed_radius), (-SIN_60 * s.bed_radius, COS_60 * s.bed_radius), (-SIN_60 * s.bed_radius, -COS_60 * s.bed_radius), (0, -s.bed_radius), (SIN_60 * s.bed_radius, -COS_60 * s.bed_radius)], bed_level_c := probeValue s 0, bed_level_z := probeValue s 2, bed_level_oy := probeValue s 4, bed_level_x := probeValue s 6, bed_level_oz := probeValue s 8, bed_level_y := probeValue s 10 } : DeltaCal)
      (SIN_60 * ({ s with z_probe_calls := s.z_probe_calls + 12, probed := s.probed ++ [(0, 0), (0, s.bed_radius), (-SIN_60 * s.bed_radius, COS_60 * s.bed_radius), (-SIN_60 * s.bed_radius, -COS_60 * s.bed_radius), (0, -s.bed_radius), (SIN_60 * s.bed_radius, -COS_60 * s.bed_radius)], bed_level_c := probeValue s 0, bed_level_z := probeValue s 2, bed_level_oy := probeValue s 4, bed_level_x := probeValue s 6, bed_level_oz := probeValue s 8, bed_level_y := probeValue s 10 } : DeltaCal).bed_radius) (COS_60 * ({ s with z_probe_calls := s.z_probe_calls + 12, probed := s.probed ++ [(0, 0), (0, s.bed_radius), (-SIN_60 * s.bed_radius, COS_60 * s.bed_radius), (-SIN_60 * s.bed_radius, -COS_60 * s.bed_radius), (0, -s.bed_radius), (SIN_60 * s.bed_radius, -COS_60 * s.bed_radius)], bed_level_c := probeValue s 0, bed_level_z := probeValue s 2, bed_level_oy := probeValue s 4, bed_level_x := probeValue s 6, bed_level_oz := probeValue s 8, bed_level_y := probeValue s 10 } : DeltaCal).bed_radius))
      (fun s v => { s with bed_level_ox := v }) =
      ({ s with z_probe_calls := s.z_probe_calls + 14, probed := s.probed ++ [(0, 0), (0, s.bed_radius), (-SIN_60 * s.bed_radius, COS_60 * s.bed_radius), (-SIN_60 * s.bed_radius, -COS_60 * s.bed_radius), (0, -s.bed_radius), (SIN_60 * s.bed_radius, -COS_60 * s.bed_radius), (SIN_60 * s.bed_radius, COS_60 * s.bed_radius)], bed_level_c := probeValue s 0, bed_level_z := probeValue s 2, bed_level_oy := probeValue s 4, bed_level_x := probeValue s 6, bed_level_oz := probeValue s 8, bed_level_y := probeValue s 10, bed_level_ox := probeValue s 12 } : DeltaCal) := by
    rw [withReading_probe_bed_steady _ _ _ _ (h 6 (by norm_num)).1 (h 6 (by norm_num)).2]
    try simp only [probeValue, List.append_assoc, List.cons_append, List.nil_append, Nat.add_assoc,
      Nat.reduceAdd, Nat.reduceMul, Nat.add_zero]
  unfold bed_probe_all
  dsimp only
  rw [e1, e2, e3, e4, e5, e6, e7]
  rfl
/-- With a probe that always reads 0, `bed_probe_all` takes 14 readings and
stores 0 seven times. -/
theorem bed_probe_all_zero (s : DeltaCal) (h : zeroProbe s) :
    bed_probe_all s =
      { s with
        z_probe_calls := s.z_probe_calls + 14
        probed := s.probed ++ probe_points s
        bed_level_c := 0, bed_level_z := 0, bed_level_oy := 0, bed_level_x := 0
        bed_level_oz := 0, bed_level_y := 0, bed_level_ox := 0 } := by
  have hv : ∀ i, probeValue s i = 0 := fun i => h (s.z_probe_calls + i)
  rw [bed_probe_all_steady s (fun i _ => ⟨by rw [hv]; norm_num, by rw [hv, hv]⟩)]
  rw [hv 0, hv 2, hv 4, hv 6, hv 8, hv 10, hv 12]

/-- With a probe that always reads 0, homing, probing all points and reporting
change `min_pos` and `max_pos` (homing), the seven readings (0), the count of
`z_probe` calls (14 more), the list of probed points (7 more) and the output. -/
theorem probe_pass_zero (cfg : DeltaCfg) (u : DeltaCal) (h : zeroProbe u) :
    calibration_report (bed_probe_all (home_delta_axis cfg u)) =
      { u with
        min_pos := (home_delta_axis cfg u).min_pos
        max_pos := (home_delta_axis cfg u).max_pos
        z_probe_calls := u.z_probe_calls + 14
        probed := u.probed ++ probe_points u
        bed_level_c := 0, bed_level_z := 0, bed_level_oy := 0, bed_level_x := 0
        bed_level_oz := 0, bed_level_y := 0, bed_level_ox := 0
        out := u.out ++ ["\tZ-Tower\t\t\tEndstop Offsets", "", "\t\tTower Position Adjust",
          "", "", "", ""] } := by
  have e := home_delta_axis_frame cfg u
  have hz : zeroProbe (home_delta_axis cfg u) := by rw [e]; exact h
  rw [bed_probe_all_zero _ hz]
  unfold calibration_report
  generalize home_delta_axis cfg u = w at e
  rw [e]
  rfl

/-- When all readings are 0 and the precision is not negative, the completeness
check sets `loopcount = iterations`. -/
theorem completeness_check_level (a : AutoCal) (hl : levelReadings a.cal)
    (hp : 0 ≤ a.cal.ac_prec) : completeness_check a = { a with loopcount := iterations } := by
  obtain ⟨h1, h2, h3, h4, h5, h6, h7⟩ := hl
  have hn : -a.cal.ac_prec ≤ 0 := by linarith
  unfold completeness_check
  rw [h1, h2, h3, h4, h5, h6, h7]
  by_cases hd : a.adj_dr_allowed = true
  · rw [if_pos hd, if_pos ⟨hn, hp, hn, hp, hn, hp, hn, hp, hn, hp, hn, hp, hn, hp⟩]
  · rw [if_neg hd, if_pos ⟨hn, hp, hn, hp, hn, hp, hn, hp⟩]

/-- When all readings are 0 and the precision is not negative, the first
statement of an iteration finds the endstops and the delta geometry in order
and only writes output. -/
theorem iteration_adjust_level (cfg : DeltaCfg) (fuel : Nat) (a : AutoCal)
    (hl : levelReadings a.cal) (hp : 0 ≤ a.cal.ac_prec) :
    ∃ b : AutoCal, iteration_adjust cfg fuel a = some b ∧
      b.cal = { a.cal with out := a.cal.out ++ [""] ++ ["Endstops: OK"] ++
        ["Delta Geometry: OK"] } ∧
      b.loopcount = a.loopcount ∧ b.adj_dr_allowed = a.adj_dr_allowed := by
  obtain ⟨h1, h2, h3, h4, h5, h6, h7⟩ := hl
  have hn : -a.cal.ac_prec ≤ 0 := by linarith
  unfold iteration_adjust
  dsimp only
  rw [h1, h2, h3, h4, h5, h6, h7]
  rw [if_neg (by norm_num), if_neg (by
    intro hc
    rcases hc with hc | hc | hc | hc | hc | hc <;> linarith)]
  rw [if_neg (by
    intro hc
    rcases hc with hc | hc | hc
    · have : (0 : ℚ) ≥ (0 + 0 + 0) / 3 - a.cal.ac_prec ∧ (0 : ℚ) ≤ (0 + 0 + 0) / 3 + a.cal.ac_prec := by
        constructor <;> norm_num <;> linarith
      simp [this] at hc
      linarith
    · have : ((0 : ℚ) + 0 + 0) / 3 ≥ (0 + 0 + 0) / 3 - a.cal.ac_prec ∧
          ((0 : ℚ) + 0 + 0) / 3 ≤ (0 + 0 + 0) / 3 + a.cal.ac_prec := by
        constructor <;> norm_num <;> linarith
      simp [this] at hc
      linarith
    · simp at hc)]
  exact ⟨_, rfl, rfl, rfl, rfl⟩
/-- Homing twice gives the same `max_pos` as homing once. -/
theorem home_delta_axis_max_pos_again (cfg : DeltaCfg) (s t : DeltaCal)
    (e1 : t.max_pos = (home_delta_axis cfg s).max_pos) (e2 : t.base_max_pos = s.base_max_pos)
    (e3 : t.add_homing = s.add_homing) :
    (home_delta_axis cfg t).max_pos = (home_delta_axis cfg s).max_pos := by
  revert e1
  unfold home_delta_axis homeaxis axis_is_at_home
  by_cases h0 : cfg.HOMEAXIS_DO 0 = true <;> by_cases h1 : cfg.HOMEAXIS_DO 1 = true <;>
    by_cases h2 : cfg.HOMEAXIS_DO 2 = true <;>
    simp only [h0, h1, h2, if_true, if_false, Bool.false_eq_true, e2, e3] <;>
    intro e1 <;> simp [e1, Vec3.set, Vec3.get]

/-- With a probe that always reads 0 and a precision that is not negative, the
second statement of an iteration below the limit homes and probes once more
and ends the outer loop: `loopcount` is `iterations + 1` afterwards. -/
theorem iteration_probe_level (cfg : DeltaCfg) (b : AutoCal) (hz : zeroProbe b.cal)
    (hp : 0 ≤ b.cal.ac_prec) (hlc : b.loopcount < iterations) :
    iteration_probe cfg b =
      { b with cal := calibration_report (bed_probe_all (home_delta_axis cfg b.cal))
               loopcount := iterations + 1 } := by
  unfold iteration_probe
  dsimp only
  rw [if_pos hlc]
  rw [completeness_check_level _ (by
    show levelReadings (calibration_report (bed_probe_all (home_delta_axis cfg b.cal)))
    rw [probe_pass_zero cfg b.cal hz]
    exact ⟨rfl, rfl, rfl, rfl, rfl, rfl, rfl⟩) (by
    show 0 ≤ (calibration_report (bed_probe_all (home_delta_axis cfg b.cal))).ac_prec
    rw [probe_pass_zero cfg b.cal hz]
    exact hp)]

/-- With a probe that always reads 0 and a precision that is not negative, the
iteration loop ends after one iteration, for every positive `fuel`: it finds
nothing to adjust, then homes and probes once more. -/
theorem G30_loop_level (cfg : DeltaCfg) (fuel : Nat) (allowed : Bool) (t : DeltaCal)
    (hz : zeroProbe t) (hl : levelReadings t) (hp : 0 ≤ t.ac_prec) :
    G30_loop cfg (fuel + 1) allowed t =
      some (calibration_report (bed_probe_all (home_delta_axis cfg
        { t with out := t.out ++ [""] ++ ["Endstops: OK"] ++ ["Delta Geometry: OK"] }))) := by
  obtain ⟨b, e, hb1, hb2, -⟩ :=
    iteration_adjust_level cfg (fuel + 1) (autoCalStart allowed t) hl hp
  have hbz : zeroProbe b.cal := by rw [hb1]; exact hz
  have hbp : 0 ≤ b.cal.ac_prec := by rw [hb1]; exact hp
  have hbl : b.loopcount < iterations := by
    rw [hb2]
    show (1 : Int) < 100
    norm_num
  unfold G30_loop
  rw [calibration_loop, e]
  dsimp only
  rw [iteration_probe_level cfg b hbz hbp hbl]
  dsimp only
  rw [if_neg (by
    show ¬ ((100 : Int) + 1 < 100)
    norm_num)]
  show some (calibration_report (bed_probe_all (home_delta_axis cfg b.cal))) = _
  rw [hb1]
  rfl
/-- With a probe that always reads 0, the state after the first probe pass of
`G30`: the probe still reads 0, all seven readings are 0, one pass was probed,
and the constants that the later steps read are unchanged. -/
theorem G30_first_pass_level (cfg : DeltaCfg) (cmd : List Nat) (s : DeltaCal)
    (hz : zeroProbe s) :
    zeroProbe (G30_first_pass cfg cmd s) ∧ levelReadings (G30_first_pass cfg cmd s) ∧
      (G30_first_pass cfg cmd s).ac_prec = s.ac_prec ∧
      (G30_first_pass cfg cmd s).probed = s.probed ++ probe_points s ∧
      (G30_first_pass cfg cmd s).z_probe_calls = s.z_probe_calls + 14 ∧
      (G30_first_pass cfg cmd s).bed_radius = s.bed_radius ∧
      (G30_first_pass cfg cmd s).base_max_pos = s.base_max_pos ∧
      (G30_first_pass cfg cmd s).add_homing = s.add_homing := by
  unfold G30_first_pass
  dsimp only
  by_cases hF : code_seen cmd 70 = true <;> by_cases hA : code_seen cmd 65 = true <;>
    simp only [hF, hA, if_true, if_false, Bool.false_eq_true] <;>
    (rw [probe_pass_zero]
     rotate_left
     · exact hz
     exact ⟨hz, ⟨rfl, rfl, rfl, rfl, rfl, rfl, rfl⟩, rfl, rfl, rfl, rfl, rfl, rfl⟩)

/-- The auto-calibration block when the endstop check fails: the output of the
abort, after the optional rod length `D`. -/
theorem G30_autocalibrate_abort (loop : Bool → DeltaCal → Option DeltaCal) (cmd : List Nat)
    (t : DeltaCal) (habort : h_endstop t - l_endstop t > 3) :
    G30_autocalibrate loop cmd t =
      some { t with
        delta_diagonal_rod :=
          if code_seen cmd 68 = true then code_value cmd 68 else t.delta_diagonal_rod
        out := (if code_seen cmd 68 = true then t.out ++ ["mm (will not be adjusted)"]
            else t.out) ++
          ["The position of the endstop switches on this printer are not within limits",
           "Adjust endstop switches so that they are within 3mm Z-height of each other",
           "", "", "", "Autocalibration aborted"] } := by
  unfold G30_autocalibrate
  dsimp only
  by_cases hD : code_seen cmd 68 = true
  · simp only [hD, if_true]
    exact if_pos habort
  · simp only [hD, if_false, Bool.false_eq_true]
    exact if_pos habort

/-- The auto-calibration block when the endstop check passes: the iteration
loop on the state with the optional rod length `D`, then the closing
messages. -/
theorem G30_autocalibrate_run (loop : Bool → DeltaCal → Option DeltaCal) (cmd : List Nat)
    (t : DeltaCal) (hok : ¬ (h_endstop t - l_endstop t > 3)) :
    G30_autocalibrate loop cmd t =
      (loop (!code_seen cmd 68)
        { t with
          delta_diagonal_rod :=
            if code_seen cmd 68 = true then code_value cmd 68 else t.delta_diagonal_rod
          out := if code_seen cmd 68 = true then t.out ++ ["mm (will not be adjusted)"]
            else t.out }).map fun s => { s with out := s.out ++
        ["Auto Calibration Complete",
         "Issue M500 Command to save calibration settings to EPROM (if enabled)"] } := by
  unfold G30_autocalibrate
  dsimp only
  by_cases hD : code_seen cmd 68 = true
  · simp only [hD, if_true, Bool.not_true]
    exact if_neg hok
  · simp only [hD, if_false, Bool.false_eq_true, Bool.not_false]
    exact if_neg hok

/-- The command `G30 A` with a probe that always reads 0 and a precision that is
not negative returns, for every positive `fuel`. When the endstop offsets lie
within 3 mm of each other it probes two passes, otherwise it aborts after the
first pass. The radius, the tower and endstop adjustments keep their values,
the rod length changes only by `D`, and `max_pos` is as homing sets it. -/
theorem gcode_G30_level (cfg : DeltaCfg) (fuel : Nat) (cmd : List Nat) (s : DeltaCal)
    (hC : code_seen cmd 67 = false)
    (hXY : ¬ (code_seen cmd 88 = true ∧ code_seen cmd 89 = true))
    (hA : code_seen cmd 65 = true) (hz : zeroProbe s) (hp : 0 ≤ s.ac_prec) :
    ∃ r : DeltaCal, gcode_G30 cfg (G30_loop cfg (fuel + 1)) cmd s = some r ∧
      r.probed = s.probed ++ probe_points s ++
        (if h_endstop (G30_first_pass cfg cmd s) - l_endstop (G30_first_pass cfg cmd s) > 3
          then [] else probe_points s) ∧
      r.z_probe_calls = s.z_probe_calls +
        (if h_endstop (G30_first_pass cfg cmd s) - l_endstop (G30_first_pass cfg cmd s) > 3
          then 14 else 28) ∧
      r.delta_radius = s.delta_radius ∧
      r.delta_diagonal_rod =
        (if code_seen cmd 68 = true then code_value cmd 68 else s.delta_diagonal_rod) ∧
      r.tower_adj = s.tower_adj ∧ r.endstop_adj = s.endstop_adj ∧
      r.max_pos = (home_delta_axis cfg s).max_pos := by
  obtain ⟨g1, g2, g3, g4, g5⟩ := G30_first_pass_geometry cfg cmd s
  obtain ⟨f1, f2, f3, f4, f5, f6, f7, f8⟩ := G30_first_pass_level cfg cmd s hz
  rw [gcode_G30_A cfg _ cmd s hC hXY hA]
  generalize G30_first_pass cfg cmd s = t at g1 g2 g3 g4 g5 f1 f2 f3 f4 f5 f6 f7 f8
  by_cases habort : h_endstop t - l_endstop t > 3
  · rw [G30_autocalibrate_abort _ cmd t habort, if_pos habort, if_pos habort]
    refine ⟨_, rfl, ?_, f5, g1, ?_, g3, g4, g5⟩
    · rw [List.append_nil]; exact f4
    · show (if code_seen cmd 68 = true then code_value cmd 68 else t.delta_diagonal_rod) = _
      rw [g2]
  · rw [G30_autocalibrate_run _ cmd t habort, if_neg habort, if_neg habort]
    have hp3 : 0 ≤ t.ac_prec := by rw [f3]; exact hp
    rw [G30_loop_level]
    rotate_left
    · exact f1
    · exact f2
    · exact hp3
    rw [probe_pass_zero]
    rotate_left
    · exact f1
    refine ⟨_, rfl, ?_, ?_, g1, ?_, g3, g4, ?_⟩
    · show t.probed ++ probe_points t = _
      rw [f4]
      unfold probe_points
      rw [f6]
    · show t.z_probe_calls + 14 = _
      rw [f5]
    · show (if code_seen cmd 68 = true then code_value cmd 68 else t.delta_diagonal_rod) = _
      rw [g2]
    · exact home_delta_axis_max_pos_again cfg s _ g5 f7 f8
/-- C21, counterexample: on the example delta machine with a probe that always
reads 0, `G30 A` probes two passes, not one: the first pass, and one more after
iteration 1 found the endstops and the delta geometry in order. The run takes
28 readings at 14 points. -/
theorem C21_counterexample_level_bed_probes_twice :
    (gcode_G30 deltaCfg0 (G30_loop deltaCfg0 100) (bytes "G30 A") levelProbe).map
        (fun r => (r.z_probe_calls, r.probed.length)) = some (28, 14) ∧
      (gcode_G30 deltaCfg0 (G30_loop deltaCfg0 100) (bytes "G30 A") levelProbe).map
        (fun r => r.probed) = some (probe_points levelProbe ++ probe_points levelProbe) := by
  obtain ⟨r, e, h1, h2, -⟩ := gcode_G30_level deltaCfg0 99 (bytes "G30 A") levelProbe
    (by decide) (by decide) (by decide) (fun _ => by simp [levelProbe, calStart]) (by decide!)
  rw [if_neg (by decide!)] at h1 h2
  rw [e]
  refine ⟨?_, ?_⟩
  · show some (r.z_probe_calls, r.probed.length) = _
    rw [h1, h2]
    rfl
  · show some r.probed = _
    rw [h1]
    rfl

/-- C21, amended: when the probe returns height 0 at all seven points on every
probe and the precision `ac_prec` is not negative, the delta auto-calibration
(a `G30` command with `A`, without `C` and without an `X`, `Y` pair) returns,
and `bed_probe_all` is executed exactly twice during the command: the first
pass, and one more pass after the first iteration found nothing to adjust. It
is executed once when the endstop offsets differ by more than 3 mm and the
command aborts. Each pass adds its seven points to the list of probed points
and takes 14 readings. -/
theorem C21_level_bed_takes_two_probe_passes (cfg : DeltaCfg) (fuel : Nat) (cmd : List Nat)
    (s : DeltaCal) (hC : code_seen cmd 67 = false)
    (hXY : ¬ (code_seen cmd 88 = true ∧ code_seen cmd 89 = true))
    (hA : code_seen cmd 65 = true) (hzero : zeroProbe s) (hprec : 0 ≤ s.ac_prec) :
    ∃ r : DeltaCal, gcode_G30 cfg (G30_loop cfg (fuel + 1)) cmd s = some r ∧
      r.probed = s.probed ++ probe_points s ++
        (if h_endstop (G30_first_pass cfg cmd s) - l_endstop (G30_first_pass cfg cmd s) > 3
          then [] else probe_points s) ∧
      r.z_probe_calls = s.z_probe_calls +
        (if h_endstop (G30_first_pass cfg cmd s) - l_endstop (G30_first_pass cfg cmd s) > 3
          then 14 else 28) := by
  obtain ⟨r, e, h1, h2, -⟩ := gcode_G30_level cfg fuel cmd s hC hXY hA hzero hprec
  exact ⟨r, e, h1, h2⟩

/-- C21, amended, on the example delta machine with a probe that always reads 0
and the command `G30 A`. -/
theorem C21_level_bed_takes_two_probe_passes_witness :
    ∃ r : DeltaCal, gcode_G30 deltaCfg0 (G30_loop deltaCfg0 (0 + 1)) (bytes "G30 A")
        levelProbe = some r ∧
      r.probed = levelProbe.probed ++ probe_points levelProbe ++
        (if h_endstop (G30_first_pass deltaCfg0 (bytes "G30 A") levelProbe) -
            l_endstop (G30_first_pass deltaCfg0 (bytes "G30 A") levelProbe) > 3
          then [] else probe_points levelProbe) ∧
      r.z_probe_calls = levelProbe.z_probe_calls +
        (if h_endstop (G30_first_pass deltaCfg0 (bytes "G30 A") levelProbe) -
            l_endstop (G30_first_pass deltaCfg0 (bytes "G30 A") levelProbe) > 3
          then 14 else 28) :=
  C21_level_bed_takes_two_probe_passes deltaCfg0 0 (bytes "G30 A") levelProbe (by decide)
    (by decide) (by decide) (fun _ => by simp [levelProbe, calStart]) (by decide!)

/-- C22, counterexample: on the example delta machine with a probe that always
reads 0, where the home offset `add_homing[Z] = 5` was set after the last
homing, `G30 A` changes `max_pos[Z]` from 200 to 205: the command homes the
machine, and homing sets `max_pos[Z] = base_max_pos[Z] + add_homing[Z]`. -/
theorem C22_counterexample_level_bed_changes_max_pos :
    levelProbe.max_pos.z = 200 ∧
      (gcode_G30 deltaCfg0 (G30_loop deltaCfg0 100) (bytes "G30 A") levelProbe).map
        (fun r => r.max_pos.z) = some 205 := by
  obtain ⟨r, e, -, -, -, -, -, -, h⟩ := gcode_G30_level deltaCfg0 99 (bytes "G30 A") levelProbe
    (by decide) (by decide) (by decide) (fun _ => by simp [levelProbe, calStart]) (by decide!)
  refine ⟨by decide!, ?_⟩
  rw [e]
  show some r.max_pos.z = _
  rw [h]
  decide!

/-- C22, amended: when the probe returns height 0 at all seven points on every
probe and the precision `ac_prec` is not negative, the delta auto-calibration
without `D` (a `G30` command with `A`, without `C`, `D` and an `X`, `Y` pair)
returns and leaves `delta_radius`, `delta_diagonal_rod`, all `tower_adj` values
and all `endstop_adj` values as they were before the command; `max_pos` is the
one set by homing, so that `max_pos[Z]` is `base_max_pos[Z] + add_homing[Z]`
when Z homes to an endstop. -/
theorem C22_level_bed_keeps_geometry (cfg : DeltaCfg) (fuel : Nat) (cmd : List Nat)
    (s : DeltaCal) (hC : code_seen cmd 67 = false)
    (hXY : ¬ (code_seen cmd 88 = true ∧ code_seen cmd 89 = true))
    (hA : code_seen cmd 65 = true) (hD : code_seen cmd 68 = false) (hzero : zeroProbe s)
    (hprec : 0 ≤ s.ac_prec) :
    ∃ r : DeltaCal, gcode_G30 cfg (G30_loop cfg (fuel + 1)) cmd s = some r ∧
      r.delta_radius = s.delta_radius ∧
      r.delta_diagonal_rod = s.delta_diagonal_rod ∧
      r.tower_adj = s.tower_adj ∧
      r.endstop_adj = s.endstop_adj ∧
      r.max_pos = (home_delta_axis cfg s).max_pos ∧
      r.max_pos.z =
        if cfg.HOMEAXIS_DO 2 then s.base_max_pos.z + s.add_homing.z else s.max_pos.z := by
  obtain ⟨r, e, -, -, h1, h2, h3, h4, h5⟩ := gcode_G30_level cfg fuel cmd s hC hXY hA hzero hprec
  refine ⟨r, e, h1, ?_, h3, h4, h5, ?_⟩
  · rw [h2, if_neg (by rw [hD]; decide)]
  · rw [← home_delta_axis_max_pos_z]
    exact congrArg Vec3.z h5

/-- C22, amended, on the example delta machine with a probe that always reads 0
and the command `G30 A`. -/
theorem C22_level_bed_keeps_geometry_witness :
    ∃ r : DeltaCal, gcode_G30 deltaCfg0 (G30_loop deltaCfg0 (0 + 1)) (bytes "G30 A")
        levelProbe = some r ∧
      r.delta_radius = levelProbe.delta_radius ∧
      r.delta_diagonal_rod = levelProbe.delta_diagonal_rod ∧
      r.tower_adj = levelProbe.tower_adj ∧
      r.endstop_adj = levelProbe.endstop_adj ∧
      r.max_pos = (home_delta_axis deltaCfg0 levelProbe).max_pos ∧
      r.max_pos.z =
        if deltaCfg0.HOMEAXIS_DO 2 then levelProbe.base_max_pos.z + levelProbe.add_homing.z
        else levelProbe.max_pos.z :=
  C22_level_bed_keeps_geometry deltaCfg0 0 (bytes "G30 A") levelProbe (by decide) (by decide)
    (by decide) (by decide) (fun _ => by simp [levelProbe, calStart]) (by decide!)

/-- With the readings of `domeProbe`, `bed_probe_all` takes 14 readings and
stores 1 for the centre and 0 for the six other points. -/
theorem bed_probe_all_dome (s : DeltaCal) (h : domeReadings s) :
    bed_probe_all s =
      { s with
        z_probe_calls := s.z_probe_calls + 14
        probed := s.probed ++ probe_points s
        bed_level_c := 1, bed_level_z := 0, bed_level_oy := 0, bed_level_x := 0
        bed_level_oz := 0, bed_level_y := 0, bed_level_ox := 0 } := by
  obtain ⟨h1, h2, h3⟩ := h
  have hv : ∀ i, i < 14 → probeValue s i = if i < 2 then 1 else 0 := by
    intro i hi
    unfold probeValue
    rw [h1, h2]
    show (if (s.z_probe_calls + i) % 14 < 2 then (1 : ℚ) else 0) + 0 = _
    have e : (s.z_probe_calls + i) % 14 = i := by omega
    rw [e, add_zero]
  rw [bed_probe_all_steady s (fun i hi => ⟨by
    rw [hv _ (by omega)]
    split_ifs <;> norm_num, by
    rw [hv _ (by omega), hv _ (by omega)]
    have e : (2 * i + 1 < 2) = (2 * i < 2) := by
      apply propext
      constructor <;> intro hh <;> omega
    simp only [e]⟩)]
  rw [hv 0 (by norm_num), hv 2 (by norm_num), hv 4 (by norm_num), hv 6 (by norm_num),
    hv 8 (by norm_num), hv 10 (by norm_num), hv 12 (by norm_num)]
  rfl
/-- The first part of the body of the inner loop keeps the probe, the precision,
the probed points, the bed radius, `loopcount`, the step `adj_r` and
`adj_dr_allowed`, and adds the step to `delta_radius` when the radius is not
done. -/
theorem apply_adjustments_frame (cfg : DeltaCfg) (a : AutoCal) :
    (apply_adjustments cfg a).cal.z_probe_readings = a.cal.z_probe_readings ∧
      (apply_adjustments cfg a).cal.z_probe_offset = a.cal.z_probe_offset ∧
      (apply_adjustments cfg a).cal.z_probe_calls = a.cal.z_probe_calls ∧
      (apply_adjustments cfg a).cal.ac_prec = a.cal.ac_prec ∧
      (apply_adjustments cfg a).cal.probed = a.cal.probed ∧
      (apply_adjustments cfg a).cal.bed_radius = a.cal.bed_radius ∧
      (apply_adjustments cfg a).loopcount = a.loopcount ∧
      (apply_adjustments cfg a).adj_r = a.adj_r ∧
      (apply_adjustments cfg a).adj_dr_allowed = a.adj_dr_allowed ∧
      (apply_adjustments cfg a).cal.delta_radius =
        (if a.adj_r_done = false then a.cal.delta_radius + a.adj_r else a.cal.delta_radius) := by
  unfold apply_adjustments set_delta_constants
  dsimp only
  by_cases h1 : a.adj_r_done = false <;> by_cases h2 : a.adj_dr_allowed = false <;>
    by_cases h3 : a.adj_dr_done = false <;>
    simp only [h1, h2, h3, if_true, if_false] <;>
    simp

/-- With the readings of `domeProbe` and the precision 0.05, the probe pass of
the body of the inner loop stores 1 for the centre and 0 for the six other
points, and the completeness check leaves `loopcount` as it is. -/
theorem probe_and_check_dome (b : AutoCal) (hr : domeReadings b.cal)
    (hp : b.cal.ac_prec = 1 / 20) :
    probe_and_check b =
      { b with cal :=
        { b.cal with
          z_probe_calls := b.cal.z_probe_calls + 14
          probed := b.cal.probed ++ probe_points b.cal
          bed_level_c := 1, bed_level_z := 0, bed_level_oy := 0, bed_level_x := 0
          bed_level_oz := 0, bed_level_y := 0, bed_level_ox := 0
          out := b.cal.out ++ ["\tZ-Tower\t\t\tEndstop Offsets", "", "\t\tTower Position Adjust",
            "", "", "", ""] } } := by
  unfold probe_and_check
  rw [bed_probe_all_dome b.cal hr]
  unfold calibration_report completeness_check
  dsimp only
  rw [hp]
  by_cases hd : b.adj_dr_allowed = true
  · rw [if_pos hd, if_neg (by norm_num)]
  · rw [if_neg hd, if_neg (by norm_num)]

/-- With the readings of `domeProbe` and the precision 0.05, one pass through
the body of the inner loop probes seven more points, leaves `loopcount` as it
is and the radius not done, and keeps a negative step `adj_r`. -/
theorem geometry_adjust_body_dome (cfg : DeltaCfg) (a : AutoCal) (hr : domeReadings a.cal)
    (hp : a.cal.ac_prec = 1 / 20) :
    domeReadings (geometry_adjust_body cfg a).cal ∧
      (geometry_adjust_body cfg a).cal.ac_prec = 1 / 20 ∧
      (geometry_adjust_body cfg a).loopcount = a.loopcount ∧
      (geometry_adjust_body cfg a).adj_r_done = false ∧
      (geometry_adjust_body cfg a).adj_r = (if a.adj_r > 0 then -(a.adj_r / 2) else a.adj_r) ∧
      (geometry_adjust_body cfg a).cal.probed = a.cal.probed ++ probe_points a.cal ∧
      (geometry_adjust_body cfg a).cal.delta_radius =
        (if a.adj_r_done = false then a.cal.delta_radius + a.adj_r else a.cal.delta_radius) := by
  obtain ⟨f1, f2, f3, f4, f5, f6, f7, f8, -, f10⟩ := apply_adjustments_frame cfg a
  have hr1 : domeReadings (apply_adjustments cfg a).cal := by
    obtain ⟨r1, r2, r3⟩ := hr
    exact ⟨by rw [f1, r1], by rw [f2, r2], by rw [f3, r3]⟩
  have hp1 : (apply_adjustments cfg a).cal.ac_prec = 1 / 20 := by rw [f4, hp]
  unfold geometry_adjust_body
  rw [probe_and_check_dome _ hr1 hp1]
  generalize apply_adjustments cfg a = b at f1 f2 f3 f4 f5 f6 f7 f8 f10 hr1 hp1
  obtain ⟨r1, r2, r3⟩ := hr1
  refine ⟨⟨r1, r2, ?_⟩, hp1, f7, ?_, ?_, ?_, f10⟩
  · show (b.cal.z_probe_calls + 14) % 14 = 0
    omega
  · show decide ((1 : ℚ) ≥ (0 + 0 + 0) / 3 - b.cal.ac_prec ∧
      (1 : ℚ) ≤ (0 + 0 + 0) / 3 + b.cal.ac_prec) = false
    rw [hp1]
    norm_num
  · show overshoot_reverse b.adj_r 1 ((0 + 0 + 0) / 3) = _
    unfold overshoot_reverse
    rw [f8]
    by_cases hpos : a.adj_r > 0
    · rw [if_pos hpos, if_pos (Or.inl ⟨hpos, by norm_num⟩)]
    · rw [if_neg hpos, if_neg (by
        intro hc
        rcases hc with hc | hc
        · exact hpos hc.1
        · norm_num at hc)]
  · show b.cal.probed ++ probe_points b.cal = _
    unfold probe_points
    rw [f5, f6]
/-- With the readings of `domeProbe`, homing, probing all points and reporting
change `min_pos` and `max_pos` (homing), the seven readings (1 at the centre, 0
elsewhere), the count of `z_probe` calls (14 more), the list of probed points
(7 more) and the output. -/
theorem probe_pass_dome (cfg : DeltaCfg) (u : DeltaCal) (h : domeReadings u) :
    calibration_report (bed_probe_all (home_delta_axis cfg u)) =
      { u with
        min_pos := (home_delta_axis cfg u).min_pos
        max_pos := (home_delta_axis cfg u).max_pos
        z_probe_calls := u.z_probe_calls + 14
        probed := u.probed ++ probe_points u
        bed_level_c := 1, bed_level_z := 0, bed_level_oy := 0, bed_level_x := 0
        bed_level_oz := 0, bed_level_y := 0, bed_level_ox := 0
        out := u.out ++ ["\tZ-Tower\t\t\tEndstop Offsets", "", "\t\tTower Position Adjust",
          "", "", "", ""] } := by
  have e := home_delta_axis_frame cfg u
  have hz : domeReadings (home_delta_axis cfg u) := by rw [e]; exact h
  rw [bed_probe_all_dome _ hz]
  unfold calibration_report
  generalize home_delta_axis cfg u = w at e
  rw [e]
  rfl

/-- With the readings of `domeProbe`, the state after the first probe pass of
`G30`: the next reading starts a pass again, the centre reading is 1 and the
six other readings are 0, and one pass was probed. -/
theorem G30_first_pass_dome (cfg : DeltaCfg) (cmd : List Nat) (s : DeltaCal)
    (hr : domeReadings s) :
    domeReadings (G30_first_pass cfg cmd s) ∧
      (G30_first_pass cfg cmd s).ac_prec = s.ac_prec ∧
      (G30_first_pass cfg cmd s).bed_level_c = 1 ∧
      (G30_first_pass cfg cmd s).bed_level_x = 0 ∧
      (G30_first_pass cfg cmd s).bed_level_y = 0 ∧
      (G30_first_pass cfg cmd s).bed_level_z = 0 ∧
      (G30_first_pass cfg cmd s).bed_level_ox = 0 ∧
      (G30_first_pass cfg cmd s).bed_level_oy = 0 ∧
      (G30_first_pass cfg cmd s).bed_level_oz = 0 ∧
      (G30_first_pass cfg cmd s).probed = s.probed ++ probe_points s ∧
      (G30_first_pass cfg cmd s).delta_radius = s.delta_radius := by
  obtain ⟨r1, r2, r3⟩ := hr
  have r4 : (s.z_probe_calls + 14) % 14 = 0 := by omega
  unfold G30_first_pass
  dsimp only
  by_cases hF : code_seen cmd 70 = true <;> by_cases hA : code_seen cmd 65 = true <;>
    simp only [hF, hA, if_true, if_false, Bool.false_eq_true] <;>
    (rw [probe_pass_dome]
     rotate_left
     · exact ⟨r1, r2, r3⟩
     exact ⟨⟨r1, r2, r4⟩, rfl, rfl, rfl, rfl, rfl, rfl, rfl, rfl, rfl, rfl⟩)

/-- With the readings of `domeProbe`, the precision 0.05 and `loopcount` below
the limit, the inner loop does not end, whatever the number of passes allowed:
no pass makes the radius done or changes `loopcount`. -/
theorem geometry_adjust_loop_dome (cfg : DeltaCfg) :
    ∀ (fuel : Nat) (a : AutoCal), domeReadings a.cal → a.cal.ac_prec = 1 / 20 →
      a.loopcount < iterations → geometry_adjust_loop cfg fuel a = none := by
  intro fuel
  induction fuel with
  | zero => intro a _ _ _; rfl
  | succ k ih =>
    intro a hr hp hl
    obtain ⟨b1, b2, b3, b4, -⟩ := geometry_adjust_body_dome cfg a hr hp
    rw [geometry_adjust_loop]
    rw [if_pos b4, if_pos (by rw [b3]; exact hl)]
    exact ih _ b1 b2 (by rw [b3]; exact hl)

/-- The state of the inner loop at its first entry in the run on `domeProbe`:
the probe is that of `domeProbe` at the start of a pass, the precision is 0.05,
`loopcount` is 1, the radius is not done, the step is -1, seven points were
probed and the radius is 100. -/
theorem domeEntry_facts :
    domeReadings domeEntry.cal ∧ domeEntry.cal.ac_prec = 1 / 20 ∧ domeEntry.loopcount = 1 ∧
      domeEntry.adj_r_done = false ∧ domeEntry.adj_r = -1 ∧
      domeEntry.cal.probed.length = 7 ∧ domeEntry.cal.delta_radius = 100 := by
  obtain ⟨h1, h2, h3, -, -, -, -, -, -, h10, h11⟩ :=
    G30_first_pass_dome deltaCfg0 (bytes "G30 A") domeProbe ⟨rfl, rfl, rfl⟩
  refine ⟨h1, h2, rfl, rfl, ?_, ?_, h11⟩
  · show (if (0 : ℚ) = 0 then
        (if ((0 : ℚ) + 0 + 0) / 3 >
          (G30_first_pass deltaCfg0 (bytes "G30 A") domeProbe).bed_level_c then (1 : ℚ) else -1)
        else 0) = -1
    rw [h3]
    norm_num
  · show (G30_first_pass deltaCfg0 (bytes "G30 A") domeProbe).probed.length = 7
    rw [h10]
    rfl

/-- After `n` passes through the body of the inner loop from its first entry in
the run on `domeProbe`, the loop still continues: the radius is not done and
`loopcount` is 1; `7 * (n + 1)` points were probed and the radius is
`100 - n`. -/
theorem geometry_adjust_body_iterate_dome (cfg : DeltaCfg) :
    ∀ n : Nat, domeReadings ((geometry_adjust_body cfg)^[n] domeEntry).cal ∧
      ((geometry_adjust_body cfg)^[n] domeEntry).cal.ac_prec = 1 / 20 ∧
      ((geometry_adjust_body cfg)^[n] domeEntry).loopcount = 1 ∧
      ((geometry_adjust_body cfg)^[n] domeEntry).adj_r_done = false ∧
      ((geometry_adjust_body cfg)^[n] domeEntry).adj_r = -1 ∧
      ((geometry_adjust_body cfg)^[n] domeEntry).cal.probed.length = 7 * (n + 1) ∧
      ((geometry_adjust_body cfg)^[n] domeEntry).cal.delta_radius = 100 - (n : ℚ) := by
  intro n
  induction n with
  | zero =>
    obtain ⟨h1, h2, h3, h4, h5, h6, h7⟩ := domeEntry_facts
    refine ⟨h1, h2, h3, h4, h5, h6, ?_⟩
    show domeEntry.cal.delta_radius = 100 - ((0 : Nat) : ℚ)
    rw [h7]
    norm_num
  | succ n ih =>
    obtain ⟨h1, h2, h3, h4, h5, h6, h7⟩ := ih
    obtain ⟨b1, b2, b3, b4, b5, b6, b7⟩ :=
      geometry_adjust_body_dome cfg ((geometry_adjust_body cfg)^[n] domeEntry) h1 h2
    rw [Function.iterate_succ_apply']
    refine ⟨b1, b2, by rw [b3, h3], b4, ?_, ?_, ?_⟩
    · rw [b5, h5]
      norm_num
    · rw [b6, List.length_append, h6]
      show 7 * (n + 1) + 7 = 7 * (n + 1 + 1)
      omega
    · rw [b7, if_pos h4, h5, h7]
      push_cast
      ring
/-- In the run of `G30 A` on `domeProbe`, the first statement of iteration 1
finds the endstops in order and the radius not done, and enters the inner loop
at `domeEntry`. -/
theorem iteration_adjust_dome (fuel : Nat) :
    iteration_adjust deltaCfg0 fuel
        (autoCalStart true (G30_first_pass deltaCfg0 (bytes "G30 A") domeProbe)) =
      geometry_adjust_loop deltaCfg0 fuel domeEntry := by
  obtain ⟨-, h2, h3, h4, h5, h6, h7, h8, h9, -, -⟩ :=
    G30_first_pass_dome deltaCfg0 (bytes "G30 A") domeProbe ⟨rfl, rfl, rfl⟩
  have h2 : (G30_first_pass deltaCfg0 (bytes "G30 A") domeProbe).ac_prec = 1 / 20 := h2
  have e1 : decide ((1 : ℚ) ≥ (0 + 0 + 0) / 3 - 1 / 20 ∧ (1 : ℚ) ≤ (0 + 0 + 0) / 3 + 1 / 20) =
      false := by norm_num
  have e2 : decide (((0 : ℚ) + 0 + 0) / 3 ≥ (0 + 0 + 0) / 3 - 1 / 20 ∧
      ((0 : ℚ) + 0 + 0) / 3 ≤ (0 + 0 + 0) / 3 + 1 / 20) = true := by norm_num
  unfold iteration_adjust domeEntry autoCalStart
  dsimp only
  rw [h2, h3, h4, h5, h6, h7, h8, h9, e1, e2]
  rw [if_neg (by norm_num), if_neg (by norm_num), if_pos (Or.inl rfl)]

/-- C23, the loop that does not end: on the example delta machine with a probe
that reads 1 at the centre and 0 at the six other points on every pass
(precision 0.05), `G30 A` does not return, whatever the number of passes
allowed to its loops. The first iteration enters the inner loop at
`domeEntry`, and that loop does not end: after any number `n` of passes
through its body the radius is still not done and `loopcount` is still 1,
below `iterations`, while `7 * (n + 1)` points were probed (`n + 1` calls of
`bed_probe_all`) and `delta_radius` went from 100 to `100 - n`. -/
theorem C23_adjustment_loop_does_not_end :
    (∀ fuel : Nat,
        gcode_G30 deltaCfg0 (G30_loop deltaCfg0 fuel) (bytes "G30 A") domeProbe = none) ∧
      (∀ fuel : Nat,
        iteration_adjust deltaCfg0 fuel
            (autoCalStart true (G30_first_pass deltaCfg0 (bytes "G30 A") domeProbe)) =
          geometry_adjust_loop deltaCfg0 fuel domeEntry) ∧
      (∀ fuel : Nat, geometry_adjust_loop deltaCfg0 fuel domeEntry = none) ∧
      (∀ n : Nat,
        ((geometry_adjust_body deltaCfg0)^[n] domeEntry).adj_r_done = false ∧
        ((geometry_adjust_body deltaCfg0)^[n] domeEntry).loopcount = 1 ∧
        ((geometry_adjust_body deltaCfg0)^[n] domeEntry).loopcount < iterations ∧
        ((geometry_adjust_body deltaCfg0)^[n] domeEntry).cal.probed.length = 7 * (n + 1) ∧
        ((geometry_adjust_body deltaCfg0)^[n] domeEntry).cal.delta_radius = 100 - (n : ℚ)) := by
  have hloop : ∀ fuel : Nat, geometry_adjust_loop deltaCfg0 fuel domeEntry = none := by
    intro fuel
    obtain ⟨h1, h2, h3, -⟩ := domeEntry_facts
    exact geometry_adjust_loop_dome deltaCfg0 fuel domeEntry h1 h2 (by rw [h3]; decide)
  refine ⟨?_, iteration_adjust_dome, hloop, ?_⟩
  · intro fuel
    have hG : G30_loop deltaCfg0 fuel true
        (G30_first_pass deltaCfg0 (bytes "G30 A") domeProbe) = none := by
      unfold G30_loop
      cases fuel with
      | zero => rfl
      | succ k =>
        rw [calibration_loop, iteration_adjust_dome, hloop]
        rfl
    rw [gcode_G30_A deltaCfg0 _ (bytes "G30 A") domeProbe (by decide) (by decide) (by decide)]
    unfold G30_autocalibrate
    dsimp only
    simp only [show code_seen (bytes "G30 A") 68 = false from by decide, Bool.false_eq_true,
      if_false]
    rw [if_neg (by decide!), hG]
    rfl
  · intro n
    obtain ⟨-, -, h3, h4, -, h6, h7⟩ := geometry_adjust_body_iterate_dome deltaCfg0 n
    exact ⟨h4, h3, by rw [h3]; decide, h6, h7⟩

/-- C1 (the code at the failing input): after line 4, the serial line
`N5 G28*22;home` contains `N` with the expected number 5 and a `*` whose number
22 is the XOR of the bytes before it, yet `get_command` does not accept it: the
input is consumed, nothing is enqueued, `gcode_LastN` stays 4, nothing is
answered and `comment_mode` stays set. The same line without the comment is
accepted: it is enqueued and `gcode_LastN` becomes 5. -/
theorem C1_numbered_line_with_comment_is_not_accepted :
    (strchr (bytes "N5 G28*22;home") 78).map (fun p => strtol (p.drop 1)) = some 5 ∧
    (strchr (bytes "N5 G28*22;home") 42).map (fun q => (strtod (q.drop 1)).toInt) = some 22 ∧
    checksumOf (bytes "N5 G28*22;home") = 22 ∧
    (get_command cfg0 (pendingInput 4 (bytes "N5 G28*22;home" ++ [10]))).rx = [] ∧
    (get_command cfg0 (pendingInput 4 (bytes "N5 G28*22;home" ++ [10]))).buflen = 0 ∧
    (get_command cfg0 (pendingInput 4 (bytes "N5 G28*22;home" ++ [10]))).bufindw = 0 ∧
    (get_command cfg0 (pendingInput 4 (bytes "N5 G28*22;home" ++ [10]))).gcode_LastN = 4 ∧
    (get_command cfg0 (pendingInput 4 (bytes "N5 G28*22;home" ++ [10]))).out = [] ∧
    (get_command cfg0 (pendingInput 4 (bytes "N5 G28*22;home" ++ [10]))).comment_mode = true ∧
    (get_command cfg0 (pendingInput 4 (bytes "N5 G28*22" ++ [10]))).buflen = 1 ∧
    (get_command cfg0 (pendingInput 4 (bytes "N5 G28*22" ++ [10]))).cmd cfg0 0 =
      bytes "N5 G28*22" ∧
    (get_command cfg0 (pendingInput 4 (bytes "N5 G28*22" ++ [10]))).gcode_LastN = 5 := by
  refine ⟨?_, ?_, ?_, ?_, ?_, ?_, ?_, ?_, ?_, ?_, ?_, ?_⟩ <;> decide!

/-- C2 (the code at the failing input): after line 4, the serial line
`N9 G28*26;x` has the number 9, not the expected 5, and no `M110`, so it is a
line to reject; yet `get_command` answers nothing, neither an error line nor a
resend request, and leaves `comment_mode` set, so that the next line
`N5 G28*22`, which is the expected line with a matching checksum, is consumed
without being enqueued and without an answer. The same line without the
comment is answered with the error line and the resend request for line 5. -/
theorem C2_rejected_line_with_comment_gets_no_resend :
    (strchr (bytes "N9 G28*26;x") 78).map (fun p => strtol (p.drop 1)) = some 9 ∧
    strstr (bytes "N9 G28*26;x") (bytes "M110") = none ∧
    (get_command cfg0 (pendingInput 4 (bytes "N9 G28*26;x" ++ [10]))).rx = [] ∧
    (get_command cfg0 (pendingInput 4 (bytes "N9 G28*26;x" ++ [10]))).buflen = 0 ∧
    (get_command cfg0 (pendingInput 4 (bytes "N9 G28*26;x" ++ [10]))).gcode_LastN = 4 ∧
    (get_command cfg0 (pendingInput 4 (bytes "N9 G28*26;x" ++ [10]))).out = [] ∧
    (get_command cfg0 (pendingInput 4 (bytes "N9 G28*26;x" ++ [10]))).comment_mode = true ∧
    (get_command cfg0 (pendingInput 4
      (bytes "N9 G28*26;x" ++ [10] ++ bytes "N5 G28*22" ++ [10]))).rx = [] ∧
    (get_command cfg0 (pendingInput 4
      (bytes "N9 G28*26;x" ++ [10] ++ bytes "N5 G28*22" ++ [10]))).buflen = 0 ∧
    (get_command cfg0 (pendingInput 4
      (bytes "N9 G28*26;x" ++ [10] ++ bytes "N5 G28*22" ++ [10]))).gcode_LastN = 4 ∧
    (get_command cfg0 (pendingInput 4
      (bytes "N9 G28*26;x" ++ [10] ++ bytes "N5 G28*22" ++ [10]))).out = [] ∧
    (get_command cfg0 (pendingInput 4 (bytes "N9 G28*26" ++ [10]))).buflen = 0 ∧
    (get_command cfg0 (pendingInput 4 (bytes "N9 G28*26" ++ [10]))).gcode_LastN = 4 ∧
    (get_command cfg0 (pendingInput 4 (bytes "N9 G28*26" ++ [10]))).out =
      [Out.errLineNo 4, Out.resend 5, Out.ok] := by
  refine ⟨?_, ?_, ?_, ?_, ?_, ?_, ?_, ?_, ?_, ?_, ?_, ?_, ?_, ?_⟩ <;> decide!

/-- C3 (the code at the failing input): after line 4, the serial line
`N7 M110*36;x` is a line `N7 M110` with a correct checksum (36 is the XOR of
the bytes before `*`), yet `get_command` does not accept it: the input is
consumed, nothing is enqueued, `gcode_LastN` stays 4 and not 7, and
`comment_mode` stays set. The same line without the comment is accepted and
`gcode_LastN` becomes 7. -/
theorem C3_M110_with_comment_is_not_accepted :
    (strchr (bytes "N7 M110*36;x") 78).map (fun p => strtol (p.drop 1)) = some 7 ∧
    (strstr (bytes "N7 M110*36;x") (bytes "M110")).isSome = true ∧
    (strchr (bytes "N7 M110*36;x") 42).map (fun q => (strtod (q.drop 1)).toInt) = some 36 ∧
    checksumOf (bytes "N7 M110*36;x") = 36 ∧
    (get_command cfg0 (pendingInput 4 (bytes "N7 M110*36;x" ++ [10]))).rx = [] ∧
    (get_command cfg0 (pendingInput 4 (bytes "N7 M110*36;x" ++ [10]))).buflen = 0 ∧
    (get_command cfg0 (pendingInput 4 (bytes "N7 M110*36;x" ++ [10]))).bufindw = 0 ∧
    (get_command cfg0 (pendingInput 4 (bytes "N7 M110*36;x" ++ [10]))).gcode_LastN = 4 ∧
    (get_command cfg0 (pendingInput 4 (bytes "N7 M110*36;x" ++ [10]))).out = [] ∧
    (get_command cfg0 (pendingInput 4 (bytes "N7 M110*36;x" ++ [10]))).comment_mode = true ∧
    (get_command cfg0 (pendingInput 4 (bytes "N7 M110*36" ++ [10]))).buflen = 1 ∧
    (get_command cfg0 (pendingInput 4 (bytes "N7 M110*36" ++ [10]))).cmd cfg0 0 =
      bytes "N7 M110*36" ∧
    (get_command cfg0 (pendingInput 4 (bytes "N7 M110*36" ++ [10]))).gcode_LastN = 7 := by
  refine ⟨?_, ?_, ?_, ?_, ?_, ?_, ?_, ?_, ?_, ?_, ?_, ?_, ?_⟩ <;> decide!

end MarlinKimbra
